import Mathlib

/-!
Verification of the row-to-typed-value conversion layer (`src/value_row.rs`).

The file shallowly embeds the data model (`ValueRow`, `ColumnType`), the
error taxonomies (`RowConvertError`, `RowConvertTupleError`) and the
built-in `TryFromValueRow` conversion strategies (identity, unit,
single-scalar, tuple arities 1..12) as executable Lean definitions, and
proves properties about them.

Rust machine integers are modelled as `Nat`/`Int`; the one place where a
width matters is `values.len() as u16` in the tuple arity error, modelled
as `% 65536`.
-/

/-- Modelled from the spec: the external dynamic value tagged union
(`Value` in `value.rs`, which is not under `src/`). The core treats it
opaquely; only the kinds used by the spec's concrete scenarios are
needed (integer, boolean/bit, text). -/
inductive Value : Type
  | Bit (b : Bool)
  | Integer (i : Int)
  | Text (s : String)
  deriving DecidableEq, Repr

/-- Modelled from the spec: the external `ValueType` tag describing one
column's declared kind (`value.rs` is not under `src/`). Opaque to the
core; a few tags suffice. -/
inductive ValueType : Type
  | IntegerTy
  | BitTy
  | TextTy
  deriving DecidableEq, Repr

/-- Row of dynamic nullable column values: `pub type ValueRow = Vec<Option<Value>>;`. -/
abbrev ValueRow : Type := List (Option Value)

/-- Description of column type, name and nullability used to represent row schema:
`pub struct ColumnType { value_type: ValueType, nullable: bool, name: String }`. -/
structure ColumnType : Type where
  value_type : ValueType
  nullable : Bool
  name : String
  deriving DecidableEq, Repr

/-- The scalar conversion capability: one implementation of the external
`TryFromValue` trait, whose shape is visible from `src/value_row.rs`
(`try_from_value` is applied to an `Option<Value>` entry and returns a
result with an associated error type `ε`). -/
structure TryFromValueCap (α : Type) (ε : Type) : Type where
  tryFromValue : Option Value → Except ε α

/-- Errors that may happen during conversion of `ValueRow` to a given type
(`enum RowConvertError`). `Box<dyn Error>` in `ValueConvertError` is
modelled by a type parameter `ε` for the boxed cause. The `u16` field
`expected` and the `usize` field `got` are both modelled as `Nat`. -/
inductive RowConvertError (ε : Type) : Type
  | UnexpectedNullValue (typeName : String)
  | UnexpectedValue
  | UnexpectedNumberOfColumns (expected : Nat) (got : Nat)
  | ValueConvertError (cause : ε)
  deriving DecidableEq, Repr

/-- The `Error::source` method of `RowConvertError`: the first three
variants return `None`; `ValueConvertError(err)` returns `Some(err)`. -/
def RowConvertError.source : RowConvertError ε → Option ε
  | .UnexpectedNullValue _ => none
  | .UnexpectedValue => none
  | .UnexpectedNumberOfColumns _ _ => none
  | .ValueConvertError err => some err

/-- Recogniser for the `UnexpectedNullValue` variant (used to state its
unreachability in the single-scalar strategy). -/
def RowConvertError.isUnexpectedNullValue : RowConvertError ε → Bool
  | .UnexpectedNullValue _ => true
  | _ => false

/-- Errors that may arise when converting rows to tuples
(`enum RowConvertTupleError`). The `u16` field `expected` is modelled as
`Nat` (its construction site applies `% 65536` for the `as u16` cast),
`tuple` is the `&'static str` tuple type name. -/
inductive RowConvertTupleError (ε : Type) : Type
  | UnexpectedNumberOfColumns (expected : Nat) (tuple : String)
  | ValueConvertError (cause : ε)
  deriving DecidableEq, Repr

/-- The `Error::source` method of `RowConvertTupleError`:
`UnexpectedNumberOfColumns` returns `None`; `ValueConvertError(err)`
returns `Some(err)`. -/
def RowConvertTupleError.source : RowConvertTupleError ε → Option ε
  | .UnexpectedNumberOfColumns _ _ => none
  | .ValueConvertError err => some err

/-- Identity strategy: `impl TryFromValueRow for ValueRow` with
`type Error = Infallible` (modelled by the uninhabited `Empty`);
returns `Ok(values)`. -/
def tryFromRowRaw (values : ValueRow) (_schema : List ColumnType) :
    Except Empty ValueRow :=
  Except.ok values

/-- Unit strategy: `impl TryFromValueRow for ()`; always
`Err(RowConvertError::UnexpectedValue)` regardless of the row. -/
def tryFromRowUnit (_values : ValueRow) (_schema : List ColumnType) :
    Except (RowConvertError ε) Unit :=
  Except.error RowConvertError.UnexpectedValue

/-- Single-scalar strategy: `impl<T: TryFromValue> TryFromValueRow for T`.
If `values.len() != 1` fail with `UnexpectedNumberOfColumns { expected: 1,
got: values.len() }`; otherwise `values.pop()` (last element of the vector,
modelled by `List.getLast?`), `.ok_or_else(|| UnexpectedNullValue("Value"))`,
then delegate to `try_from_value`, wrapping its error in
`ValueConvertError`. -/
def tryFromRowScalar (cap : TryFromValueCap α ε) (values : ValueRow)
    (_schema : List ColumnType) : Except (RowConvertError ε) α :=
  if values.length ≠ 1 then
    Except.error (RowConvertError.UnexpectedNumberOfColumns 1 values.length)
  else
    match values.getLast? with
    | none => Except.error (RowConvertError.UnexpectedNullValue "Value")
    | some v => (cap.tryFromValue v).mapError RowConvertError.ValueConvertError

/-- Tuple strategy, arity 1 (one instantiation of the `try_from_tuple!`
macro): if `values.len() != 1` fail with `UnexpectedNumberOfColumns
{ expected: values.len() as u16, tuple: stringify![(A,)] }`; otherwise
convert the elements in row order by repeated `values.next().unwrap()`,
fail-fast via `?`, wrapping any scalar error in `ValueConvertError`.
The source's length guard followed by element iteration is embedded as a
single list pattern match: the pattern of arity `N` is exactly the
`values.len() == N` test, and the fallback is the arity error with the
row's length reduced `% 65536` for the `as u16` cast. -/
def tryFromRowTuple1 (c1 : TryFromValueCap α1 ε)
    (values : ValueRow) (_schema : List ColumnType) :
    Except (RowConvertTupleError ε) (α1) :=
  match values with
  | [v1] =>
      (c1.tryFromValue v1).mapError
        RowConvertTupleError.ValueConvertError >>= fun x1 =>
      Except.ok (x1)
  | vs =>
      Except.error (RowConvertTupleError.UnexpectedNumberOfColumns
        (vs.length % 65536) "(A,)")

/-- Tuple strategy, arity 2 (see `tryFromRowTuple1`). -/
def tryFromRowTuple2 (c1 : TryFromValueCap α1 ε) (c2 : TryFromValueCap α2 ε)
    (values : ValueRow) (_schema : List ColumnType) :
    Except (RowConvertTupleError ε) (α1 × α2) :=
  match values with
  | [v1, v2] =>
      (c1.tryFromValue v1).mapError
        RowConvertTupleError.ValueConvertError >>= fun x1 =>
      (c2.tryFromValue v2).mapError
        RowConvertTupleError.ValueConvertError >>= fun x2 =>
      Except.ok (x1, x2)
  | vs =>
      Except.error (RowConvertTupleError.UnexpectedNumberOfColumns
        (vs.length % 65536) "(A, B,)")

/-- Tuple strategy, arity 3 (see `tryFromRowTuple1`). -/
def tryFromRowTuple3 (c1 : TryFromValueCap α1 ε) (c2 : TryFromValueCap α2 ε) (c3 : TryFromValueCap α3 ε)
    (values : ValueRow) (_schema : List ColumnType) :
    Except (RowConvertTupleError ε) (α1 × α2 × α3) :=
  match values with
  | [v1, v2, v3] =>
      (c1.tryFromValue v1).mapError
        RowConvertTupleError.ValueConvertError >>= fun x1 =>
      (c2.tryFromValue v2).mapError
        RowConvertTupleError.ValueConvertError >>= fun x2 =>
      (c3.tryFromValue v3).mapError
        RowConvertTupleError.ValueConvertError >>= fun x3 =>
      Except.ok (x1, x2, x3)
  | vs =>
      Except.error (RowConvertTupleError.UnexpectedNumberOfColumns
        (vs.length % 65536) "(A, B, C,)")

/-- Tuple strategy, arity 4 (see `tryFromRowTuple1`). -/
def tryFromRowTuple4 (c1 : TryFromValueCap α1 ε) (c2 : TryFromValueCap α2 ε) (c3 : TryFromValueCap α3 ε) (c4 : TryFromValueCap α4 ε)
    (values : ValueRow) (_schema : List ColumnType) :
    Except (RowConvertTupleError ε) (α1 × α2 × α3 × α4) :=
  match values with
  | [v1, v2, v3, v4] =>
      (c1.tryFromValue v1).mapError
        RowConvertTupleError.ValueConvertError >>= fun x1 =>
      (c2.tryFromValue v2).mapError
        RowConvertTupleError.ValueConvertError >>= fun x2 =>
      (c3.tryFromValue v3).mapError
        RowConvertTupleError.ValueConvertError >>= fun x3 =>
      (c4.tryFromValue v4).mapError
        RowConvertTupleError.ValueConvertError >>= fun x4 =>
      Except.ok (x1, x2, x3, x4)
  | vs =>
      Except.error (RowConvertTupleError.UnexpectedNumberOfColumns
        (vs.length % 65536) "(A, B, C, D,)")

/-- Tuple strategy, arity 5 (see `tryFromRowTuple1`). -/
def tryFromRowTuple5 (c1 : TryFromValueCap α1 ε) (c2 : TryFromValueCap α2 ε) (c3 : TryFromValueCap α3 ε) (c4 : TryFromValueCap α4 ε) (c5 : TryFromValueCap α5 ε)
    (values : ValueRow) (_schema : List ColumnType) :
    Except (RowConvertTupleError ε) (α1 × α2 × α3 × α4 × α5) :=
  match values with
  | [v1, v2, v3, v4, v5] =>
      (c1.tryFromValue v1).mapError
        RowConvertTupleError.ValueConvertError >>= fun x1 =>
      (c2.tryFromValue v2).mapError
        RowConvertTupleError.ValueConvertError >>= fun x2 =>
      (c3.tryFromValue v3).mapError
        RowConvertTupleError.ValueConvertError >>= fun x3 =>
      (c4.tryFromValue v4).mapError
        RowConvertTupleError.ValueConvertError >>= fun x4 =>
      (c5.tryFromValue v5).mapError
        RowConvertTupleError.ValueConvertError >>= fun x5 =>
      Except.ok (x1, x2, x3, x4, x5)
  | vs =>
      Except.error (RowConvertTupleError.UnexpectedNumberOfColumns
        (vs.length % 65536) "(A, B, C, D, E,)")

/-- Tuple strategy, arity 6 (see `tryFromRowTuple1`). -/
def tryFromRowTuple6 (c1 : TryFromValueCap α1 ε) (c2 : TryFromValueCap α2 ε) (c3 : TryFromValueCap α3 ε) (c4 : TryFromValueCap α4 ε) (c5 : TryFromValueCap α5 ε) (c6 : TryFromValueCap α6 ε)
    (values : ValueRow) (_schema : List ColumnType) :
    Except (RowConvertTupleError ε) (α1 × α2 × α3 × α4 × α5 × α6) :=
  match values with
  | [v1, v2, v3, v4, v5, v6] =>
      (c1.tryFromValue v1).mapError
        RowConvertTupleError.ValueConvertError >>= fun x1 =>
      (c2.tryFromValue v2).mapError
        RowConvertTupleError.ValueConvertError >>= fun x2 =>
      (c3.tryFromValue v3).mapError
        RowConvertTupleError.ValueConvertError >>= fun x3 =>
      (c4.tryFromValue v4).mapError
        RowConvertTupleError.ValueConvertError >>= fun x4 =>
      (c5.tryFromValue v5).mapError
        RowConvertTupleError.ValueConvertError >>= fun x5 =>
      (c6.tryFromValue v6).mapError
        RowConvertTupleError.ValueConvertError >>= fun x6 =>
      Except.ok (x1, x2, x3, x4, x5, x6)
  | vs =>
      Except.error (RowConvertTupleError.UnexpectedNumberOfColumns
        (vs.length % 65536) "(A, B, C, D, E, F,)")

/-- Tuple strategy, arity 7 (see `tryFromRowTuple1`). -/
def tryFromRowTuple7 (c1 : TryFromValueCap α1 ε) (c2 : TryFromValueCap α2 ε) (c3 : TryFromValueCap α3 ε) (c4 : TryFromValueCap α4 ε) (c5 : TryFromValueCap α5 ε) (c6 : TryFromValueCap α6 ε) (c7 : TryFromValueCap α7 ε)
    (values : ValueRow) (_schema : List ColumnType) :
    Except (RowConvertTupleError ε) (α1 × α2 × α3 × α4 × α5 × α6 × α7) :=
  match values with
  | [v1, v2, v3, v4, v5, v6, v7] =>
      (c1.tryFromValue v1).mapError
        RowConvertTupleError.ValueConvertError >>= fun x1 =>
      (c2.tryFromValue v2).mapError
        RowConvertTupleError.ValueConvertError >>= fun x2 =>
      (c3.tryFromValue v3).mapError
        RowConvertTupleError.ValueConvertError >>= fun x3 =>
      (c4.tryFromValue v4).mapError
        RowConvertTupleError.ValueConvertError >>= fun x4 =>
      (c5.tryFromValue v5).mapError
        RowConvertTupleError.ValueConvertError >>= fun x5 =>
      (c6.tryFromValue v6).mapError
        RowConvertTupleError.ValueConvertError >>= fun x6 =>
      (c7.tryFromValue v7).mapError
        RowConvertTupleError.ValueConvertError >>= fun x7 =>
      Except.ok (x1, x2, x3, x4, x5, x6, x7)
  | vs =>
      Except.error (RowConvertTupleError.UnexpectedNumberOfColumns
        (vs.length % 65536) "(A, B, C, D, E, F, G,)")

/-- Tuple strategy, arity 8 (see `tryFromRowTuple1`). -/
def tryFromRowTuple8 (c1 : TryFromValueCap α1 ε) (c2 : TryFromValueCap α2 ε) (c3 : TryFromValueCap α3 ε) (c4 : TryFromValueCap α4 ε) (c5 : TryFromValueCap α5 ε) (c6 : TryFromValueCap α6 ε) (c7 : TryFromValueCap α7 ε) (c8 : TryFromValueCap α8 ε)
    (values : ValueRow) (_schema : List ColumnType) :
    Except (RowConvertTupleError ε) (α1 × α2 × α3 × α4 × α5 × α6 × α7 × α8) :=
  match values with
  | [v1, v2, v3, v4, v5, v6, v7, v8] =>
      (c1.tryFromValue v1).mapError
        RowConvertTupleError.ValueConvertError >>= fun x1 =>
      (c2.tryFromValue v2).mapError
        RowConvertTupleError.ValueConvertError >>= fun x2 =>
      (c3.tryFromValue v3).mapError
        RowConvertTupleError.ValueConvertError >>= fun x3 =>
      (c4.tryFromValue v4).mapError
        RowConvertTupleError.ValueConvertError >>= fun x4 =>
      (c5.tryFromValue v5).mapError
        RowConvertTupleError.ValueConvertError >>= fun x5 =>
      (c6.tryFromValue v6).mapError
        RowConvertTupleError.ValueConvertError >>= fun x6 =>
      (c7.tryFromValue v7).mapError
        RowConvertTupleError.ValueConvertError >>= fun x7 =>
      (c8.tryFromValue v8).mapError
        RowConvertTupleError.ValueConvertError >>= fun x8 =>
      Except.ok (x1, x2, x3, x4, x5, x6, x7, x8)
  | vs =>
      Except.error (RowConvertTupleError.UnexpectedNumberOfColumns
        (vs.length % 65536) "(A, B, C, D, E, F, G, H,)")

/-- Tuple strategy, arity 9 (see `tryFromRowTuple1`). -/
def tryFromRowTuple9 (c1 : TryFromValueCap α1 ε) (c2 : TryFromValueCap α2 ε) (c3 : TryFromValueCap α3 ε) (c4 : TryFromValueCap α4 ε) (c5 : TryFromValueCap α5 ε) (c6 : TryFromValueCap α6 ε) (c7 : TryFromValueCap α7 ε) (c8 : TryFromValueCap α8 ε) (c9 : TryFromValueCap α9 ε)
    (values : ValueRow) (_schema : List ColumnType) :
    Except (RowConvertTupleError ε) (α1 × α2 × α3 × α4 × α5 × α6 × α7 × α8 × α9) :=
  match values with
  | [v1, v2, v3, v4, v5, v6, v7, v8, v9] =>
      (c1.tryFromValue v1).mapError
        RowConvertTupleError.ValueConvertError >>= fun x1 =>
      (c2.tryFromValue v2).mapError
        RowConvertTupleError.ValueConvertError >>= fun x2 =>
      (c3.tryFromValue v3).mapError
        RowConvertTupleError.ValueConvertError >>= fun x3 =>
      (c4.tryFromValue v4).mapError
        RowConvertTupleError.ValueConvertError >>= fun x4 =>
      (c5.tryFromValue v5).mapError
        RowConvertTupleError.ValueConvertError >>= fun x5 =>
      (c6.tryFromValue v6).mapError
        RowConvertTupleError.ValueConvertError >>= fun x6 =>
      (c7.tryFromValue v7).mapError
        RowConvertTupleError.ValueConvertError >>= fun x7 =>
      (c8.tryFromValue v8).mapError
        RowConvertTupleError.ValueConvertError >>= fun x8 =>
      (c9.tryFromValue v9).mapError
        RowConvertTupleError.ValueConvertError >>= fun x9 =>
      Except.ok (x1, x2, x3, x4, x5, x6, x7, x8, x9)
  | vs =>
      Except.error (RowConvertTupleError.UnexpectedNumberOfColumns
        (vs.length % 65536) "(A, B, C, D, E, F, G, H, I,)")

/-- Tuple strategy, arity 10 (see `tryFromRowTuple1`). -/
def tryFromRowTuple10 (c1 : TryFromValueCap α1 ε) (c2 : TryFromValueCap α2 ε) (c3 : TryFromValueCap α3 ε) (c4 : TryFromValueCap α4 ε) (c5 : TryFromValueCap α5 ε) (c6 : TryFromValueCap α6 ε) (c7 : TryFromValueCap α7 ε) (c8 : TryFromValueCap α8 ε) (c9 : TryFromValueCap α9 ε) (c10 : TryFromValueCap α10 ε)
    (values : ValueRow) (_schema : List ColumnType) :
    Except (RowConvertTupleError ε) (α1 × α2 × α3 × α4 × α5 × α6 × α7 × α8 × α9 × α10) :=
  match values with
  | [v1, v2, v3, v4, v5, v6, v7, v8, v9, v10] =>
      (c1.tryFromValue v1).mapError
        RowConvertTupleError.ValueConvertError >>= fun x1 =>
      (c2.tryFromValue v2).mapError
        RowConvertTupleError.ValueConvertError >>= fun x2 =>
      (c3.tryFromValue v3).mapError
        RowConvertTupleError.ValueConvertError >>= fun x3 =>
      (c4.tryFromValue v4).mapError
        RowConvertTupleError.ValueConvertError >>= fun x4 =>
      (c5.tryFromValue v5).mapError
        RowConvertTupleError.ValueConvertError >>= fun x5 =>
      (c6.tryFromValue v6).mapError
        RowConvertTupleError.ValueConvertError >>= fun x6 =>
      (c7.tryFromValue v7).mapError
        RowConvertTupleError.ValueConvertError >>= fun x7 =>
      (c8.tryFromValue v8).mapError
        RowConvertTupleError.ValueConvertError >>= fun x8 =>
      (c9.tryFromValue v9).mapError
        RowConvertTupleError.ValueConvertError >>= fun x9 =>
      (c10.tryFromValue v10).mapError
        RowConvertTupleError.ValueConvertError >>= fun x10 =>
      Except.ok (x1, x2, x3, x4, x5, x6, x7, x8, x9, x10)
  | vs =>
      Except.error (RowConvertTupleError.UnexpectedNumberOfColumns
        (vs.length % 65536) "(A, B, C, D, E, F, G, H, I, J,)")

/-- Tuple strategy, arity 11 (see `tryFromRowTuple1`). -/
def tryFromRowTuple11 (c1 : TryFromValueCap α1 ε) (c2 : TryFromValueCap α2 ε) (c3 : TryFromValueCap α3 ε) (c4 : TryFromValueCap α4 ε) (c5 : TryFromValueCap α5 ε) (c6 : TryFromValueCap α6 ε) (c7 : TryFromValueCap α7 ε) (c8 : TryFromValueCap α8 ε) (c9 : TryFromValueCap α9 ε) (c10 : TryFromValueCap α10 ε) (c11 : TryFromValueCap α11 ε)
    (values : ValueRow) (_schema : List ColumnType) :
    Except (RowConvertTupleError ε) (α1 × α2 × α3 × α4 × α5 × α6 × α7 × α8 × α9 × α10 × α11) :=
  match values with
  | [v1, v2, v3, v4, v5, v6, v7, v8, v9, v10, v11] =>
      (c1.tryFromValue v1).mapError
        RowConvertTupleError.ValueConvertError >>= fun x1 =>
      (c2.tryFromValue v2).mapError
        RowConvertTupleError.ValueConvertError >>= fun x2 =>
      (c3.tryFromValue v3).mapError
        RowConvertTupleError.ValueConvertError >>= fun x3 =>
      (c4.tryFromValue v4).mapError
        RowConvertTupleError.ValueConvertError >>= fun x4 =>
      (c5.tryFromValue v5).mapError
        RowConvertTupleError.ValueConvertError >>= fun x5 =>
      (c6.tryFromValue v6).mapError
        RowConvertTupleError.ValueConvertError >>= fun x6 =>
      (c7.tryFromValue v7).mapError
        RowConvertTupleError.ValueConvertError >>= fun x7 =>
      (c8.tryFromValue v8).mapError
        RowConvertTupleError.ValueConvertError >>= fun x8 =>
      (c9.tryFromValue v9).mapError
        RowConvertTupleError.ValueConvertError >>= fun x9 =>
      (c10.tryFromValue v10).mapError
        RowConvertTupleError.ValueConvertError >>= fun x10 =>
      (c11.tryFromValue v11).mapError
        RowConvertTupleError.ValueConvertError >>= fun x11 =>
      Except.ok (x1, x2, x3, x4, x5, x6, x7, x8, x9, x10, x11)
  | vs =>
      Except.error (RowConvertTupleError.UnexpectedNumberOfColumns
        (vs.length % 65536) "(A, B, C, D, E, F, G, H, I, J, K,)")

/-- Tuple strategy, arity 12 (see `tryFromRowTuple1`). -/
def tryFromRowTuple12 (c1 : TryFromValueCap α1 ε) (c2 : TryFromValueCap α2 ε) (c3 : TryFromValueCap α3 ε) (c4 : TryFromValueCap α4 ε) (c5 : TryFromValueCap α5 ε) (c6 : TryFromValueCap α6 ε) (c7 : TryFromValueCap α7 ε) (c8 : TryFromValueCap α8 ε) (c9 : TryFromValueCap α9 ε) (c10 : TryFromValueCap α10 ε) (c11 : TryFromValueCap α11 ε) (c12 : TryFromValueCap α12 ε)
    (values : ValueRow) (_schema : List ColumnType) :
    Except (RowConvertTupleError ε) (α1 × α2 × α3 × α4 × α5 × α6 × α7 × α8 × α9 × α10 × α11 × α12) :=
  match values with
  | [v1, v2, v3, v4, v5, v6, v7, v8, v9, v10, v11, v12] =>
      (c1.tryFromValue v1).mapError
        RowConvertTupleError.ValueConvertError >>= fun x1 =>
      (c2.tryFromValue v2).mapError
        RowConvertTupleError.ValueConvertError >>= fun x2 =>
      (c3.tryFromValue v3).mapError
        RowConvertTupleError.ValueConvertError >>= fun x3 =>
      (c4.tryFromValue v4).mapError
        RowConvertTupleError.ValueConvertError >>= fun x4 =>
      (c5.tryFromValue v5).mapError
        RowConvertTupleError.ValueConvertError >>= fun x5 =>
      (c6.tryFromValue v6).mapError
        RowConvertTupleError.ValueConvertError >>= fun x6 =>
      (c7.tryFromValue v7).mapError
        RowConvertTupleError.ValueConvertError >>= fun x7 =>
      (c8.tryFromValue v8).mapError
        RowConvertTupleError.ValueConvertError >>= fun x8 =>
      (c9.tryFromValue v9).mapError
        RowConvertTupleError.ValueConvertError >>= fun x9 =>
      (c10.tryFromValue v10).mapError
        RowConvertTupleError.ValueConvertError >>= fun x10 =>
      (c11.tryFromValue v11).mapError
        RowConvertTupleError.ValueConvertError >>= fun x11 =>
      (c12.tryFromValue v12).mapError
        RowConvertTupleError.ValueConvertError >>= fun x12 =>
      Except.ok (x1, x2, x3, x4, x5, x6, x7, x8, x9, x10, x11, x12)
  | vs =>
      Except.error (RowConvertTupleError.UnexpectedNumberOfColumns
        (vs.length % 65536) "(A, B, C, D, E, F, G, H, I, J, K, L,)")

/-- Modelled from the spec: the error taxonomy of the external scalar
conversion capability (`value.rs` is not under `src/`). Spec section 4.2:
"numeric overflow, encoding/parse failure, type-kind mismatch"; section
4.1(c): absence into a bare target is a null-value failure carrying the
target type's name. -/
inductive ScalarConvertError : Type
  | NullValue (typeName : String)
  | OutOfRange (typeName : String)
  | UnexpectedType (typeName : String)
  deriving DecidableEq, Repr

/-- Modelled from the spec: the bare signed 64-bit integer scalar capability
("value required, fail on absence", spec sections 4.1(c) and 9; concrete
scenario 1). -/
def i64Cap : TryFromValueCap Int ScalarConvertError where
  tryFromValue
    | none => Except.error (ScalarConvertError.NullValue "i64")
    | some (Value.Integer n) =>
        if -(2 ^ 63) ≤ n ∧ n < 2 ^ 63 then Except.ok n
        else Except.error (ScalarConvertError.OutOfRange "i64")
    | some _ => Except.error (ScalarConvertError.UnexpectedType "i64")

/-- Modelled from the spec: the bare boolean scalar capability (concrete
scenario 4 converts a `Bit` value into a boolean). -/
def boolCap : TryFromValueCap Bool ScalarConvertError where
  tryFromValue
    | none => Except.error (ScalarConvertError.NullValue "bool")
    | some (Value.Bit b) => Except.ok b
    | some _ => Except.error (ScalarConvertError.UnexpectedType "bool")

/-- Modelled from the spec: the bare unsigned 32-bit integer scalar
capability (concrete scenario 4; out-of-range values fail as in
scenario 5). -/
def u32Cap : TryFromValueCap Nat ScalarConvertError where
  tryFromValue
    | none => Except.error (ScalarConvertError.NullValue "u32")
    | some (Value.Integer n) =>
        if 0 ≤ n ∧ n < 2 ^ 32 then Except.ok n.toNat
        else Except.error (ScalarConvertError.OutOfRange "u32")
    | some _ => Except.error (ScalarConvertError.UnexpectedType "u32")

/-- Modelled from the spec: the bare string scalar capability (concrete
scenario 4). -/
def textCap : TryFromValueCap String ScalarConvertError where
  tryFromValue
    | none => Except.error (ScalarConvertError.NullValue "String")
    | some (Value.Text s) => Except.ok s
    | some _ => Except.error (ScalarConvertError.UnexpectedType "String")

/-- Modelled from the spec: the optional-wrapper scalar capability for a
given bare capability ("value optional, absence maps to empty", spec
sections 4.1(c) and 9). An absent entry converts to the empty value; a
present entry delegates to the bare capability. -/
def optCap (cap : TryFromValueCap α ε) : TryFromValueCap (Option α) ε where
  tryFromValue
    | none => Except.ok none
    | some v => (cap.tryFromValue (some v)).map some

/-- Forgets the success value of a scalar conversion result, keeping only
its success/failure status. -/
def statusOf (r : Except ε α) : Except ε Unit :=
  r.map fun _ => ()

/-- First error in a list of conversion statuses, scanned left to right. -/
def firstErr : List (Except ε Unit) → Option ε
  | [] => none
  | Except.error e :: _ => some e
  | Except.ok _ :: rest => firstErr rest

/-- Whether a single-scalar conversion outcome is the dispatcher's own
`UnexpectedNullValue` error (as opposed to any wrapped capability error). -/
def scalarResultIsNullValueError (cap : TryFromValueCap α ε) (values : ValueRow)
    (schema : List ColumnType) : Bool :=
  match tryFromRowScalar cap values schema with
  | Except.error e => e.isUnexpectedNullValue
  | Except.ok _ => false

theorem scalar_length_ne (cap : TryFromValueCap α ε) (vs : ValueRow)
    (s : List ColumnType) (h : vs.length ≠ 1) :
    tryFromRowScalar cap vs s =
      Except.error (RowConvertError.UnexpectedNumberOfColumns 1 vs.length) := by
  simp [tryFromRowScalar, h]

theorem scalar_singleton (cap : TryFromValueCap α ε) (v : Option Value)
    (s : List ColumnType) :
    tryFromRowScalar cap [v] s =
      (cap.tryFromValue v).mapError RowConvertError.ValueConvertError := rfl


theorem tuple1_length_ne (c1 : TryFromValueCap α1 ε)
    (vs : ValueRow) (s : List ColumnType) (h : vs.length ≠ 1) :
    tryFromRowTuple1 c1 vs s = Except.error
      (RowConvertTupleError.UnexpectedNumberOfColumns (vs.length % 65536) "(A,)") := by
  rcases vs with _ | ⟨a1, _ | ⟨a2, _⟩⟩ <;> first | rfl | exact absurd rfl h

theorem tuple1_ok (c1 : TryFromValueCap α1 ε)
    (v1 : Option Value) (x1 : α1) (s : List ColumnType)
    (h1 : c1.tryFromValue v1 = Except.ok x1) :
    tryFromRowTuple1 c1 [v1] s = Except.ok (x1) := by
  simp [tryFromRowTuple1, h1, Except.mapError, Bind.bind, Except.bind]

theorem tuple1_firstErr (c1 : TryFromValueCap α1 ε)
    (v1 : Option Value) (s : List ColumnType) (e : ε)
    (h : firstErr [statusOf (c1.tryFromValue v1)] = some e) :
    tryFromRowTuple1 c1 [v1] s =
      Except.error (RowConvertTupleError.ValueConvertError e) := by
  cases hc1 : c1.tryFromValue v1 with
  | error e1 =>
    simp [firstErr, statusOf, hc1, Except.map] at h
    simp [tryFromRowTuple1, hc1, Except.mapError, Bind.bind, Except.bind, h]
  | ok x1 =>
    simp [firstErr, statusOf, hc1, Except.map] at h

theorem tuple2_length_ne (c1 : TryFromValueCap α1 ε) (c2 : TryFromValueCap α2 ε)
    (vs : ValueRow) (s : List ColumnType) (h : vs.length ≠ 2) :
    tryFromRowTuple2 c1 c2 vs s = Except.error
      (RowConvertTupleError.UnexpectedNumberOfColumns (vs.length % 65536) "(A, B,)") := by
  rcases vs with _ | ⟨a1, _ | ⟨a2, _ | ⟨a3, _⟩⟩⟩ <;> first | rfl | exact absurd rfl h

theorem tuple2_ok (c1 : TryFromValueCap α1 ε) (c2 : TryFromValueCap α2 ε)
    (v1 v2 : Option Value) (x1 : α1) (x2 : α2) (s : List ColumnType)
    (h1 : c1.tryFromValue v1 = Except.ok x1)
    (h2 : c2.tryFromValue v2 = Except.ok x2) :
    tryFromRowTuple2 c1 c2 [v1, v2] s = Except.ok (x1, x2) := by
  simp [tryFromRowTuple2, h1, h2, Except.mapError, Bind.bind, Except.bind]

theorem tuple2_firstErr (c1 : TryFromValueCap α1 ε) (c2 : TryFromValueCap α2 ε)
    (v1 v2 : Option Value) (s : List ColumnType) (e : ε)
    (h : firstErr [statusOf (c1.tryFromValue v1), statusOf (c2.tryFromValue v2)] = some e) :
    tryFromRowTuple2 c1 c2 [v1, v2] s =
      Except.error (RowConvertTupleError.ValueConvertError e) := by
  cases hc1 : c1.tryFromValue v1 with
  | error e1 =>
    simp [firstErr, statusOf, hc1, Except.map] at h
    simp [tryFromRowTuple2, hc1, Except.mapError, Bind.bind, Except.bind, h]
  | ok x1 =>
    cases hc2 : c2.tryFromValue v2 with
    | error e2 =>
      simp [firstErr, statusOf, hc1, hc2, Except.map] at h
      simp [tryFromRowTuple2, hc1, hc2, Except.mapError, Bind.bind, Except.bind, h]
    | ok x2 =>
      simp [firstErr, statusOf, hc1, hc2, Except.map] at h

theorem tuple3_length_ne (c1 : TryFromValueCap α1 ε) (c2 : TryFromValueCap α2 ε) (c3 : TryFromValueCap α3 ε)
    (vs : ValueRow) (s : List ColumnType) (h : vs.length ≠ 3) :
    tryFromRowTuple3 c1 c2 c3 vs s = Except.error
      (RowConvertTupleError.UnexpectedNumberOfColumns (vs.length % 65536) "(A, B, C,)") := by
  rcases vs with _ | ⟨a1, _ | ⟨a2, _ | ⟨a3, _ | ⟨a4, _⟩⟩⟩⟩ <;> first | rfl | exact absurd rfl h

theorem tuple3_ok (c1 : TryFromValueCap α1 ε) (c2 : TryFromValueCap α2 ε) (c3 : TryFromValueCap α3 ε)
    (v1 v2 v3 : Option Value) (x1 : α1) (x2 : α2) (x3 : α3) (s : List ColumnType)
    (h1 : c1.tryFromValue v1 = Except.ok x1)
    (h2 : c2.tryFromValue v2 = Except.ok x2)
    (h3 : c3.tryFromValue v3 = Except.ok x3) :
    tryFromRowTuple3 c1 c2 c3 [v1, v2, v3] s = Except.ok (x1, x2, x3) := by
  simp [tryFromRowTuple3, h1, h2, h3, Except.mapError, Bind.bind, Except.bind]

theorem tuple3_firstErr (c1 : TryFromValueCap α1 ε) (c2 : TryFromValueCap α2 ε) (c3 : TryFromValueCap α3 ε)
    (v1 v2 v3 : Option Value) (s : List ColumnType) (e : ε)
    (h : firstErr [statusOf (c1.tryFromValue v1), statusOf (c2.tryFromValue v2), statusOf (c3.tryFromValue v3)] = some e) :
    tryFromRowTuple3 c1 c2 c3 [v1, v2, v3] s =
      Except.error (RowConvertTupleError.ValueConvertError e) := by
  cases hc1 : c1.tryFromValue v1 with
  | error e1 =>
    simp [firstErr, statusOf, hc1, Except.map] at h
    simp [tryFromRowTuple3, hc1, Except.mapError, Bind.bind, Except.bind, h]
  | ok x1 =>
    cases hc2 : c2.tryFromValue v2 with
    | error e2 =>
      simp [firstErr, statusOf, hc1, hc2, Except.map] at h
      simp [tryFromRowTuple3, hc1, hc2, Except.mapError, Bind.bind, Except.bind, h]
    | ok x2 =>
      cases hc3 : c3.tryFromValue v3 with
      | error e3 =>
        simp [firstErr, statusOf, hc1, hc2, hc3, Except.map] at h
        simp [tryFromRowTuple3, hc1, hc2, hc3, Except.mapError, Bind.bind, Except.bind, h]
      | ok x3 =>
        simp [firstErr, statusOf, hc1, hc2, hc3, Except.map] at h

theorem tuple4_length_ne (c1 : TryFromValueCap α1 ε) (c2 : TryFromValueCap α2 ε) (c3 : TryFromValueCap α3 ε) (c4 : TryFromValueCap α4 ε)
    (vs : ValueRow) (s : List ColumnType) (h : vs.length ≠ 4) :
    tryFromRowTuple4 c1 c2 c3 c4 vs s = Except.error
      (RowConvertTupleError.UnexpectedNumberOfColumns (vs.length % 65536) "(A, B, C, D,)") := by
  rcases vs with _ | ⟨a1, _ | ⟨a2, _ | ⟨a3, _ | ⟨a4, _ | ⟨a5, _⟩⟩⟩⟩⟩ <;> first | rfl | exact absurd rfl h

theorem tuple4_ok (c1 : TryFromValueCap α1 ε) (c2 : TryFromValueCap α2 ε) (c3 : TryFromValueCap α3 ε) (c4 : TryFromValueCap α4 ε)
    (v1 v2 v3 v4 : Option Value) (x1 : α1) (x2 : α2) (x3 : α3) (x4 : α4) (s : List ColumnType)
    (h1 : c1.tryFromValue v1 = Except.ok x1)
    (h2 : c2.tryFromValue v2 = Except.ok x2)
    (h3 : c3.tryFromValue v3 = Except.ok x3)
    (h4 : c4.tryFromValue v4 = Except.ok x4) :
    tryFromRowTuple4 c1 c2 c3 c4 [v1, v2, v3, v4] s = Except.ok (x1, x2, x3, x4) := by
  simp [tryFromRowTuple4, h1, h2, h3, h4, Except.mapError, Bind.bind, Except.bind]

theorem tuple4_firstErr (c1 : TryFromValueCap α1 ε) (c2 : TryFromValueCap α2 ε) (c3 : TryFromValueCap α3 ε) (c4 : TryFromValueCap α4 ε)
    (v1 v2 v3 v4 : Option Value) (s : List ColumnType) (e : ε)
    (h : firstErr [statusOf (c1.tryFromValue v1), statusOf (c2.tryFromValue v2), statusOf (c3.tryFromValue v3), statusOf (c4.tryFromValue v4)] = some e) :
    tryFromRowTuple4 c1 c2 c3 c4 [v1, v2, v3, v4] s =
      Except.error (RowConvertTupleError.ValueConvertError e) := by
  cases hc1 : c1.tryFromValue v1 with
  | error e1 =>
    simp [firstErr, statusOf, hc1, Except.map] at h
    simp [tryFromRowTuple4, hc1, Except.mapError, Bind.bind, Except.bind, h]
  | ok x1 =>
    cases hc2 : c2.tryFromValue v2 with
    | error e2 =>
      simp [firstErr, statusOf, hc1, hc2, Except.map] at h
      simp [tryFromRowTuple4, hc1, hc2, Except.mapError, Bind.bind, Except.bind, h]
    | ok x2 =>
      cases hc3 : c3.tryFromValue v3 with
      | error e3 =>
        simp [firstErr, statusOf, hc1, hc2, hc3, Except.map] at h
        simp [tryFromRowTuple4, hc1, hc2, hc3, Except.mapError, Bind.bind, Except.bind, h]
      | ok x3 =>
        cases hc4 : c4.tryFromValue v4 with
        | error e4 =>
          simp [firstErr, statusOf, hc1, hc2, hc3, hc4, Except.map] at h
          simp [tryFromRowTuple4, hc1, hc2, hc3, hc4, Except.mapError, Bind.bind, Except.bind, h]
        | ok x4 =>
          simp [firstErr, statusOf, hc1, hc2, hc3, hc4, Except.map] at h

theorem tuple5_length_ne (c1 : TryFromValueCap α1 ε) (c2 : TryFromValueCap α2 ε) (c3 : TryFromValueCap α3 ε) (c4 : TryFromValueCap α4 ε) (c5 : TryFromValueCap α5 ε)
    (vs : ValueRow) (s : List ColumnType) (h : vs.length ≠ 5) :
    tryFromRowTuple5 c1 c2 c3 c4 c5 vs s = Except.error
      (RowConvertTupleError.UnexpectedNumberOfColumns (vs.length % 65536) "(A, B, C, D, E,)") := by
  rcases vs with _ | ⟨a1, _ | ⟨a2, _ | ⟨a3, _ | ⟨a4, _ | ⟨a5, _ | ⟨a6, _⟩⟩⟩⟩⟩⟩ <;> first | rfl | exact absurd rfl h

theorem tuple5_ok (c1 : TryFromValueCap α1 ε) (c2 : TryFromValueCap α2 ε) (c3 : TryFromValueCap α3 ε) (c4 : TryFromValueCap α4 ε) (c5 : TryFromValueCap α5 ε)
    (v1 v2 v3 v4 v5 : Option Value) (x1 : α1) (x2 : α2) (x3 : α3) (x4 : α4) (x5 : α5) (s : List ColumnType)
    (h1 : c1.tryFromValue v1 = Except.ok x1)
    (h2 : c2.tryFromValue v2 = Except.ok x2)
    (h3 : c3.tryFromValue v3 = Except.ok x3)
    (h4 : c4.tryFromValue v4 = Except.ok x4)
    (h5 : c5.tryFromValue v5 = Except.ok x5) :
    tryFromRowTuple5 c1 c2 c3 c4 c5 [v1, v2, v3, v4, v5] s = Except.ok (x1, x2, x3, x4, x5) := by
  simp [tryFromRowTuple5, h1, h2, h3, h4, h5, Except.mapError, Bind.bind, Except.bind]

theorem tuple5_firstErr (c1 : TryFromValueCap α1 ε) (c2 : TryFromValueCap α2 ε) (c3 : TryFromValueCap α3 ε) (c4 : TryFromValueCap α4 ε) (c5 : TryFromValueCap α5 ε)
    (v1 v2 v3 v4 v5 : Option Value) (s : List ColumnType) (e : ε)
    (h : firstErr [statusOf (c1.tryFromValue v1), statusOf (c2.tryFromValue v2), statusOf (c3.tryFromValue v3), statusOf (c4.tryFromValue v4), statusOf (c5.tryFromValue v5)] = some e) :
    tryFromRowTuple5 c1 c2 c3 c4 c5 [v1, v2, v3, v4, v5] s =
      Except.error (RowConvertTupleError.ValueConvertError e) := by
  cases hc1 : c1.tryFromValue v1 with
  | error e1 =>
    simp [firstErr, statusOf, hc1, Except.map] at h
    simp [tryFromRowTuple5, hc1, Except.mapError, Bind.bind, Except.bind, h]
  | ok x1 =>
    cases hc2 : c2.tryFromValue v2 with
    | error e2 =>
      simp [firstErr, statusOf, hc1, hc2, Except.map] at h
      simp [tryFromRowTuple5, hc1, hc2, Except.mapError, Bind.bind, Except.bind, h]
    | ok x2 =>
      cases hc3 : c3.tryFromValue v3 with
      | error e3 =>
        simp [firstErr, statusOf, hc1, hc2, hc3, Except.map] at h
        simp [tryFromRowTuple5, hc1, hc2, hc3, Except.mapError, Bind.bind, Except.bind, h]
      | ok x3 =>
        cases hc4 : c4.tryFromValue v4 with
        | error e4 =>
          simp [firstErr, statusOf, hc1, hc2, hc3, hc4, Except.map] at h
          simp [tryFromRowTuple5, hc1, hc2, hc3, hc4, Except.mapError, Bind.bind, Except.bind, h]
        | ok x4 =>
          cases hc5 : c5.tryFromValue v5 with
          | error e5 =>
            simp [firstErr, statusOf, hc1, hc2, hc3, hc4, hc5, Except.map] at h
            simp [tryFromRowTuple5, hc1, hc2, hc3, hc4, hc5, Except.mapError, Bind.bind, Except.bind, h]
          | ok x5 =>
            simp [firstErr, statusOf, hc1, hc2, hc3, hc4, hc5, Except.map] at h

theorem tuple6_length_ne (c1 : TryFromValueCap α1 ε) (c2 : TryFromValueCap α2 ε) (c3 : TryFromValueCap α3 ε) (c4 : TryFromValueCap α4 ε) (c5 : TryFromValueCap α5 ε) (c6 : TryFromValueCap α6 ε)
    (vs : ValueRow) (s : List ColumnType) (h : vs.length ≠ 6) :
    tryFromRowTuple6 c1 c2 c3 c4 c5 c6 vs s = Except.error
      (RowConvertTupleError.UnexpectedNumberOfColumns (vs.length % 65536) "(A, B, C, D, E, F,)") := by
  rcases vs with _ | ⟨a1, _ | ⟨a2, _ | ⟨a3, _ | ⟨a4, _ | ⟨a5, _ | ⟨a6, _ | ⟨a7, _⟩⟩⟩⟩⟩⟩⟩ <;> first | rfl | exact absurd rfl h

theorem tuple6_ok (c1 : TryFromValueCap α1 ε) (c2 : TryFromValueCap α2 ε) (c3 : TryFromValueCap α3 ε) (c4 : TryFromValueCap α4 ε) (c5 : TryFromValueCap α5 ε) (c6 : TryFromValueCap α6 ε)
    (v1 v2 v3 v4 v5 v6 : Option Value) (x1 : α1) (x2 : α2) (x3 : α3) (x4 : α4) (x5 : α5) (x6 : α6) (s : List ColumnType)
    (h1 : c1.tryFromValue v1 = Except.ok x1)
    (h2 : c2.tryFromValue v2 = Except.ok x2)
    (h3 : c3.tryFromValue v3 = Except.ok x3)
    (h4 : c4.tryFromValue v4 = Except.ok x4)
    (h5 : c5.tryFromValue v5 = Except.ok x5)
    (h6 : c6.tryFromValue v6 = Except.ok x6) :
    tryFromRowTuple6 c1 c2 c3 c4 c5 c6 [v1, v2, v3, v4, v5, v6] s = Except.ok (x1, x2, x3, x4, x5, x6) := by
  simp [tryFromRowTuple6, h1, h2, h3, h4, h5, h6, Except.mapError, Bind.bind, Except.bind]

theorem tuple6_firstErr (c1 : TryFromValueCap α1 ε) (c2 : TryFromValueCap α2 ε) (c3 : TryFromValueCap α3 ε) (c4 : TryFromValueCap α4 ε) (c5 : TryFromValueCap α5 ε) (c6 : TryFromValueCap α6 ε)
    (v1 v2 v3 v4 v5 v6 : Option Value) (s : List ColumnType) (e : ε)
    (h : firstErr [statusOf (c1.tryFromValue v1), statusOf (c2.tryFromValue v2), statusOf (c3.tryFromValue v3), statusOf (c4.tryFromValue v4), statusOf (c5.tryFromValue v5), statusOf (c6.tryFromValue v6)] = some e) :
    tryFromRowTuple6 c1 c2 c3 c4 c5 c6 [v1, v2, v3, v4, v5, v6] s =
      Except.error (RowConvertTupleError.ValueConvertError e) := by
  cases hc1 : c1.tryFromValue v1 with
  | error e1 =>
    simp [firstErr, statusOf, hc1, Except.map] at h
    simp [tryFromRowTuple6, hc1, Except.mapError, Bind.bind, Except.bind, h]
  | ok x1 =>
    cases hc2 : c2.tryFromValue v2 with
    | error e2 =>
      simp [firstErr, statusOf, hc1, hc2, Except.map] at h
      simp [tryFromRowTuple6, hc1, hc2, Except.mapError, Bind.bind, Except.bind, h]
    | ok x2 =>
      cases hc3 : c3.tryFromValue v3 with
      | error e3 =>
        simp [firstErr, statusOf, hc1, hc2, hc3, Except.map] at h
        simp [tryFromRowTuple6, hc1, hc2, hc3, Except.mapError, Bind.bind, Except.bind, h]
      | ok x3 =>
        cases hc4 : c4.tryFromValue v4 with
        | error e4 =>
          simp [firstErr, statusOf, hc1, hc2, hc3, hc4, Except.map] at h
          simp [tryFromRowTuple6, hc1, hc2, hc3, hc4, Except.mapError, Bind.bind, Except.bind, h]
        | ok x4 =>
          cases hc5 : c5.tryFromValue v5 with
          | error e5 =>
            simp [firstErr, statusOf, hc1, hc2, hc3, hc4, hc5, Except.map] at h
            simp [tryFromRowTuple6, hc1, hc2, hc3, hc4, hc5, Except.mapError, Bind.bind, Except.bind, h]
          | ok x5 =>
            cases hc6 : c6.tryFromValue v6 with
            | error e6 =>
              simp [firstErr, statusOf, hc1, hc2, hc3, hc4, hc5, hc6, Except.map] at h
              simp [tryFromRowTuple6, hc1, hc2, hc3, hc4, hc5, hc6, Except.mapError, Bind.bind, Except.bind, h]
            | ok x6 =>
              simp [firstErr, statusOf, hc1, hc2, hc3, hc4, hc5, hc6, Except.map] at h

theorem tuple7_length_ne (c1 : TryFromValueCap α1 ε) (c2 : TryFromValueCap α2 ε) (c3 : TryFromValueCap α3 ε) (c4 : TryFromValueCap α4 ε) (c5 : TryFromValueCap α5 ε) (c6 : TryFromValueCap α6 ε) (c7 : TryFromValueCap α7 ε)
    (vs : ValueRow) (s : List ColumnType) (h : vs.length ≠ 7) :
    tryFromRowTuple7 c1 c2 c3 c4 c5 c6 c7 vs s = Except.error
      (RowConvertTupleError.UnexpectedNumberOfColumns (vs.length % 65536) "(A, B, C, D, E, F, G,)") := by
  rcases vs with _ | ⟨a1, _ | ⟨a2, _ | ⟨a3, _ | ⟨a4, _ | ⟨a5, _ | ⟨a6, _ | ⟨a7, _ | ⟨a8, _⟩⟩⟩⟩⟩⟩⟩⟩ <;> first | rfl | exact absurd rfl h

theorem tuple7_ok (c1 : TryFromValueCap α1 ε) (c2 : TryFromValueCap α2 ε) (c3 : TryFromValueCap α3 ε) (c4 : TryFromValueCap α4 ε) (c5 : TryFromValueCap α5 ε) (c6 : TryFromValueCap α6 ε) (c7 : TryFromValueCap α7 ε)
    (v1 v2 v3 v4 v5 v6 v7 : Option Value) (x1 : α1) (x2 : α2) (x3 : α3) (x4 : α4) (x5 : α5) (x6 : α6) (x7 : α7) (s : List ColumnType)
    (h1 : c1.tryFromValue v1 = Except.ok x1)
    (h2 : c2.tryFromValue v2 = Except.ok x2)
    (h3 : c3.tryFromValue v3 = Except.ok x3)
    (h4 : c4.tryFromValue v4 = Except.ok x4)
    (h5 : c5.tryFromValue v5 = Except.ok x5)
    (h6 : c6.tryFromValue v6 = Except.ok x6)
    (h7 : c7.tryFromValue v7 = Except.ok x7) :
    tryFromRowTuple7 c1 c2 c3 c4 c5 c6 c7 [v1, v2, v3, v4, v5, v6, v7] s = Except.ok (x1, x2, x3, x4, x5, x6, x7) := by
  simp [tryFromRowTuple7, h1, h2, h3, h4, h5, h6, h7, Except.mapError, Bind.bind, Except.bind]

theorem tuple7_firstErr (c1 : TryFromValueCap α1 ε) (c2 : TryFromValueCap α2 ε) (c3 : TryFromValueCap α3 ε) (c4 : TryFromValueCap α4 ε) (c5 : TryFromValueCap α5 ε) (c6 : TryFromValueCap α6 ε) (c7 : TryFromValueCap α7 ε)
    (v1 v2 v3 v4 v5 v6 v7 : Option Value) (s : List ColumnType) (e : ε)
    (h : firstErr [statusOf (c1.tryFromValue v1), statusOf (c2.tryFromValue v2), statusOf (c3.tryFromValue v3), statusOf (c4.tryFromValue v4), statusOf (c5.tryFromValue v5), statusOf (c6.tryFromValue v6), statusOf (c7.tryFromValue v7)] = some e) :
    tryFromRowTuple7 c1 c2 c3 c4 c5 c6 c7 [v1, v2, v3, v4, v5, v6, v7] s =
      Except.error (RowConvertTupleError.ValueConvertError e) := by
  cases hc1 : c1.tryFromValue v1 with
  | error e1 =>
    simp [firstErr, statusOf, hc1, Except.map] at h
    simp [tryFromRowTuple7, hc1, Except.mapError, Bind.bind, Except.bind, h]
  | ok x1 =>
    cases hc2 : c2.tryFromValue v2 with
    | error e2 =>
      simp [firstErr, statusOf, hc1, hc2, Except.map] at h
      simp [tryFromRowTuple7, hc1, hc2, Except.mapError, Bind.bind, Except.bind, h]
    | ok x2 =>
      cases hc3 : c3.tryFromValue v3 with
      | error e3 =>
        simp [firstErr, statusOf, hc1, hc2, hc3, Except.map] at h
        simp [tryFromRowTuple7, hc1, hc2, hc3, Except.mapError, Bind.bind, Except.bind, h]
      | ok x3 =>
        cases hc4 : c4.tryFromValue v4 with
        | error e4 =>
          simp [firstErr, statusOf, hc1, hc2, hc3, hc4, Except.map] at h
          simp [tryFromRowTuple7, hc1, hc2, hc3, hc4, Except.mapError, Bind.bind, Except.bind, h]
        | ok x4 =>
          cases hc5 : c5.tryFromValue v5 with
          | error e5 =>
            simp [firstErr, statusOf, hc1, hc2, hc3, hc4, hc5, Except.map] at h
            simp [tryFromRowTuple7, hc1, hc2, hc3, hc4, hc5, Except.mapError, Bind.bind, Except.bind, h]
          | ok x5 =>
            cases hc6 : c6.tryFromValue v6 with
            | error e6 =>
              simp [firstErr, statusOf, hc1, hc2, hc3, hc4, hc5, hc6, Except.map] at h
              simp [tryFromRowTuple7, hc1, hc2, hc3, hc4, hc5, hc6, Except.mapError, Bind.bind, Except.bind, h]
            | ok x6 =>
              cases hc7 : c7.tryFromValue v7 with
              | error e7 =>
                simp [firstErr, statusOf, hc1, hc2, hc3, hc4, hc5, hc6, hc7, Except.map] at h
                simp [tryFromRowTuple7, hc1, hc2, hc3, hc4, hc5, hc6, hc7, Except.mapError, Bind.bind, Except.bind, h]
              | ok x7 =>
                simp [firstErr, statusOf, hc1, hc2, hc3, hc4, hc5, hc6, hc7, Except.map] at h

theorem tuple8_length_ne (c1 : TryFromValueCap α1 ε) (c2 : TryFromValueCap α2 ε) (c3 : TryFromValueCap α3 ε) (c4 : TryFromValueCap α4 ε) (c5 : TryFromValueCap α5 ε) (c6 : TryFromValueCap α6 ε) (c7 : TryFromValueCap α7 ε) (c8 : TryFromValueCap α8 ε)
    (vs : ValueRow) (s : List ColumnType) (h : vs.length ≠ 8) :
    tryFromRowTuple8 c1 c2 c3 c4 c5 c6 c7 c8 vs s = Except.error
      (RowConvertTupleError.UnexpectedNumberOfColumns (vs.length % 65536) "(A, B, C, D, E, F, G, H,)") := by
  rcases vs with _ | ⟨a1, _ | ⟨a2, _ | ⟨a3, _ | ⟨a4, _ | ⟨a5, _ | ⟨a6, _ | ⟨a7, _ | ⟨a8, _ | ⟨a9, _⟩⟩⟩⟩⟩⟩⟩⟩⟩ <;> first | rfl | exact absurd rfl h

theorem tuple8_ok (c1 : TryFromValueCap α1 ε) (c2 : TryFromValueCap α2 ε) (c3 : TryFromValueCap α3 ε) (c4 : TryFromValueCap α4 ε) (c5 : TryFromValueCap α5 ε) (c6 : TryFromValueCap α6 ε) (c7 : TryFromValueCap α7 ε) (c8 : TryFromValueCap α8 ε)
    (v1 v2 v3 v4 v5 v6 v7 v8 : Option Value) (x1 : α1) (x2 : α2) (x3 : α3) (x4 : α4) (x5 : α5) (x6 : α6) (x7 : α7) (x8 : α8) (s : List ColumnType)
    (h1 : c1.tryFromValue v1 = Except.ok x1)
    (h2 : c2.tryFromValue v2 = Except.ok x2)
    (h3 : c3.tryFromValue v3 = Except.ok x3)
    (h4 : c4.tryFromValue v4 = Except.ok x4)
    (h5 : c5.tryFromValue v5 = Except.ok x5)
    (h6 : c6.tryFromValue v6 = Except.ok x6)
    (h7 : c7.tryFromValue v7 = Except.ok x7)
    (h8 : c8.tryFromValue v8 = Except.ok x8) :
    tryFromRowTuple8 c1 c2 c3 c4 c5 c6 c7 c8 [v1, v2, v3, v4, v5, v6, v7, v8] s = Except.ok (x1, x2, x3, x4, x5, x6, x7, x8) := by
  simp [tryFromRowTuple8, h1, h2, h3, h4, h5, h6, h7, h8, Except.mapError, Bind.bind, Except.bind]

theorem tuple8_firstErr (c1 : TryFromValueCap α1 ε) (c2 : TryFromValueCap α2 ε) (c3 : TryFromValueCap α3 ε) (c4 : TryFromValueCap α4 ε) (c5 : TryFromValueCap α5 ε) (c6 : TryFromValueCap α6 ε) (c7 : TryFromValueCap α7 ε) (c8 : TryFromValueCap α8 ε)
    (v1 v2 v3 v4 v5 v6 v7 v8 : Option Value) (s : List ColumnType) (e : ε)
    (h : firstErr [statusOf (c1.tryFromValue v1), statusOf (c2.tryFromValue v2), statusOf (c3.tryFromValue v3), statusOf (c4.tryFromValue v4), statusOf (c5.tryFromValue v5), statusOf (c6.tryFromValue v6), statusOf (c7.tryFromValue v7), statusOf (c8.tryFromValue v8)] = some e) :
    tryFromRowTuple8 c1 c2 c3 c4 c5 c6 c7 c8 [v1, v2, v3, v4, v5, v6, v7, v8] s =
      Except.error (RowConvertTupleError.ValueConvertError e) := by
  cases hc1 : c1.tryFromValue v1 with
  | error e1 =>
    simp [firstErr, statusOf, hc1, Except.map] at h
    simp [tryFromRowTuple8, hc1, Except.mapError, Bind.bind, Except.bind, h]
  | ok x1 =>
    cases hc2 : c2.tryFromValue v2 with
    | error e2 =>
      simp [firstErr, statusOf, hc1, hc2, Except.map] at h
      simp [tryFromRowTuple8, hc1, hc2, Except.mapError, Bind.bind, Except.bind, h]
    | ok x2 =>
      cases hc3 : c3.tryFromValue v3 with
      | error e3 =>
        simp [firstErr, statusOf, hc1, hc2, hc3, Except.map] at h
        simp [tryFromRowTuple8, hc1, hc2, hc3, Except.mapError, Bind.bind, Except.bind, h]
      | ok x3 =>
        cases hc4 : c4.tryFromValue v4 with
        | error e4 =>
          simp [firstErr, statusOf, hc1, hc2, hc3, hc4, Except.map] at h
          simp [tryFromRowTuple8, hc1, hc2, hc3, hc4, Except.mapError, Bind.bind, Except.bind, h]
        | ok x4 =>
          cases hc5 : c5.tryFromValue v5 with
          | error e5 =>
            simp [firstErr, statusOf, hc1, hc2, hc3, hc4, hc5, Except.map] at h
            simp [tryFromRowTuple8, hc1, hc2, hc3, hc4, hc5, Except.mapError, Bind.bind, Except.bind, h]
          | ok x5 =>
            cases hc6 : c6.tryFromValue v6 with
            | error e6 =>
              simp [firstErr, statusOf, hc1, hc2, hc3, hc4, hc5, hc6, Except.map] at h
              simp [tryFromRowTuple8, hc1, hc2, hc3, hc4, hc5, hc6, Except.mapError, Bind.bind, Except.bind, h]
            | ok x6 =>
              cases hc7 : c7.tryFromValue v7 with
              | error e7 =>
                simp [firstErr, statusOf, hc1, hc2, hc3, hc4, hc5, hc6, hc7, Except.map] at h
                simp [tryFromRowTuple8, hc1, hc2, hc3, hc4, hc5, hc6, hc7, Except.mapError, Bind.bind, Except.bind, h]
              | ok x7 =>
                cases hc8 : c8.tryFromValue v8 with
                | error e8 =>
                  simp [firstErr, statusOf, hc1, hc2, hc3, hc4, hc5, hc6, hc7, hc8, Except.map] at h
                  simp [tryFromRowTuple8, hc1, hc2, hc3, hc4, hc5, hc6, hc7, hc8, Except.mapError, Bind.bind, Except.bind, h]
                | ok x8 =>
                  simp [firstErr, statusOf, hc1, hc2, hc3, hc4, hc5, hc6, hc7, hc8, Except.map] at h

theorem tuple9_length_ne (c1 : TryFromValueCap α1 ε) (c2 : TryFromValueCap α2 ε) (c3 : TryFromValueCap α3 ε) (c4 : TryFromValueCap α4 ε) (c5 : TryFromValueCap α5 ε) (c6 : TryFromValueCap α6 ε) (c7 : TryFromValueCap α7 ε) (c8 : TryFromValueCap α8 ε) (c9 : TryFromValueCap α9 ε)
    (vs : ValueRow) (s : List ColumnType) (h : vs.length ≠ 9) :
    tryFromRowTuple9 c1 c2 c3 c4 c5 c6 c7 c8 c9 vs s = Except.error
      (RowConvertTupleError.UnexpectedNumberOfColumns (vs.length % 65536) "(A, B, C, D, E, F, G, H, I,)") := by
  rcases vs with _ | ⟨a1, _ | ⟨a2, _ | ⟨a3, _ | ⟨a4, _ | ⟨a5, _ | ⟨a6, _ | ⟨a7, _ | ⟨a8, _ | ⟨a9, _ | ⟨a10, _⟩⟩⟩⟩⟩⟩⟩⟩⟩⟩ <;> first | rfl | exact absurd rfl h

theorem tuple9_ok (c1 : TryFromValueCap α1 ε) (c2 : TryFromValueCap α2 ε) (c3 : TryFromValueCap α3 ε) (c4 : TryFromValueCap α4 ε) (c5 : TryFromValueCap α5 ε) (c6 : TryFromValueCap α6 ε) (c7 : TryFromValueCap α7 ε) (c8 : TryFromValueCap α8 ε) (c9 : TryFromValueCap α9 ε)
    (v1 v2 v3 v4 v5 v6 v7 v8 v9 : Option Value) (x1 : α1) (x2 : α2) (x3 : α3) (x4 : α4) (x5 : α5) (x6 : α6) (x7 : α7) (x8 : α8) (x9 : α9) (s : List ColumnType)
    (h1 : c1.tryFromValue v1 = Except.ok x1)
    (h2 : c2.tryFromValue v2 = Except.ok x2)
    (h3 : c3.tryFromValue v3 = Except.ok x3)
    (h4 : c4.tryFromValue v4 = Except.ok x4)
    (h5 : c5.tryFromValue v5 = Except.ok x5)
    (h6 : c6.tryFromValue v6 = Except.ok x6)
    (h7 : c7.tryFromValue v7 = Except.ok x7)
    (h8 : c8.tryFromValue v8 = Except.ok x8)
    (h9 : c9.tryFromValue v9 = Except.ok x9) :
    tryFromRowTuple9 c1 c2 c3 c4 c5 c6 c7 c8 c9 [v1, v2, v3, v4, v5, v6, v7, v8, v9] s = Except.ok (x1, x2, x3, x4, x5, x6, x7, x8, x9) := by
  simp [tryFromRowTuple9, h1, h2, h3, h4, h5, h6, h7, h8, h9, Except.mapError, Bind.bind, Except.bind]

theorem tuple9_firstErr (c1 : TryFromValueCap α1 ε) (c2 : TryFromValueCap α2 ε) (c3 : TryFromValueCap α3 ε) (c4 : TryFromValueCap α4 ε) (c5 : TryFromValueCap α5 ε) (c6 : TryFromValueCap α6 ε) (c7 : TryFromValueCap α7 ε) (c8 : TryFromValueCap α8 ε) (c9 : TryFromValueCap α9 ε)
    (v1 v2 v3 v4 v5 v6 v7 v8 v9 : Option Value) (s : List ColumnType) (e : ε)
    (h : firstErr [statusOf (c1.tryFromValue v1), statusOf (c2.tryFromValue v2), statusOf (c3.tryFromValue v3), statusOf (c4.tryFromValue v4), statusOf (c5.tryFromValue v5), statusOf (c6.tryFromValue v6), statusOf (c7.tryFromValue v7), statusOf (c8.tryFromValue v8), statusOf (c9.tryFromValue v9)] = some e) :
    tryFromRowTuple9 c1 c2 c3 c4 c5 c6 c7 c8 c9 [v1, v2, v3, v4, v5, v6, v7, v8, v9] s =
      Except.error (RowConvertTupleError.ValueConvertError e) := by
  cases hc1 : c1.tryFromValue v1 with
  | error e1 =>
    simp [firstErr, statusOf, hc1, Except.map] at h
    simp [tryFromRowTuple9, hc1, Except.mapError, Bind.bind, Except.bind, h]
  | ok x1 =>
    cases hc2 : c2.tryFromValue v2 with
    | error e2 =>
      simp [firstErr, statusOf, hc1, hc2, Except.map] at h
      simp [tryFromRowTuple9, hc1, hc2, Except.mapError, Bind.bind, Except.bind, h]
    | ok x2 =>
      cases hc3 : c3.tryFromValue v3 with
      | error e3 =>
        simp [firstErr, statusOf, hc1, hc2, hc3, Except.map] at h
        simp [tryFromRowTuple9, hc1, hc2, hc3, Except.mapError, Bind.bind, Except.bind, h]
      | ok x3 =>
        cases hc4 : c4.tryFromValue v4 with
        | error e4 =>
          simp [firstErr, statusOf, hc1, hc2, hc3, hc4, Except.map] at h
          simp [tryFromRowTuple9, hc1, hc2, hc3, hc4, Except.mapError, Bind.bind, Except.bind, h]
        | ok x4 =>
          cases hc5 : c5.tryFromValue v5 with
          | error e5 =>
            simp [firstErr, statusOf, hc1, hc2, hc3, hc4, hc5, Except.map] at h
            simp [tryFromRowTuple9, hc1, hc2, hc3, hc4, hc5, Except.mapError, Bind.bind, Except.bind, h]
          | ok x5 =>
            cases hc6 : c6.tryFromValue v6 with
            | error e6 =>
              simp [firstErr, statusOf, hc1, hc2, hc3, hc4, hc5, hc6, Except.map] at h
              simp [tryFromRowTuple9, hc1, hc2, hc3, hc4, hc5, hc6, Except.mapError, Bind.bind, Except.bind, h]
            | ok x6 =>
              cases hc7 : c7.tryFromValue v7 with
              | error e7 =>
                simp [firstErr, statusOf, hc1, hc2, hc3, hc4, hc5, hc6, hc7, Except.map] at h
                simp [tryFromRowTuple9, hc1, hc2, hc3, hc4, hc5, hc6, hc7, Except.mapError, Bind.bind, Except.bind, h]
              | ok x7 =>
                cases hc8 : c8.tryFromValue v8 with
                | error e8 =>
                  simp [firstErr, statusOf, hc1, hc2, hc3, hc4, hc5, hc6, hc7, hc8, Except.map] at h
                  simp [tryFromRowTuple9, hc1, hc2, hc3, hc4, hc5, hc6, hc7, hc8, Except.mapError, Bind.bind, Except.bind, h]
                | ok x8 =>
                  cases hc9 : c9.tryFromValue v9 with
                  | error e9 =>
                    simp [firstErr, statusOf, hc1, hc2, hc3, hc4, hc5, hc6, hc7, hc8, hc9, Except.map] at h
                    simp [tryFromRowTuple9, hc1, hc2, hc3, hc4, hc5, hc6, hc7, hc8, hc9, Except.mapError, Bind.bind, Except.bind, h]
                  | ok x9 =>
                    simp [firstErr, statusOf, hc1, hc2, hc3, hc4, hc5, hc6, hc7, hc8, hc9, Except.map] at h

theorem tuple10_length_ne (c1 : TryFromValueCap α1 ε) (c2 : TryFromValueCap α2 ε) (c3 : TryFromValueCap α3 ε) (c4 : TryFromValueCap α4 ε) (c5 : TryFromValueCap α5 ε) (c6 : TryFromValueCap α6 ε) (c7 : TryFromValueCap α7 ε) (c8 : TryFromValueCap α8 ε) (c9 : TryFromValueCap α9 ε) (c10 : TryFromValueCap α10 ε)
    (vs : ValueRow) (s : List ColumnType) (h : vs.length ≠ 10) :
    tryFromRowTuple10 c1 c2 c3 c4 c5 c6 c7 c8 c9 c10 vs s = Except.error
      (RowConvertTupleError.UnexpectedNumberOfColumns (vs.length % 65536) "(A, B, C, D, E, F, G, H, I, J,)") := by
  rcases vs with _ | ⟨a1, _ | ⟨a2, _ | ⟨a3, _ | ⟨a4, _ | ⟨a5, _ | ⟨a6, _ | ⟨a7, _ | ⟨a8, _ | ⟨a9, _ | ⟨a10, _ | ⟨a11, _⟩⟩⟩⟩⟩⟩⟩⟩⟩⟩⟩ <;> first | rfl | exact absurd rfl h

theorem tuple10_ok (c1 : TryFromValueCap α1 ε) (c2 : TryFromValueCap α2 ε) (c3 : TryFromValueCap α3 ε) (c4 : TryFromValueCap α4 ε) (c5 : TryFromValueCap α5 ε) (c6 : TryFromValueCap α6 ε) (c7 : TryFromValueCap α7 ε) (c8 : TryFromValueCap α8 ε) (c9 : TryFromValueCap α9 ε) (c10 : TryFromValueCap α10 ε)
    (v1 v2 v3 v4 v5 v6 v7 v8 v9 v10 : Option Value) (x1 : α1) (x2 : α2) (x3 : α3) (x4 : α4) (x5 : α5) (x6 : α6) (x7 : α7) (x8 : α8) (x9 : α9) (x10 : α10) (s : List ColumnType)
    (h1 : c1.tryFromValue v1 = Except.ok x1)
    (h2 : c2.tryFromValue v2 = Except.ok x2)
    (h3 : c3.tryFromValue v3 = Except.ok x3)
    (h4 : c4.tryFromValue v4 = Except.ok x4)
    (h5 : c5.tryFromValue v5 = Except.ok x5)
    (h6 : c6.tryFromValue v6 = Except.ok x6)
    (h7 : c7.tryFromValue v7 = Except.ok x7)
    (h8 : c8.tryFromValue v8 = Except.ok x8)
    (h9 : c9.tryFromValue v9 = Except.ok x9)
    (h10 : c10.tryFromValue v10 = Except.ok x10) :
    tryFromRowTuple10 c1 c2 c3 c4 c5 c6 c7 c8 c9 c10 [v1, v2, v3, v4, v5, v6, v7, v8, v9, v10] s = Except.ok (x1, x2, x3, x4, x5, x6, x7, x8, x9, x10) := by
  simp [tryFromRowTuple10, h1, h2, h3, h4, h5, h6, h7, h8, h9, h10, Except.mapError, Bind.bind, Except.bind]

theorem tuple10_firstErr (c1 : TryFromValueCap α1 ε) (c2 : TryFromValueCap α2 ε) (c3 : TryFromValueCap α3 ε) (c4 : TryFromValueCap α4 ε) (c5 : TryFromValueCap α5 ε) (c6 : TryFromValueCap α6 ε) (c7 : TryFromValueCap α7 ε) (c8 : TryFromValueCap α8 ε) (c9 : TryFromValueCap α9 ε) (c10 : TryFromValueCap α10 ε)
    (v1 v2 v3 v4 v5 v6 v7 v8 v9 v10 : Option Value) (s : List ColumnType) (e : ε)
    (h : firstErr [statusOf (c1.tryFromValue v1), statusOf (c2.tryFromValue v2), statusOf (c3.tryFromValue v3), statusOf (c4.tryFromValue v4), statusOf (c5.tryFromValue v5), statusOf (c6.tryFromValue v6), statusOf (c7.tryFromValue v7), statusOf (c8.tryFromValue v8), statusOf (c9.tryFromValue v9), statusOf (c10.tryFromValue v10)] = some e) :
    tryFromRowTuple10 c1 c2 c3 c4 c5 c6 c7 c8 c9 c10 [v1, v2, v3, v4, v5, v6, v7, v8, v9, v10] s =
      Except.error (RowConvertTupleError.ValueConvertError e) := by
  cases hc1 : c1.tryFromValue v1 with
  | error e1 =>
    simp [firstErr, statusOf, hc1, Except.map] at h
    simp [tryFromRowTuple10, hc1, Except.mapError, Bind.bind, Except.bind, h]
  | ok x1 =>
    cases hc2 : c2.tryFromValue v2 with
    | error e2 =>
      simp [firstErr, statusOf, hc1, hc2, Except.map] at h
      simp [tryFromRowTuple10, hc1, hc2, Except.mapError, Bind.bind, Except.bind, h]
    | ok x2 =>
      cases hc3 : c3.tryFromValue v3 with
      | error e3 =>
        simp [firstErr, statusOf, hc1, hc2, hc3, Except.map] at h
        simp [tryFromRowTuple10, hc1, hc2, hc3, Except.mapError, Bind.bind, Except.bind, h]
      | ok x3 =>
        cases hc4 : c4.tryFromValue v4 with
        | error e4 =>
          simp [firstErr, statusOf, hc1, hc2, hc3, hc4, Except.map] at h
          simp [tryFromRowTuple10, hc1, hc2, hc3, hc4, Except.mapError, Bind.bind, Except.bind, h]
        | ok x4 =>
          cases hc5 : c5.tryFromValue v5 with
          | error e5 =>
            simp [firstErr, statusOf, hc1, hc2, hc3, hc4, hc5, Except.map] at h
            simp [tryFromRowTuple10, hc1, hc2, hc3, hc4, hc5, Except.mapError, Bind.bind, Except.bind, h]
          | ok x5 =>
            cases hc6 : c6.tryFromValue v6 with
            | error e6 =>
              simp [firstErr, statusOf, hc1, hc2, hc3, hc4, hc5, hc6, Except.map] at h
              simp [tryFromRowTuple10, hc1, hc2, hc3, hc4, hc5, hc6, Except.mapError, Bind.bind, Except.bind, h]
            | ok x6 =>
              cases hc7 : c7.tryFromValue v7 with
              | error e7 =>
                simp [firstErr, statusOf, hc1, hc2, hc3, hc4, hc5, hc6, hc7, Except.map] at h
                simp [tryFromRowTuple10, hc1, hc2, hc3, hc4, hc5, hc6, hc7, Except.mapError, Bind.bind, Except.bind, h]
              | ok x7 =>
                cases hc8 : c8.tryFromValue v8 with
                | error e8 =>
                  simp [firstErr, statusOf, hc1, hc2, hc3, hc4, hc5, hc6, hc7, hc8, Except.map] at h
                  simp [tryFromRowTuple10, hc1, hc2, hc3, hc4, hc5, hc6, hc7, hc8, Except.mapError, Bind.bind, Except.bind, h]
                | ok x8 =>
                  cases hc9 : c9.tryFromValue v9 with
                  | error e9 =>
                    simp [firstErr, statusOf, hc1, hc2, hc3, hc4, hc5, hc6, hc7, hc8, hc9, Except.map] at h
                    simp [tryFromRowTuple10, hc1, hc2, hc3, hc4, hc5, hc6, hc7, hc8, hc9, Except.mapError, Bind.bind, Except.bind, h]
                  | ok x9 =>
                    cases hc10 : c10.tryFromValue v10 with
                    | error e10 =>
                      simp [firstErr, statusOf, hc1, hc2, hc3, hc4, hc5, hc6, hc7, hc8, hc9, hc10, Except.map] at h
                      simp [tryFromRowTuple10, hc1, hc2, hc3, hc4, hc5, hc6, hc7, hc8, hc9, hc10, Except.mapError, Bind.bind, Except.bind, h]
                    | ok x10 =>
                      simp [firstErr, statusOf, hc1, hc2, hc3, hc4, hc5, hc6, hc7, hc8, hc9, hc10, Except.map] at h

theorem tuple11_length_ne (c1 : TryFromValueCap α1 ε) (c2 : TryFromValueCap α2 ε) (c3 : TryFromValueCap α3 ε) (c4 : TryFromValueCap α4 ε) (c5 : TryFromValueCap α5 ε) (c6 : TryFromValueCap α6 ε) (c7 : TryFromValueCap α7 ε) (c8 : TryFromValueCap α8 ε) (c9 : TryFromValueCap α9 ε) (c10 : TryFromValueCap α10 ε) (c11 : TryFromValueCap α11 ε)
    (vs : ValueRow) (s : List ColumnType) (h : vs.length ≠ 11) :
    tryFromRowTuple11 c1 c2 c3 c4 c5 c6 c7 c8 c9 c10 c11 vs s = Except.error
      (RowConvertTupleError.UnexpectedNumberOfColumns (vs.length % 65536) "(A, B, C, D, E, F, G, H, I, J, K,)") := by
  rcases vs with _ | ⟨a1, _ | ⟨a2, _ | ⟨a3, _ | ⟨a4, _ | ⟨a5, _ | ⟨a6, _ | ⟨a7, _ | ⟨a8, _ | ⟨a9, _ | ⟨a10, _ | ⟨a11, _ | ⟨a12, _⟩⟩⟩⟩⟩⟩⟩⟩⟩⟩⟩⟩ <;> first | rfl | exact absurd rfl h

theorem tuple11_ok (c1 : TryFromValueCap α1 ε) (c2 : TryFromValueCap α2 ε) (c3 : TryFromValueCap α3 ε) (c4 : TryFromValueCap α4 ε) (c5 : TryFromValueCap α5 ε) (c6 : TryFromValueCap α6 ε) (c7 : TryFromValueCap α7 ε) (c8 : TryFromValueCap α8 ε) (c9 : TryFromValueCap α9 ε) (c10 : TryFromValueCap α10 ε) (c11 : TryFromValueCap α11 ε)
    (v1 v2 v3 v4 v5 v6 v7 v8 v9 v10 v11 : Option Value) (x1 : α1) (x2 : α2) (x3 : α3) (x4 : α4) (x5 : α5) (x6 : α6) (x7 : α7) (x8 : α8) (x9 : α9) (x10 : α10) (x11 : α11) (s : List ColumnType)
    (h1 : c1.tryFromValue v1 = Except.ok x1)
    (h2 : c2.tryFromValue v2 = Except.ok x2)
    (h3 : c3.tryFromValue v3 = Except.ok x3)
    (h4 : c4.tryFromValue v4 = Except.ok x4)
    (h5 : c5.tryFromValue v5 = Except.ok x5)
    (h6 : c6.tryFromValue v6 = Except.ok x6)
    (h7 : c7.tryFromValue v7 = Except.ok x7)
    (h8 : c8.tryFromValue v8 = Except.ok x8)
    (h9 : c9.tryFromValue v9 = Except.ok x9)
    (h10 : c10.tryFromValue v10 = Except.ok x10)
    (h11 : c11.tryFromValue v11 = Except.ok x11) :
    tryFromRowTuple11 c1 c2 c3 c4 c5 c6 c7 c8 c9 c10 c11 [v1, v2, v3, v4, v5, v6, v7, v8, v9, v10, v11] s = Except.ok (x1, x2, x3, x4, x5, x6, x7, x8, x9, x10, x11) := by
  simp [tryFromRowTuple11, h1, h2, h3, h4, h5, h6, h7, h8, h9, h10, h11, Except.mapError, Bind.bind, Except.bind]

theorem tuple11_firstErr (c1 : TryFromValueCap α1 ε) (c2 : TryFromValueCap α2 ε) (c3 : TryFromValueCap α3 ε) (c4 : TryFromValueCap α4 ε) (c5 : TryFromValueCap α5 ε) (c6 : TryFromValueCap α6 ε) (c7 : TryFromValueCap α7 ε) (c8 : TryFromValueCap α8 ε) (c9 : TryFromValueCap α9 ε) (c10 : TryFromValueCap α10 ε) (c11 : TryFromValueCap α11 ε)
    (v1 v2 v3 v4 v5 v6 v7 v8 v9 v10 v11 : Option Value) (s : List ColumnType) (e : ε)
    (h : firstErr [statusOf (c1.tryFromValue v1), statusOf (c2.tryFromValue v2), statusOf (c3.tryFromValue v3), statusOf (c4.tryFromValue v4), statusOf (c5.tryFromValue v5), statusOf (c6.tryFromValue v6), statusOf (c7.tryFromValue v7), statusOf (c8.tryFromValue v8), statusOf (c9.tryFromValue v9), statusOf (c10.tryFromValue v10), statusOf (c11.tryFromValue v11)] = some e) :
    tryFromRowTuple11 c1 c2 c3 c4 c5 c6 c7 c8 c9 c10 c11 [v1, v2, v3, v4, v5, v6, v7, v8, v9, v10, v11] s =
      Except.error (RowConvertTupleError.ValueConvertError e) := by
  cases hc1 : c1.tryFromValue v1 with
  | error e1 =>
    simp [firstErr, statusOf, hc1, Except.map] at h
    simp [tryFromRowTuple11, hc1, Except.mapError, Bind.bind, Except.bind, h]
  | ok x1 =>
    cases hc2 : c2.tryFromValue v2 with
    | error e2 =>
      simp [firstErr, statusOf, hc1, hc2, Except.map] at h
      simp [tryFromRowTuple11, hc1, hc2, Except.mapError, Bind.bind, Except.bind, h]
    | ok x2 =>
      cases hc3 : c3.tryFromValue v3 with
      | error e3 =>
        simp [firstErr, statusOf, hc1, hc2, hc3, Except.map] at h
        simp [tryFromRowTuple11, hc1, hc2, hc3, Except.mapError, Bind.bind, Except.bind, h]
      | ok x3 =>
        cases hc4 : c4.tryFromValue v4 with
        | error e4 =>
          simp [firstErr, statusOf, hc1, hc2, hc3, hc4, Except.map] at h
          simp [tryFromRowTuple11, hc1, hc2, hc3, hc4, Except.mapError, Bind.bind, Except.bind, h]
        | ok x4 =>
          cases hc5 : c5.tryFromValue v5 with
          | error e5 =>
            simp [firstErr, statusOf, hc1, hc2, hc3, hc4, hc5, Except.map] at h
            simp [tryFromRowTuple11, hc1, hc2, hc3, hc4, hc5, Except.mapError, Bind.bind, Except.bind, h]
          | ok x5 =>
            cases hc6 : c6.tryFromValue v6 with
            | error e6 =>
              simp [firstErr, statusOf, hc1, hc2, hc3, hc4, hc5, hc6, Except.map] at h
              simp [tryFromRowTuple11, hc1, hc2, hc3, hc4, hc5, hc6, Except.mapError, Bind.bind, Except.bind, h]
            | ok x6 =>
              cases hc7 : c7.tryFromValue v7 with
              | error e7 =>
                simp [firstErr, statusOf, hc1, hc2, hc3, hc4, hc5, hc6, hc7, Except.map] at h
                simp [tryFromRowTuple11, hc1, hc2, hc3, hc4, hc5, hc6, hc7, Except.mapError, Bind.bind, Except.bind, h]
              | ok x7 =>
                cases hc8 : c8.tryFromValue v8 with
                | error e8 =>
                  simp [firstErr, statusOf, hc1, hc2, hc3, hc4, hc5, hc6, hc7, hc8, Except.map] at h
                  simp [tryFromRowTuple11, hc1, hc2, hc3, hc4, hc5, hc6, hc7, hc8, Except.mapError, Bind.bind, Except.bind, h]
                | ok x8 =>
                  cases hc9 : c9.tryFromValue v9 with
                  | error e9 =>
                    simp [firstErr, statusOf, hc1, hc2, hc3, hc4, hc5, hc6, hc7, hc8, hc9, Except.map] at h
                    simp [tryFromRowTuple11, hc1, hc2, hc3, hc4, hc5, hc6, hc7, hc8, hc9, Except.mapError, Bind.bind, Except.bind, h]
                  | ok x9 =>
                    cases hc10 : c10.tryFromValue v10 with
                    | error e10 =>
                      simp [firstErr, statusOf, hc1, hc2, hc3, hc4, hc5, hc6, hc7, hc8, hc9, hc10, Except.map] at h
                      simp [tryFromRowTuple11, hc1, hc2, hc3, hc4, hc5, hc6, hc7, hc8, hc9, hc10, Except.mapError, Bind.bind, Except.bind, h]
                    | ok x10 =>
                      cases hc11 : c11.tryFromValue v11 with
                      | error e11 =>
                        simp [firstErr, statusOf, hc1, hc2, hc3, hc4, hc5, hc6, hc7, hc8, hc9, hc10, hc11, Except.map] at h
                        simp [tryFromRowTuple11, hc1, hc2, hc3, hc4, hc5, hc6, hc7, hc8, hc9, hc10, hc11, Except.mapError, Bind.bind, Except.bind, h]
                      | ok x11 =>
                        simp [firstErr, statusOf, hc1, hc2, hc3, hc4, hc5, hc6, hc7, hc8, hc9, hc10, hc11, Except.map] at h

theorem tuple12_length_ne (c1 : TryFromValueCap α1 ε) (c2 : TryFromValueCap α2 ε) (c3 : TryFromValueCap α3 ε) (c4 : TryFromValueCap α4 ε) (c5 : TryFromValueCap α5 ε) (c6 : TryFromValueCap α6 ε) (c7 : TryFromValueCap α7 ε) (c8 : TryFromValueCap α8 ε) (c9 : TryFromValueCap α9 ε) (c10 : TryFromValueCap α10 ε) (c11 : TryFromValueCap α11 ε) (c12 : TryFromValueCap α12 ε)
    (vs : ValueRow) (s : List ColumnType) (h : vs.length ≠ 12) :
    tryFromRowTuple12 c1 c2 c3 c4 c5 c6 c7 c8 c9 c10 c11 c12 vs s = Except.error
      (RowConvertTupleError.UnexpectedNumberOfColumns (vs.length % 65536) "(A, B, C, D, E, F, G, H, I, J, K, L,)") := by
  rcases vs with _ | ⟨a1, _ | ⟨a2, _ | ⟨a3, _ | ⟨a4, _ | ⟨a5, _ | ⟨a6, _ | ⟨a7, _ | ⟨a8, _ | ⟨a9, _ | ⟨a10, _ | ⟨a11, _ | ⟨a12, _ | ⟨a13, _⟩⟩⟩⟩⟩⟩⟩⟩⟩⟩⟩⟩⟩ <;> first | rfl | exact absurd rfl h

theorem tuple12_ok (c1 : TryFromValueCap α1 ε) (c2 : TryFromValueCap α2 ε) (c3 : TryFromValueCap α3 ε) (c4 : TryFromValueCap α4 ε) (c5 : TryFromValueCap α5 ε) (c6 : TryFromValueCap α6 ε) (c7 : TryFromValueCap α7 ε) (c8 : TryFromValueCap α8 ε) (c9 : TryFromValueCap α9 ε) (c10 : TryFromValueCap α10 ε) (c11 : TryFromValueCap α11 ε) (c12 : TryFromValueCap α12 ε)
    (v1 v2 v3 v4 v5 v6 v7 v8 v9 v10 v11 v12 : Option Value) (x1 : α1) (x2 : α2) (x3 : α3) (x4 : α4) (x5 : α5) (x6 : α6) (x7 : α7) (x8 : α8) (x9 : α9) (x10 : α10) (x11 : α11) (x12 : α12) (s : List ColumnType)
    (h1 : c1.tryFromValue v1 = Except.ok x1)
    (h2 : c2.tryFromValue v2 = Except.ok x2)
    (h3 : c3.tryFromValue v3 = Except.ok x3)
    (h4 : c4.tryFromValue v4 = Except.ok x4)
    (h5 : c5.tryFromValue v5 = Except.ok x5)
    (h6 : c6.tryFromValue v6 = Except.ok x6)
    (h7 : c7.tryFromValue v7 = Except.ok x7)
    (h8 : c8.tryFromValue v8 = Except.ok x8)
    (h9 : c9.tryFromValue v9 = Except.ok x9)
    (h10 : c10.tryFromValue v10 = Except.ok x10)
    (h11 : c11.tryFromValue v11 = Except.ok x11)
    (h12 : c12.tryFromValue v12 = Except.ok x12) :
    tryFromRowTuple12 c1 c2 c3 c4 c5 c6 c7 c8 c9 c10 c11 c12 [v1, v2, v3, v4, v5, v6, v7, v8, v9, v10, v11, v12] s = Except.ok (x1, x2, x3, x4, x5, x6, x7, x8, x9, x10, x11, x12) := by
  simp [tryFromRowTuple12, h1, h2, h3, h4, h5, h6, h7, h8, h9, h10, h11, h12, Except.mapError, Bind.bind, Except.bind]

theorem tuple12_firstErr (c1 : TryFromValueCap α1 ε) (c2 : TryFromValueCap α2 ε) (c3 : TryFromValueCap α3 ε) (c4 : TryFromValueCap α4 ε) (c5 : TryFromValueCap α5 ε) (c6 : TryFromValueCap α6 ε) (c7 : TryFromValueCap α7 ε) (c8 : TryFromValueCap α8 ε) (c9 : TryFromValueCap α9 ε) (c10 : TryFromValueCap α10 ε) (c11 : TryFromValueCap α11 ε) (c12 : TryFromValueCap α12 ε)
    (v1 v2 v3 v4 v5 v6 v7 v8 v9 v10 v11 v12 : Option Value) (s : List ColumnType) (e : ε)
    (h : firstErr [statusOf (c1.tryFromValue v1), statusOf (c2.tryFromValue v2), statusOf (c3.tryFromValue v3), statusOf (c4.tryFromValue v4), statusOf (c5.tryFromValue v5), statusOf (c6.tryFromValue v6), statusOf (c7.tryFromValue v7), statusOf (c8.tryFromValue v8), statusOf (c9.tryFromValue v9), statusOf (c10.tryFromValue v10), statusOf (c11.tryFromValue v11), statusOf (c12.tryFromValue v12)] = some e) :
    tryFromRowTuple12 c1 c2 c3 c4 c5 c6 c7 c8 c9 c10 c11 c12 [v1, v2, v3, v4, v5, v6, v7, v8, v9, v10, v11, v12] s =
      Except.error (RowConvertTupleError.ValueConvertError e) := by
  cases hc1 : c1.tryFromValue v1 with
  | error e1 =>
    simp [firstErr, statusOf, hc1, Except.map] at h
    simp [tryFromRowTuple12, hc1, Except.mapError, Bind.bind, Except.bind, h]
  | ok x1 =>
    cases hc2 : c2.tryFromValue v2 with
    | error e2 =>
      simp [firstErr, statusOf, hc1, hc2, Except.map] at h
      simp [tryFromRowTuple12, hc1, hc2, Except.mapError, Bind.bind, Except.bind, h]
    | ok x2 =>
      cases hc3 : c3.tryFromValue v3 with
      | error e3 =>
        simp [firstErr, statusOf, hc1, hc2, hc3, Except.map] at h
        simp [tryFromRowTuple12, hc1, hc2, hc3, Except.mapError, Bind.bind, Except.bind, h]
      | ok x3 =>
        cases hc4 : c4.tryFromValue v4 with
        | error e4 =>
          simp [firstErr, statusOf, hc1, hc2, hc3, hc4, Except.map] at h
          simp [tryFromRowTuple12, hc1, hc2, hc3, hc4, Except.mapError, Bind.bind, Except.bind, h]
        | ok x4 =>
          cases hc5 : c5.tryFromValue v5 with
          | error e5 =>
            simp [firstErr, statusOf, hc1, hc2, hc3, hc4, hc5, Except.map] at h
            simp [tryFromRowTuple12, hc1, hc2, hc3, hc4, hc5, Except.mapError, Bind.bind, Except.bind, h]
          | ok x5 =>
            cases hc6 : c6.tryFromValue v6 with
            | error e6 =>
              simp [firstErr, statusOf, hc1, hc2, hc3, hc4, hc5, hc6, Except.map] at h
              simp [tryFromRowTuple12, hc1, hc2, hc3, hc4, hc5, hc6, Except.mapError, Bind.bind, Except.bind, h]
            | ok x6 =>
              cases hc7 : c7.tryFromValue v7 with
              | error e7 =>
                simp [firstErr, statusOf, hc1, hc2, hc3, hc4, hc5, hc6, hc7, Except.map] at h
                simp [tryFromRowTuple12, hc1, hc2, hc3, hc4, hc5, hc6, hc7, Except.mapError, Bind.bind, Except.bind, h]
              | ok x7 =>
                cases hc8 : c8.tryFromValue v8 with
                | error e8 =>
                  simp [firstErr, statusOf, hc1, hc2, hc3, hc4, hc5, hc6, hc7, hc8, Except.map] at h
                  simp [tryFromRowTuple12, hc1, hc2, hc3, hc4, hc5, hc6, hc7, hc8, Except.mapError, Bind.bind, Except.bind, h]
                | ok x8 =>
                  cases hc9 : c9.tryFromValue v9 with
                  | error e9 =>
                    simp [firstErr, statusOf, hc1, hc2, hc3, hc4, hc5, hc6, hc7, hc8, hc9, Except.map] at h
                    simp [tryFromRowTuple12, hc1, hc2, hc3, hc4, hc5, hc6, hc7, hc8, hc9, Except.mapError, Bind.bind, Except.bind, h]
                  | ok x9 =>
                    cases hc10 : c10.tryFromValue v10 with
                    | error e10 =>
                      simp [firstErr, statusOf, hc1, hc2, hc3, hc4, hc5, hc6, hc7, hc8, hc9, hc10, Except.map] at h
                      simp [tryFromRowTuple12, hc1, hc2, hc3, hc4, hc5, hc6, hc7, hc8, hc9, hc10, Except.mapError, Bind.bind, Except.bind, h]
                    | ok x10 =>
                      cases hc11 : c11.tryFromValue v11 with
                      | error e11 =>
                        simp [firstErr, statusOf, hc1, hc2, hc3, hc4, hc5, hc6, hc7, hc8, hc9, hc10, hc11, Except.map] at h
                        simp [tryFromRowTuple12, hc1, hc2, hc3, hc4, hc5, hc6, hc7, hc8, hc9, hc10, hc11, Except.mapError, Bind.bind, Except.bind, h]
                      | ok x11 =>
                        cases hc12 : c12.tryFromValue v12 with
                        | error e12 =>
                          simp [firstErr, statusOf, hc1, hc2, hc3, hc4, hc5, hc6, hc7, hc8, hc9, hc10, hc11, hc12, Except.map] at h
                          simp [tryFromRowTuple12, hc1, hc2, hc3, hc4, hc5, hc6, hc7, hc8, hc9, hc10, hc11, hc12, Except.mapError, Bind.bind, Except.bind, h]
                        | ok x12 =>
                          simp [firstErr, statusOf, hc1, hc2, hc3, hc4, hc5, hc6, hc7, hc8, hc9, hc10, hc11, hc12, Except.map] at h

theorem tuple1_ok_inv (c1 : TryFromValueCap α1 ε)
    (v1 : Option Value) (x1 : α1) (s : List ColumnType)
    (h : tryFromRowTuple1 c1 [v1] s = Except.ok x1) :
    c1.tryFromValue v1 = Except.ok x1 := by
  cases hc1 : c1.tryFromValue v1 with
  | error e1 =>
    simp [tryFromRowTuple1, hc1, Except.mapError, Bind.bind, Except.bind] at h
  | ok y1 =>
    simp [tryFromRowTuple1, hc1, Except.mapError, Bind.bind, Except.bind] at h
    subst h
    rfl

theorem tuple2_ok_inv (c1 : TryFromValueCap α1 ε) (c2 : TryFromValueCap α2 ε)
    (v1 v2 : Option Value) (x1 : α1) (x2 : α2) (s : List ColumnType)
    (h : tryFromRowTuple2 c1 c2 [v1, v2] s = Except.ok (x1, x2)) :
    c1.tryFromValue v1 = Except.ok x1 ∧
      c2.tryFromValue v2 = Except.ok x2 := by
  cases hc1 : c1.tryFromValue v1 with
  | error e1 =>
    simp [tryFromRowTuple2, hc1, Except.mapError, Bind.bind, Except.bind] at h
  | ok y1 =>
    cases hc2 : c2.tryFromValue v2 with
    | error e2 =>
      simp [tryFromRowTuple2, hc1, hc2, Except.mapError, Bind.bind, Except.bind] at h
    | ok y2 =>
      simp [tryFromRowTuple2, hc1, hc2, Except.mapError, Bind.bind, Except.bind] at h
      obtain ⟨h1, h2⟩ := h
      subst h1 h2
      exact ⟨rfl, rfl⟩

theorem tuple3_ok_inv (c1 : TryFromValueCap α1 ε) (c2 : TryFromValueCap α2 ε) (c3 : TryFromValueCap α3 ε)
    (v1 v2 v3 : Option Value) (x1 : α1) (x2 : α2) (x3 : α3) (s : List ColumnType)
    (h : tryFromRowTuple3 c1 c2 c3 [v1, v2, v3] s = Except.ok (x1, x2, x3)) :
    c1.tryFromValue v1 = Except.ok x1 ∧
      c2.tryFromValue v2 = Except.ok x2 ∧
      c3.tryFromValue v3 = Except.ok x3 := by
  cases hc1 : c1.tryFromValue v1 with
  | error e1 =>
    simp [tryFromRowTuple3, hc1, Except.mapError, Bind.bind, Except.bind] at h
  | ok y1 =>
    cases hc2 : c2.tryFromValue v2 with
    | error e2 =>
      simp [tryFromRowTuple3, hc1, hc2, Except.mapError, Bind.bind, Except.bind] at h
    | ok y2 =>
      cases hc3 : c3.tryFromValue v3 with
      | error e3 =>
        simp [tryFromRowTuple3, hc1, hc2, hc3, Except.mapError, Bind.bind, Except.bind] at h
      | ok y3 =>
        simp [tryFromRowTuple3, hc1, hc2, hc3, Except.mapError, Bind.bind, Except.bind] at h
        obtain ⟨h1, h2, h3⟩ := h
        subst h1 h2 h3
        exact ⟨rfl, rfl, rfl⟩

theorem tuple4_ok_inv (c1 : TryFromValueCap α1 ε) (c2 : TryFromValueCap α2 ε) (c3 : TryFromValueCap α3 ε) (c4 : TryFromValueCap α4 ε)
    (v1 v2 v3 v4 : Option Value) (x1 : α1) (x2 : α2) (x3 : α3) (x4 : α4) (s : List ColumnType)
    (h : tryFromRowTuple4 c1 c2 c3 c4 [v1, v2, v3, v4] s = Except.ok (x1, x2, x3, x4)) :
    c1.tryFromValue v1 = Except.ok x1 ∧
      c2.tryFromValue v2 = Except.ok x2 ∧
      c3.tryFromValue v3 = Except.ok x3 ∧
      c4.tryFromValue v4 = Except.ok x4 := by
  cases hc1 : c1.tryFromValue v1 with
  | error e1 =>
    simp [tryFromRowTuple4, hc1, Except.mapError, Bind.bind, Except.bind] at h
  | ok y1 =>
    cases hc2 : c2.tryFromValue v2 with
    | error e2 =>
      simp [tryFromRowTuple4, hc1, hc2, Except.mapError, Bind.bind, Except.bind] at h
    | ok y2 =>
      cases hc3 : c3.tryFromValue v3 with
      | error e3 =>
        simp [tryFromRowTuple4, hc1, hc2, hc3, Except.mapError, Bind.bind, Except.bind] at h
      | ok y3 =>
        cases hc4 : c4.tryFromValue v4 with
        | error e4 =>
          simp [tryFromRowTuple4, hc1, hc2, hc3, hc4, Except.mapError, Bind.bind, Except.bind] at h
        | ok y4 =>
          simp [tryFromRowTuple4, hc1, hc2, hc3, hc4, Except.mapError, Bind.bind, Except.bind] at h
          obtain ⟨h1, h2, h3, h4⟩ := h
          subst h1 h2 h3 h4
          exact ⟨rfl, rfl, rfl, rfl⟩

theorem tuple5_ok_inv (c1 : TryFromValueCap α1 ε) (c2 : TryFromValueCap α2 ε) (c3 : TryFromValueCap α3 ε) (c4 : TryFromValueCap α4 ε) (c5 : TryFromValueCap α5 ε)
    (v1 v2 v3 v4 v5 : Option Value) (x1 : α1) (x2 : α2) (x3 : α3) (x4 : α4) (x5 : α5) (s : List ColumnType)
    (h : tryFromRowTuple5 c1 c2 c3 c4 c5 [v1, v2, v3, v4, v5] s = Except.ok (x1, x2, x3, x4, x5)) :
    c1.tryFromValue v1 = Except.ok x1 ∧
      c2.tryFromValue v2 = Except.ok x2 ∧
      c3.tryFromValue v3 = Except.ok x3 ∧
      c4.tryFromValue v4 = Except.ok x4 ∧
      c5.tryFromValue v5 = Except.ok x5 := by
  cases hc1 : c1.tryFromValue v1 with
  | error e1 =>
    simp [tryFromRowTuple5, hc1, Except.mapError, Bind.bind, Except.bind] at h
  | ok y1 =>
    cases hc2 : c2.tryFromValue v2 with
    | error e2 =>
      simp [tryFromRowTuple5, hc1, hc2, Except.mapError, Bind.bind, Except.bind] at h
    | ok y2 =>
      cases hc3 : c3.tryFromValue v3 with
      | error e3 =>
        simp [tryFromRowTuple5, hc1, hc2, hc3, Except.mapError, Bind.bind, Except.bind] at h
      | ok y3 =>
        cases hc4 : c4.tryFromValue v4 with
        | error e4 =>
          simp [tryFromRowTuple5, hc1, hc2, hc3, hc4, Except.mapError, Bind.bind, Except.bind] at h
        | ok y4 =>
          cases hc5 : c5.tryFromValue v5 with
          | error e5 =>
            simp [tryFromRowTuple5, hc1, hc2, hc3, hc4, hc5, Except.mapError, Bind.bind, Except.bind] at h
          | ok y5 =>
            simp [tryFromRowTuple5, hc1, hc2, hc3, hc4, hc5, Except.mapError, Bind.bind, Except.bind] at h
            obtain ⟨h1, h2, h3, h4, h5⟩ := h
            subst h1 h2 h3 h4 h5
            exact ⟨rfl, rfl, rfl, rfl, rfl⟩

theorem tuple6_ok_inv (c1 : TryFromValueCap α1 ε) (c2 : TryFromValueCap α2 ε) (c3 : TryFromValueCap α3 ε) (c4 : TryFromValueCap α4 ε) (c5 : TryFromValueCap α5 ε) (c6 : TryFromValueCap α6 ε)
    (v1 v2 v3 v4 v5 v6 : Option Value) (x1 : α1) (x2 : α2) (x3 : α3) (x4 : α4) (x5 : α5) (x6 : α6) (s : List ColumnType)
    (h : tryFromRowTuple6 c1 c2 c3 c4 c5 c6 [v1, v2, v3, v4, v5, v6] s = Except.ok (x1, x2, x3, x4, x5, x6)) :
    c1.tryFromValue v1 = Except.ok x1 ∧
      c2.tryFromValue v2 = Except.ok x2 ∧
      c3.tryFromValue v3 = Except.ok x3 ∧
      c4.tryFromValue v4 = Except.ok x4 ∧
      c5.tryFromValue v5 = Except.ok x5 ∧
      c6.tryFromValue v6 = Except.ok x6 := by
  cases hc1 : c1.tryFromValue v1 with
  | error e1 =>
    simp [tryFromRowTuple6, hc1, Except.mapError, Bind.bind, Except.bind] at h
  | ok y1 =>
    cases hc2 : c2.tryFromValue v2 with
    | error e2 =>
      simp [tryFromRowTuple6, hc1, hc2, Except.mapError, Bind.bind, Except.bind] at h
    | ok y2 =>
      cases hc3 : c3.tryFromValue v3 with
      | error e3 =>
        simp [tryFromRowTuple6, hc1, hc2, hc3, Except.mapError, Bind.bind, Except.bind] at h
      | ok y3 =>
        cases hc4 : c4.tryFromValue v4 with
        | error e4 =>
          simp [tryFromRowTuple6, hc1, hc2, hc3, hc4, Except.mapError, Bind.bind, Except.bind] at h
        | ok y4 =>
          cases hc5 : c5.tryFromValue v5 with
          | error e5 =>
            simp [tryFromRowTuple6, hc1, hc2, hc3, hc4, hc5, Except.mapError, Bind.bind, Except.bind] at h
          | ok y5 =>
            cases hc6 : c6.tryFromValue v6 with
            | error e6 =>
              simp [tryFromRowTuple6, hc1, hc2, hc3, hc4, hc5, hc6, Except.mapError, Bind.bind, Except.bind] at h
            | ok y6 =>
              simp [tryFromRowTuple6, hc1, hc2, hc3, hc4, hc5, hc6, Except.mapError, Bind.bind, Except.bind] at h
              obtain ⟨h1, h2, h3, h4, h5, h6⟩ := h
              subst h1 h2 h3 h4 h5 h6
              exact ⟨rfl, rfl, rfl, rfl, rfl, rfl⟩

theorem tuple7_ok_inv (c1 : TryFromValueCap α1 ε) (c2 : TryFromValueCap α2 ε) (c3 : TryFromValueCap α3 ε) (c4 : TryFromValueCap α4 ε) (c5 : TryFromValueCap α5 ε) (c6 : TryFromValueCap α6 ε) (c7 : TryFromValueCap α7 ε)
    (v1 v2 v3 v4 v5 v6 v7 : Option Value) (x1 : α1) (x2 : α2) (x3 : α3) (x4 : α4) (x5 : α5) (x6 : α6) (x7 : α7) (s : List ColumnType)
    (h : tryFromRowTuple7 c1 c2 c3 c4 c5 c6 c7 [v1, v2, v3, v4, v5, v6, v7] s = Except.ok (x1, x2, x3, x4, x5, x6, x7)) :
    c1.tryFromValue v1 = Except.ok x1 ∧
      c2.tryFromValue v2 = Except.ok x2 ∧
      c3.tryFromValue v3 = Except.ok x3 ∧
      c4.tryFromValue v4 = Except.ok x4 ∧
      c5.tryFromValue v5 = Except.ok x5 ∧
      c6.tryFromValue v6 = Except.ok x6 ∧
      c7.tryFromValue v7 = Except.ok x7 := by
  cases hc1 : c1.tryFromValue v1 with
  | error e1 =>
    simp [tryFromRowTuple7, hc1, Except.mapError, Bind.bind, Except.bind] at h
  | ok y1 =>
    cases hc2 : c2.tryFromValue v2 with
    | error e2 =>
      simp [tryFromRowTuple7, hc1, hc2, Except.mapError, Bind.bind, Except.bind] at h
    | ok y2 =>
      cases hc3 : c3.tryFromValue v3 with
      | error e3 =>
        simp [tryFromRowTuple7, hc1, hc2, hc3, Except.mapError, Bind.bind, Except.bind] at h
      | ok y3 =>
        cases hc4 : c4.tryFromValue v4 with
        | error e4 =>
          simp [tryFromRowTuple7, hc1, hc2, hc3, hc4, Except.mapError, Bind.bind, Except.bind] at h
        | ok y4 =>
          cases hc5 : c5.tryFromValue v5 with
          | error e5 =>
            simp [tryFromRowTuple7, hc1, hc2, hc3, hc4, hc5, Except.mapError, Bind.bind, Except.bind] at h
          | ok y5 =>
            cases hc6 : c6.tryFromValue v6 with
            | error e6 =>
              simp [tryFromRowTuple7, hc1, hc2, hc3, hc4, hc5, hc6, Except.mapError, Bind.bind, Except.bind] at h
            | ok y6 =>
              cases hc7 : c7.tryFromValue v7 with
              | error e7 =>
                simp [tryFromRowTuple7, hc1, hc2, hc3, hc4, hc5, hc6, hc7, Except.mapError, Bind.bind, Except.bind] at h
              | ok y7 =>
                simp [tryFromRowTuple7, hc1, hc2, hc3, hc4, hc5, hc6, hc7, Except.mapError, Bind.bind, Except.bind] at h
                obtain ⟨h1, h2, h3, h4, h5, h6, h7⟩ := h
                subst h1 h2 h3 h4 h5 h6 h7
                exact ⟨rfl, rfl, rfl, rfl, rfl, rfl, rfl⟩

theorem tuple8_ok_inv (c1 : TryFromValueCap α1 ε) (c2 : TryFromValueCap α2 ε) (c3 : TryFromValueCap α3 ε) (c4 : TryFromValueCap α4 ε) (c5 : TryFromValueCap α5 ε) (c6 : TryFromValueCap α6 ε) (c7 : TryFromValueCap α7 ε) (c8 : TryFromValueCap α8 ε)
    (v1 v2 v3 v4 v5 v6 v7 v8 : Option Value) (x1 : α1) (x2 : α2) (x3 : α3) (x4 : α4) (x5 : α5) (x6 : α6) (x7 : α7) (x8 : α8) (s : List ColumnType)
    (h : tryFromRowTuple8 c1 c2 c3 c4 c5 c6 c7 c8 [v1, v2, v3, v4, v5, v6, v7, v8] s = Except.ok (x1, x2, x3, x4, x5, x6, x7, x8)) :
    c1.tryFromValue v1 = Except.ok x1 ∧
      c2.tryFromValue v2 = Except.ok x2 ∧
      c3.tryFromValue v3 = Except.ok x3 ∧
      c4.tryFromValue v4 = Except.ok x4 ∧
      c5.tryFromValue v5 = Except.ok x5 ∧
      c6.tryFromValue v6 = Except.ok x6 ∧
      c7.tryFromValue v7 = Except.ok x7 ∧
      c8.tryFromValue v8 = Except.ok x8 := by
  cases hc1 : c1.tryFromValue v1 with
  | error e1 =>
    simp [tryFromRowTuple8, hc1, Except.mapError, Bind.bind, Except.bind] at h
  | ok y1 =>
    cases hc2 : c2.tryFromValue v2 with
    | error e2 =>
      simp [tryFromRowTuple8, hc1, hc2, Except.mapError, Bind.bind, Except.bind] at h
    | ok y2 =>
      cases hc3 : c3.tryFromValue v3 with
      | error e3 =>
        simp [tryFromRowTuple8, hc1, hc2, hc3, Except.mapError, Bind.bind, Except.bind] at h
      | ok y3 =>
        cases hc4 : c4.tryFromValue v4 with
        | error e4 =>
          simp [tryFromRowTuple8, hc1, hc2, hc3, hc4, Except.mapError, Bind.bind, Except.bind] at h
        | ok y4 =>
          cases hc5 : c5.tryFromValue v5 with
          | error e5 =>
            simp [tryFromRowTuple8, hc1, hc2, hc3, hc4, hc5, Except.mapError, Bind.bind, Except.bind] at h
          | ok y5 =>
            cases hc6 : c6.tryFromValue v6 with
            | error e6 =>
              simp [tryFromRowTuple8, hc1, hc2, hc3, hc4, hc5, hc6, Except.mapError, Bind.bind, Except.bind] at h
            | ok y6 =>
              cases hc7 : c7.tryFromValue v7 with
              | error e7 =>
                simp [tryFromRowTuple8, hc1, hc2, hc3, hc4, hc5, hc6, hc7, Except.mapError, Bind.bind, Except.bind] at h
              | ok y7 =>
                cases hc8 : c8.tryFromValue v8 with
                | error e8 =>
                  simp [tryFromRowTuple8, hc1, hc2, hc3, hc4, hc5, hc6, hc7, hc8, Except.mapError, Bind.bind, Except.bind] at h
                | ok y8 =>
                  simp [tryFromRowTuple8, hc1, hc2, hc3, hc4, hc5, hc6, hc7, hc8, Except.mapError, Bind.bind, Except.bind] at h
                  obtain ⟨h1, h2, h3, h4, h5, h6, h7, h8⟩ := h
                  subst h1 h2 h3 h4 h5 h6 h7 h8
                  exact ⟨rfl, rfl, rfl, rfl, rfl, rfl, rfl, rfl⟩

theorem tuple9_ok_inv (c1 : TryFromValueCap α1 ε) (c2 : TryFromValueCap α2 ε) (c3 : TryFromValueCap α3 ε) (c4 : TryFromValueCap α4 ε) (c5 : TryFromValueCap α5 ε) (c6 : TryFromValueCap α6 ε) (c7 : TryFromValueCap α7 ε) (c8 : TryFromValueCap α8 ε) (c9 : TryFromValueCap α9 ε)
    (v1 v2 v3 v4 v5 v6 v7 v8 v9 : Option Value) (x1 : α1) (x2 : α2) (x3 : α3) (x4 : α4) (x5 : α5) (x6 : α6) (x7 : α7) (x8 : α8) (x9 : α9) (s : List ColumnType)
    (h : tryFromRowTuple9 c1 c2 c3 c4 c5 c6 c7 c8 c9 [v1, v2, v3, v4, v5, v6, v7, v8, v9] s = Except.ok (x1, x2, x3, x4, x5, x6, x7, x8, x9)) :
    c1.tryFromValue v1 = Except.ok x1 ∧
      c2.tryFromValue v2 = Except.ok x2 ∧
      c3.tryFromValue v3 = Except.ok x3 ∧
      c4.tryFromValue v4 = Except.ok x4 ∧
      c5.tryFromValue v5 = Except.ok x5 ∧
      c6.tryFromValue v6 = Except.ok x6 ∧
      c7.tryFromValue v7 = Except.ok x7 ∧
      c8.tryFromValue v8 = Except.ok x8 ∧
      c9.tryFromValue v9 = Except.ok x9 := by
  cases hc1 : c1.tryFromValue v1 with
  | error e1 =>
    simp [tryFromRowTuple9, hc1, Except.mapError, Bind.bind, Except.bind] at h
  | ok y1 =>
    cases hc2 : c2.tryFromValue v2 with
    | error e2 =>
      simp [tryFromRowTuple9, hc1, hc2, Except.mapError, Bind.bind, Except.bind] at h
    | ok y2 =>
      cases hc3 : c3.tryFromValue v3 with
      | error e3 =>
        simp [tryFromRowTuple9, hc1, hc2, hc3, Except.mapError, Bind.bind, Except.bind] at h
      | ok y3 =>
        cases hc4 : c4.tryFromValue v4 with
        | error e4 =>
          simp [tryFromRowTuple9, hc1, hc2, hc3, hc4, Except.mapError, Bind.bind, Except.bind] at h
        | ok y4 =>
          cases hc5 : c5.tryFromValue v5 with
          | error e5 =>
            simp [tryFromRowTuple9, hc1, hc2, hc3, hc4, hc5, Except.mapError, Bind.bind, Except.bind] at h
          | ok y5 =>
            cases hc6 : c6.tryFromValue v6 with
            | error e6 =>
              simp [tryFromRowTuple9, hc1, hc2, hc3, hc4, hc5, hc6, Except.mapError, Bind.bind, Except.bind] at h
            | ok y6 =>
              cases hc7 : c7.tryFromValue v7 with
              | error e7 =>
                simp [tryFromRowTuple9, hc1, hc2, hc3, hc4, hc5, hc6, hc7, Except.mapError, Bind.bind, Except.bind] at h
              | ok y7 =>
                cases hc8 : c8.tryFromValue v8 with
                | error e8 =>
                  simp [tryFromRowTuple9, hc1, hc2, hc3, hc4, hc5, hc6, hc7, hc8, Except.mapError, Bind.bind, Except.bind] at h
                | ok y8 =>
                  cases hc9 : c9.tryFromValue v9 with
                  | error e9 =>
                    simp [tryFromRowTuple9, hc1, hc2, hc3, hc4, hc5, hc6, hc7, hc8, hc9, Except.mapError, Bind.bind, Except.bind] at h
                  | ok y9 =>
                    simp [tryFromRowTuple9, hc1, hc2, hc3, hc4, hc5, hc6, hc7, hc8, hc9, Except.mapError, Bind.bind, Except.bind] at h
                    obtain ⟨h1, h2, h3, h4, h5, h6, h7, h8, h9⟩ := h
                    subst h1 h2 h3 h4 h5 h6 h7 h8 h9
                    exact ⟨rfl, rfl, rfl, rfl, rfl, rfl, rfl, rfl, rfl⟩

theorem tuple10_ok_inv (c1 : TryFromValueCap α1 ε) (c2 : TryFromValueCap α2 ε) (c3 : TryFromValueCap α3 ε) (c4 : TryFromValueCap α4 ε) (c5 : TryFromValueCap α5 ε) (c6 : TryFromValueCap α6 ε) (c7 : TryFromValueCap α7 ε) (c8 : TryFromValueCap α8 ε) (c9 : TryFromValueCap α9 ε) (c10 : TryFromValueCap α10 ε)
    (v1 v2 v3 v4 v5 v6 v7 v8 v9 v10 : Option Value) (x1 : α1) (x2 : α2) (x3 : α3) (x4 : α4) (x5 : α5) (x6 : α6) (x7 : α7) (x8 : α8) (x9 : α9) (x10 : α10) (s : List ColumnType)
    (h : tryFromRowTuple10 c1 c2 c3 c4 c5 c6 c7 c8 c9 c10 [v1, v2, v3, v4, v5, v6, v7, v8, v9, v10] s = Except.ok (x1, x2, x3, x4, x5, x6, x7, x8, x9, x10)) :
    c1.tryFromValue v1 = Except.ok x1 ∧
      c2.tryFromValue v2 = Except.ok x2 ∧
      c3.tryFromValue v3 = Except.ok x3 ∧
      c4.tryFromValue v4 = Except.ok x4 ∧
      c5.tryFromValue v5 = Except.ok x5 ∧
      c6.tryFromValue v6 = Except.ok x6 ∧
      c7.tryFromValue v7 = Except.ok x7 ∧
      c8.tryFromValue v8 = Except.ok x8 ∧
      c9.tryFromValue v9 = Except.ok x9 ∧
      c10.tryFromValue v10 = Except.ok x10 := by
  cases hc1 : c1.tryFromValue v1 with
  | error e1 =>
    simp [tryFromRowTuple10, hc1, Except.mapError, Bind.bind, Except.bind] at h
  | ok y1 =>
    cases hc2 : c2.tryFromValue v2 with
    | error e2 =>
      simp [tryFromRowTuple10, hc1, hc2, Except.mapError, Bind.bind, Except.bind] at h
    | ok y2 =>
      cases hc3 : c3.tryFromValue v3 with
      | error e3 =>
        simp [tryFromRowTuple10, hc1, hc2, hc3, Except.mapError, Bind.bind, Except.bind] at h
      | ok y3 =>
        cases hc4 : c4.tryFromValue v4 with
        | error e4 =>
          simp [tryFromRowTuple10, hc1, hc2, hc3, hc4, Except.mapError, Bind.bind, Except.bind] at h
        | ok y4 =>
          cases hc5 : c5.tryFromValue v5 with
          | error e5 =>
            simp [tryFromRowTuple10, hc1, hc2, hc3, hc4, hc5, Except.mapError, Bind.bind, Except.bind] at h
          | ok y5 =>
            cases hc6 : c6.tryFromValue v6 with
            | error e6 =>
              simp [tryFromRowTuple10, hc1, hc2, hc3, hc4, hc5, hc6, Except.mapError, Bind.bind, Except.bind] at h
            | ok y6 =>
              cases hc7 : c7.tryFromValue v7 with
              | error e7 =>
                simp [tryFromRowTuple10, hc1, hc2, hc3, hc4, hc5, hc6, hc7, Except.mapError, Bind.bind, Except.bind] at h
              | ok y7 =>
                cases hc8 : c8.tryFromValue v8 with
                | error e8 =>
                  simp [tryFromRowTuple10, hc1, hc2, hc3, hc4, hc5, hc6, hc7, hc8, Except.mapError, Bind.bind, Except.bind] at h
                | ok y8 =>
                  cases hc9 : c9.tryFromValue v9 with
                  | error e9 =>
                    simp [tryFromRowTuple10, hc1, hc2, hc3, hc4, hc5, hc6, hc7, hc8, hc9, Except.mapError, Bind.bind, Except.bind] at h
                  | ok y9 =>
                    cases hc10 : c10.tryFromValue v10 with
                    | error e10 =>
                      simp [tryFromRowTuple10, hc1, hc2, hc3, hc4, hc5, hc6, hc7, hc8, hc9, hc10, Except.mapError, Bind.bind, Except.bind] at h
                    | ok y10 =>
                      simp [tryFromRowTuple10, hc1, hc2, hc3, hc4, hc5, hc6, hc7, hc8, hc9, hc10, Except.mapError, Bind.bind, Except.bind] at h
                      obtain ⟨h1, h2, h3, h4, h5, h6, h7, h8, h9, h10⟩ := h
                      subst h1 h2 h3 h4 h5 h6 h7 h8 h9 h10
                      exact ⟨rfl, rfl, rfl, rfl, rfl, rfl, rfl, rfl, rfl, rfl⟩

theorem tuple11_ok_inv (c1 : TryFromValueCap α1 ε) (c2 : TryFromValueCap α2 ε) (c3 : TryFromValueCap α3 ε) (c4 : TryFromValueCap α4 ε) (c5 : TryFromValueCap α5 ε) (c6 : TryFromValueCap α6 ε) (c7 : TryFromValueCap α7 ε) (c8 : TryFromValueCap α8 ε) (c9 : TryFromValueCap α9 ε) (c10 : TryFromValueCap α10 ε) (c11 : TryFromValueCap α11 ε)
    (v1 v2 v3 v4 v5 v6 v7 v8 v9 v10 v11 : Option Value) (x1 : α1) (x2 : α2) (x3 : α3) (x4 : α4) (x5 : α5) (x6 : α6) (x7 : α7) (x8 : α8) (x9 : α9) (x10 : α10) (x11 : α11) (s : List ColumnType)
    (h : tryFromRowTuple11 c1 c2 c3 c4 c5 c6 c7 c8 c9 c10 c11 [v1, v2, v3, v4, v5, v6, v7, v8, v9, v10, v11] s = Except.ok (x1, x2, x3, x4, x5, x6, x7, x8, x9, x10, x11)) :
    c1.tryFromValue v1 = Except.ok x1 ∧
      c2.tryFromValue v2 = Except.ok x2 ∧
      c3.tryFromValue v3 = Except.ok x3 ∧
      c4.tryFromValue v4 = Except.ok x4 ∧
      c5.tryFromValue v5 = Except.ok x5 ∧
      c6.tryFromValue v6 = Except.ok x6 ∧
      c7.tryFromValue v7 = Except.ok x7 ∧
      c8.tryFromValue v8 = Except.ok x8 ∧
      c9.tryFromValue v9 = Except.ok x9 ∧
      c10.tryFromValue v10 = Except.ok x10 ∧
      c11.tryFromValue v11 = Except.ok x11 := by
  cases hc1 : c1.tryFromValue v1 with
  | error e1 =>
    simp [tryFromRowTuple11, hc1, Except.mapError, Bind.bind, Except.bind] at h
  | ok y1 =>
    cases hc2 : c2.tryFromValue v2 with
    | error e2 =>
      simp [tryFromRowTuple11, hc1, hc2, Except.mapError, Bind.bind, Except.bind] at h
    | ok y2 =>
      cases hc3 : c3.tryFromValue v3 with
      | error e3 =>
        simp [tryFromRowTuple11, hc1, hc2, hc3, Except.mapError, Bind.bind, Except.bind] at h
      | ok y3 =>
        cases hc4 : c4.tryFromValue v4 with
        | error e4 =>
          simp [tryFromRowTuple11, hc1, hc2, hc3, hc4, Except.mapError, Bind.bind, Except.bind] at h
        | ok y4 =>
          cases hc5 : c5.tryFromValue v5 with
          | error e5 =>
            simp [tryFromRowTuple11, hc1, hc2, hc3, hc4, hc5, Except.mapError, Bind.bind, Except.bind] at h
          | ok y5 =>
            cases hc6 : c6.tryFromValue v6 with
            | error e6 =>
              simp [tryFromRowTuple11, hc1, hc2, hc3, hc4, hc5, hc6, Except.mapError, Bind.bind, Except.bind] at h
            | ok y6 =>
              cases hc7 : c7.tryFromValue v7 with
              | error e7 =>
                simp [tryFromRowTuple11, hc1, hc2, hc3, hc4, hc5, hc6, hc7, Except.mapError, Bind.bind, Except.bind] at h
              | ok y7 =>
                cases hc8 : c8.tryFromValue v8 with
                | error e8 =>
                  simp [tryFromRowTuple11, hc1, hc2, hc3, hc4, hc5, hc6, hc7, hc8, Except.mapError, Bind.bind, Except.bind] at h
                | ok y8 =>
                  cases hc9 : c9.tryFromValue v9 with
                  | error e9 =>
                    simp [tryFromRowTuple11, hc1, hc2, hc3, hc4, hc5, hc6, hc7, hc8, hc9, Except.mapError, Bind.bind, Except.bind] at h
                  | ok y9 =>
                    cases hc10 : c10.tryFromValue v10 with
                    | error e10 =>
                      simp [tryFromRowTuple11, hc1, hc2, hc3, hc4, hc5, hc6, hc7, hc8, hc9, hc10, Except.mapError, Bind.bind, Except.bind] at h
                    | ok y10 =>
                      cases hc11 : c11.tryFromValue v11 with
                      | error e11 =>
                        simp [tryFromRowTuple11, hc1, hc2, hc3, hc4, hc5, hc6, hc7, hc8, hc9, hc10, hc11, Except.mapError, Bind.bind, Except.bind] at h
                      | ok y11 =>
                        simp [tryFromRowTuple11, hc1, hc2, hc3, hc4, hc5, hc6, hc7, hc8, hc9, hc10, hc11, Except.mapError, Bind.bind, Except.bind] at h
                        obtain ⟨h1, h2, h3, h4, h5, h6, h7, h8, h9, h10, h11⟩ := h
                        subst h1 h2 h3 h4 h5 h6 h7 h8 h9 h10 h11
                        exact ⟨rfl, rfl, rfl, rfl, rfl, rfl, rfl, rfl, rfl, rfl, rfl⟩

theorem tuple12_ok_inv (c1 : TryFromValueCap α1 ε) (c2 : TryFromValueCap α2 ε) (c3 : TryFromValueCap α3 ε) (c4 : TryFromValueCap α4 ε) (c5 : TryFromValueCap α5 ε) (c6 : TryFromValueCap α6 ε) (c7 : TryFromValueCap α7 ε) (c8 : TryFromValueCap α8 ε) (c9 : TryFromValueCap α9 ε) (c10 : TryFromValueCap α10 ε) (c11 : TryFromValueCap α11 ε) (c12 : TryFromValueCap α12 ε)
    (v1 v2 v3 v4 v5 v6 v7 v8 v9 v10 v11 v12 : Option Value) (x1 : α1) (x2 : α2) (x3 : α3) (x4 : α4) (x5 : α5) (x6 : α6) (x7 : α7) (x8 : α8) (x9 : α9) (x10 : α10) (x11 : α11) (x12 : α12) (s : List ColumnType)
    (h : tryFromRowTuple12 c1 c2 c3 c4 c5 c6 c7 c8 c9 c10 c11 c12 [v1, v2, v3, v4, v5, v6, v7, v8, v9, v10, v11, v12] s = Except.ok (x1, x2, x3, x4, x5, x6, x7, x8, x9, x10, x11, x12)) :
    c1.tryFromValue v1 = Except.ok x1 ∧
      c2.tryFromValue v2 = Except.ok x2 ∧
      c3.tryFromValue v3 = Except.ok x3 ∧
      c4.tryFromValue v4 = Except.ok x4 ∧
      c5.tryFromValue v5 = Except.ok x5 ∧
      c6.tryFromValue v6 = Except.ok x6 ∧
      c7.tryFromValue v7 = Except.ok x7 ∧
      c8.tryFromValue v8 = Except.ok x8 ∧
      c9.tryFromValue v9 = Except.ok x9 ∧
      c10.tryFromValue v10 = Except.ok x10 ∧
      c11.tryFromValue v11 = Except.ok x11 ∧
      c12.tryFromValue v12 = Except.ok x12 := by
  cases hc1 : c1.tryFromValue v1 with
  | error e1 =>
    simp [tryFromRowTuple12, hc1, Except.mapError, Bind.bind, Except.bind] at h
  | ok y1 =>
    cases hc2 : c2.tryFromValue v2 with
    | error e2 =>
      simp [tryFromRowTuple12, hc1, hc2, Except.mapError, Bind.bind, Except.bind] at h
    | ok y2 =>
      cases hc3 : c3.tryFromValue v3 with
      | error e3 =>
        simp [tryFromRowTuple12, hc1, hc2, hc3, Except.mapError, Bind.bind, Except.bind] at h
      | ok y3 =>
        cases hc4 : c4.tryFromValue v4 with
        | error e4 =>
          simp [tryFromRowTuple12, hc1, hc2, hc3, hc4, Except.mapError, Bind.bind, Except.bind] at h
        | ok y4 =>
          cases hc5 : c5.tryFromValue v5 with
          | error e5 =>
            simp [tryFromRowTuple12, hc1, hc2, hc3, hc4, hc5, Except.mapError, Bind.bind, Except.bind] at h
          | ok y5 =>
            cases hc6 : c6.tryFromValue v6 with
            | error e6 =>
              simp [tryFromRowTuple12, hc1, hc2, hc3, hc4, hc5, hc6, Except.mapError, Bind.bind, Except.bind] at h
            | ok y6 =>
              cases hc7 : c7.tryFromValue v7 with
              | error e7 =>
                simp [tryFromRowTuple12, hc1, hc2, hc3, hc4, hc5, hc6, hc7, Except.mapError, Bind.bind, Except.bind] at h
              | ok y7 =>
                cases hc8 : c8.tryFromValue v8 with
                | error e8 =>
                  simp [tryFromRowTuple12, hc1, hc2, hc3, hc4, hc5, hc6, hc7, hc8, Except.mapError, Bind.bind, Except.bind] at h
                | ok y8 =>
                  cases hc9 : c9.tryFromValue v9 with
                  | error e9 =>
                    simp [tryFromRowTuple12, hc1, hc2, hc3, hc4, hc5, hc6, hc7, hc8, hc9, Except.mapError, Bind.bind, Except.bind] at h
                  | ok y9 =>
                    cases hc10 : c10.tryFromValue v10 with
                    | error e10 =>
                      simp [tryFromRowTuple12, hc1, hc2, hc3, hc4, hc5, hc6, hc7, hc8, hc9, hc10, Except.mapError, Bind.bind, Except.bind] at h
                    | ok y10 =>
                      cases hc11 : c11.tryFromValue v11 with
                      | error e11 =>
                        simp [tryFromRowTuple12, hc1, hc2, hc3, hc4, hc5, hc6, hc7, hc8, hc9, hc10, hc11, Except.mapError, Bind.bind, Except.bind] at h
                      | ok y11 =>
                        cases hc12 : c12.tryFromValue v12 with
                        | error e12 =>
                          simp [tryFromRowTuple12, hc1, hc2, hc3, hc4, hc5, hc6, hc7, hc8, hc9, hc10, hc11, hc12, Except.mapError, Bind.bind, Except.bind] at h
                        | ok y12 =>
                          simp [tryFromRowTuple12, hc1, hc2, hc3, hc4, hc5, hc6, hc7, hc8, hc9, hc10, hc11, hc12, Except.mapError, Bind.bind, Except.bind] at h
                          obtain ⟨h1, h2, h3, h4, h5, h6, h7, h8, h9, h10, h11, h12⟩ := h
                          subst h1 h2 h3 h4 h5 h6 h7 h8 h9 h10 h11 h12
                          exact ⟨rfl, rfl, rfl, rfl, rfl, rfl, rfl, rfl, rfl, rfl, rfl, rfl⟩

/-- Claim C1 counterexample: a single absent column targeted at the bare
signed 64-bit integer form does not fail with
`RowConvertError::UnexpectedNullValue` carrying the target type's name;
it fails with `ValueConvertError` wrapping the scalar capability's
null-value cause. -/
theorem C1_counterexample :
    tryFromRowScalar i64Cap [none] [] =
      Except.error (RowConvertError.ValueConvertError (ScalarConvertError.NullValue "i64")) ∧
    Except.error (RowConvertError.ValueConvertError (ScalarConvertError.NullValue "i64")) ≠
      (Except.error (RowConvertError.UnexpectedNullValue "i64") :
        Except (RowConvertError ScalarConvertError) Int) :=
  ⟨rfl, by simp⟩

/-- Claim C1 (amended): for the single-scalar strategy on a
single-column row whose entry is absent, the optional wrapper target
succeeds returning the empty value, while the bare target fails with
`RowConvertError::ValueConvertError` wrapping the scalar capability's
null-value cause carrying the target type's name (the dispatcher's own
`UnexpectedNullValue` variant is not what surfaces). -/
theorem C1_amended :
    (∀ (α ε : Type) (cap : TryFromValueCap α ε) (s : List ColumnType),
      tryFromRowScalar (optCap cap) [none] s = Except.ok none) ∧
    (∀ s : List ColumnType,
      tryFromRowScalar i64Cap [none] s =
        Except.error (RowConvertError.ValueConvertError (ScalarConvertError.NullValue "i64"))) :=
  ⟨fun _ _ _ _ => rfl, fun _ => rfl⟩

/-- Claim C6: for every row and every schema, the raw-row (identity)
target always succeeds and returns the input row unchanged (same length,
order and entries, absent ones included), and its error type (Rust
`Infallible`, here `Empty`) is uninhabited, so no error is reachable. -/
theorem C6_identity_round_trip :
    (∀ (vs : ValueRow) (s : List ColumnType), tryFromRowRaw vs s = Except.ok vs) ∧
    (∀ x : Empty, False) :=
  ⟨fun _ _ => rfl, fun x => x.elim⟩

/-- Claim C7: the single-scalar strategy fails on any row whose length is
not exactly 1 with `UnexpectedNumberOfColumns { expected: 1, got: actual
length }`; in particular a two-column row targeted at a bare signed
64-bit integer yields expected 1, got 2. -/
theorem C7_scalar_arity_error :
    (∀ (α ε : Type) (cap : TryFromValueCap α ε) (vs : ValueRow) (s : List ColumnType),
      vs.length ≠ 1 →
      tryFromRowScalar cap vs s =
        Except.error (RowConvertError.UnexpectedNumberOfColumns 1 vs.length)) ∧
    tryFromRowScalar i64Cap [some (Value.Integer 42), some (Value.Integer 7)] [] =
      Except.error (RowConvertError.UnexpectedNumberOfColumns 1 2) :=
  ⟨fun _ _ cap vs s h => scalar_length_ne cap vs s h, rfl⟩

/-- Witness for claim C7 at a concrete input: the empty row fails with
expected 1, got 0. -/
theorem C7_scalar_arity_error_witness :
    tryFromRowScalar boolCap [] [] =
      Except.error (RowConvertError.UnexpectedNumberOfColumns 1 0) :=
  C7_scalar_arity_error.1 Bool ScalarConvertError boolCap [] [] (by decide)

/-- Claim C8: for both error kinds, the cause chain (`Error::source`)
exposes the wrapped underlying cause exactly when the variant is
`ValueConvertError`, and returns no cause for every other variant. -/
theorem C8_source_cause_chain :
    ∀ (ε : Type) (e : RowConvertError ε) (te : RowConvertTupleError ε) (c : ε),
      (e.source = some c ↔ e = RowConvertError.ValueConvertError c) ∧
      (te.source = some c ↔ te = RowConvertTupleError.ValueConvertError c) := by
  intro ε e te c
  constructor
  · cases e <;> simp [RowConvertError.source]
  · cases te <;> simp [RowConvertTupleError.source]

/-- Claim C10: in the single-scalar strategy the `UnexpectedNullValue`
branch guarding the pop of the sole entry (which hard-codes the type name
"Value") is unreachable for every capability, row and schema; on a
single-column row the outcome is exactly the delegated scalar conversion,
any failure being surfaced as `ValueConvertError`. -/
theorem C10_null_branch_unreachable :
    (∀ (α ε : Type) (cap : TryFromValueCap α ε) (vs : ValueRow) (s : List ColumnType),
      scalarResultIsNullValueError cap vs s = false) ∧
    (∀ (α ε : Type) (cap : TryFromValueCap α ε) (v : Option Value) (s : List ColumnType),
      tryFromRowScalar cap [v] s =
        (cap.tryFromValue v).mapError RowConvertError.ValueConvertError) := by
  refine ⟨?_, ?_⟩
  · intro α ε cap vs s
    rcases vs with _ | ⟨v, _ | ⟨w, t⟩⟩
    · simp [scalarResultIsNullValueError, tryFromRowScalar,
        RowConvertError.isUnexpectedNullValue]
    · simp only [scalarResultIsNullValueError, scalar_singleton]
      cases cap.tryFromValue v <;>
        simp [Except.mapError, RowConvertError.isUnexpectedNullValue]
    · simp [scalarResultIsNullValueError,
        scalar_length_ne cap (v :: w :: t) s (by simp),
        RowConvertError.isUnexpectedNullValue]
  · intro α ε cap v s
    exact scalar_singleton cap v s

/-- Claim C2 counterexample: a three-column row converted to a 2-tuple
raises an arity-mismatch error whose sole numeric field (named
`expected`) holds 3, the actual row length, while the count required by
the target shape is 2; the tuple arity error therefore does not report
the expected count. -/
theorem C2_counterexample :
    tryFromRowTuple2 i64Cap i64Cap [none, none, none] [] =
      Except.error (RowConvertTupleError.UnexpectedNumberOfColumns 3 "(A, B,)") ∧
    (3 : Nat) ≠ 2 :=
  ⟨rfl, by decide⟩

/-- Claim C2 (amended): the single-scalar strategy reports arity
mismatches faithfully (`expected` is 1, the count required by the target
shape, and `got` is the true row length, for every row length); each
tuple strategy instead reports only the actual row length, reduced
modulo 2^16 by the `as u16` cast, in the field named `expected`,
together with the tuple type name, and does not carry the tuple's
required column count as a number. -/
theorem C2_amended :
    (∀ (α ε : Type) (cap : TryFromValueCap α ε) (vs : ValueRow) (s : List ColumnType),
      vs.length ≠ 1 →
      tryFromRowScalar cap vs s =
        Except.error (RowConvertError.UnexpectedNumberOfColumns 1 vs.length)) ∧
    (∀ (α1 ε : Type) (c1 : TryFromValueCap α1 ε) (vs : ValueRow) (s : List ColumnType),
      vs.length ≠ 1 →
      tryFromRowTuple1 c1 vs s =
        Except.error (RowConvertTupleError.UnexpectedNumberOfColumns (vs.length % 65536) "(A,)")) ∧
    (∀ (α1 α2 ε : Type) (c1 : TryFromValueCap α1 ε) (c2 : TryFromValueCap α2 ε) (vs : ValueRow) (s : List ColumnType),
      vs.length ≠ 2 →
      tryFromRowTuple2 c1 c2 vs s =
        Except.error (RowConvertTupleError.UnexpectedNumberOfColumns (vs.length % 65536) "(A, B,)")) ∧
    (∀ (α1 α2 α3 ε : Type) (c1 : TryFromValueCap α1 ε) (c2 : TryFromValueCap α2 ε) (c3 : TryFromValueCap α3 ε) (vs : ValueRow) (s : List ColumnType),
      vs.length ≠ 3 →
      tryFromRowTuple3 c1 c2 c3 vs s =
        Except.error (RowConvertTupleError.UnexpectedNumberOfColumns (vs.length % 65536) "(A, B, C,)")) ∧
    (∀ (α1 α2 α3 α4 ε : Type) (c1 : TryFromValueCap α1 ε) (c2 : TryFromValueCap α2 ε) (c3 : TryFromValueCap α3 ε) (c4 : TryFromValueCap α4 ε) (vs : ValueRow) (s : List ColumnType),
      vs.length ≠ 4 →
      tryFromRowTuple4 c1 c2 c3 c4 vs s =
        Except.error (RowConvertTupleError.UnexpectedNumberOfColumns (vs.length % 65536) "(A, B, C, D,)")) ∧
    (∀ (α1 α2 α3 α4 α5 ε : Type) (c1 : TryFromValueCap α1 ε) (c2 : TryFromValueCap α2 ε) (c3 : TryFromValueCap α3 ε) (c4 : TryFromValueCap α4 ε) (c5 : TryFromValueCap α5 ε) (vs : ValueRow) (s : List ColumnType),
      vs.length ≠ 5 →
      tryFromRowTuple5 c1 c2 c3 c4 c5 vs s =
        Except.error (RowConvertTupleError.UnexpectedNumberOfColumns (vs.length % 65536) "(A, B, C, D, E,)")) ∧
    (∀ (α1 α2 α3 α4 α5 α6 ε : Type) (c1 : TryFromValueCap α1 ε) (c2 : TryFromValueCap α2 ε) (c3 : TryFromValueCap α3 ε) (c4 : TryFromValueCap α4 ε) (c5 : TryFromValueCap α5 ε) (c6 : TryFromValueCap α6 ε) (vs : ValueRow) (s : List ColumnType),
      vs.length ≠ 6 →
      tryFromRowTuple6 c1 c2 c3 c4 c5 c6 vs s =
        Except.error (RowConvertTupleError.UnexpectedNumberOfColumns (vs.length % 65536) "(A, B, C, D, E, F,)")) ∧
    (∀ (α1 α2 α3 α4 α5 α6 α7 ε : Type) (c1 : TryFromValueCap α1 ε) (c2 : TryFromValueCap α2 ε) (c3 : TryFromValueCap α3 ε) (c4 : TryFromValueCap α4 ε) (c5 : TryFromValueCap α5 ε) (c6 : TryFromValueCap α6 ε) (c7 : TryFromValueCap α7 ε) (vs : ValueRow) (s : List ColumnType),
      vs.length ≠ 7 →
      tryFromRowTuple7 c1 c2 c3 c4 c5 c6 c7 vs s =
        Except.error (RowConvertTupleError.UnexpectedNumberOfColumns (vs.length % 65536) "(A, B, C, D, E, F, G,)")) ∧
    (∀ (α1 α2 α3 α4 α5 α6 α7 α8 ε : Type) (c1 : TryFromValueCap α1 ε) (c2 : TryFromValueCap α2 ε) (c3 : TryFromValueCap α3 ε) (c4 : TryFromValueCap α4 ε) (c5 : TryFromValueCap α5 ε) (c6 : TryFromValueCap α6 ε) (c7 : TryFromValueCap α7 ε) (c8 : TryFromValueCap α8 ε) (vs : ValueRow) (s : List ColumnType),
      vs.length ≠ 8 →
      tryFromRowTuple8 c1 c2 c3 c4 c5 c6 c7 c8 vs s =
        Except.error (RowConvertTupleError.UnexpectedNumberOfColumns (vs.length % 65536) "(A, B, C, D, E, F, G, H,)")) ∧
    (∀ (α1 α2 α3 α4 α5 α6 α7 α8 α9 ε : Type) (c1 : TryFromValueCap α1 ε) (c2 : TryFromValueCap α2 ε) (c3 : TryFromValueCap α3 ε) (c4 : TryFromValueCap α4 ε) (c5 : TryFromValueCap α5 ε) (c6 : TryFromValueCap α6 ε) (c7 : TryFromValueCap α7 ε) (c8 : TryFromValueCap α8 ε) (c9 : TryFromValueCap α9 ε) (vs : ValueRow) (s : List ColumnType),
      vs.length ≠ 9 →
      tryFromRowTuple9 c1 c2 c3 c4 c5 c6 c7 c8 c9 vs s =
        Except.error (RowConvertTupleError.UnexpectedNumberOfColumns (vs.length % 65536) "(A, B, C, D, E, F, G, H, I,)")) ∧
    (∀ (α1 α2 α3 α4 α5 α6 α7 α8 α9 α10 ε : Type) (c1 : TryFromValueCap α1 ε) (c2 : TryFromValueCap α2 ε) (c3 : TryFromValueCap α3 ε) (c4 : TryFromValueCap α4 ε) (c5 : TryFromValueCap α5 ε) (c6 : TryFromValueCap α6 ε) (c7 : TryFromValueCap α7 ε) (c8 : TryFromValueCap α8 ε) (c9 : TryFromValueCap α9 ε) (c10 : TryFromValueCap α10 ε) (vs : ValueRow) (s : List ColumnType),
      vs.length ≠ 10 →
      tryFromRowTuple10 c1 c2 c3 c4 c5 c6 c7 c8 c9 c10 vs s =
        Except.error (RowConvertTupleError.UnexpectedNumberOfColumns (vs.length % 65536) "(A, B, C, D, E, F, G, H, I, J,)")) ∧
    (∀ (α1 α2 α3 α4 α5 α6 α7 α8 α9 α10 α11 ε : Type) (c1 : TryFromValueCap α1 ε) (c2 : TryFromValueCap α2 ε) (c3 : TryFromValueCap α3 ε) (c4 : TryFromValueCap α4 ε) (c5 : TryFromValueCap α5 ε) (c6 : TryFromValueCap α6 ε) (c7 : TryFromValueCap α7 ε) (c8 : TryFromValueCap α8 ε) (c9 : TryFromValueCap α9 ε) (c10 : TryFromValueCap α10 ε) (c11 : TryFromValueCap α11 ε) (vs : ValueRow) (s : List ColumnType),
      vs.length ≠ 11 →
      tryFromRowTuple11 c1 c2 c3 c4 c5 c6 c7 c8 c9 c10 c11 vs s =
        Except.error (RowConvertTupleError.UnexpectedNumberOfColumns (vs.length % 65536) "(A, B, C, D, E, F, G, H, I, J, K,)")) ∧
    (∀ (α1 α2 α3 α4 α5 α6 α7 α8 α9 α10 α11 α12 ε : Type) (c1 : TryFromValueCap α1 ε) (c2 : TryFromValueCap α2 ε) (c3 : TryFromValueCap α3 ε) (c4 : TryFromValueCap α4 ε) (c5 : TryFromValueCap α5 ε) (c6 : TryFromValueCap α6 ε) (c7 : TryFromValueCap α7 ε) (c8 : TryFromValueCap α8 ε) (c9 : TryFromValueCap α9 ε) (c10 : TryFromValueCap α10 ε) (c11 : TryFromValueCap α11 ε) (c12 : TryFromValueCap α12 ε) (vs : ValueRow) (s : List ColumnType),
      vs.length ≠ 12 →
      tryFromRowTuple12 c1 c2 c3 c4 c5 c6 c7 c8 c9 c10 c11 c12 vs s =
        Except.error (RowConvertTupleError.UnexpectedNumberOfColumns (vs.length % 65536) "(A, B, C, D, E, F, G, H, I, J, K, L,)")) :=
  ⟨fun _ _ cap vs s h => scalar_length_ne cap vs s h,
   fun _ _ c1 vs s h => tuple1_length_ne c1 vs s h,
   fun _ _ _ c1 c2 vs s h => tuple2_length_ne c1 c2 vs s h,
   fun _ _ _ _ c1 c2 c3 vs s h => tuple3_length_ne c1 c2 c3 vs s h,
   fun _ _ _ _ _ c1 c2 c3 c4 vs s h => tuple4_length_ne c1 c2 c3 c4 vs s h,
   fun _ _ _ _ _ _ c1 c2 c3 c4 c5 vs s h => tuple5_length_ne c1 c2 c3 c4 c5 vs s h,
   fun _ _ _ _ _ _ _ c1 c2 c3 c4 c5 c6 vs s h => tuple6_length_ne c1 c2 c3 c4 c5 c6 vs s h,
   fun _ _ _ _ _ _ _ _ c1 c2 c3 c4 c5 c6 c7 vs s h => tuple7_length_ne c1 c2 c3 c4 c5 c6 c7 vs s h,
   fun _ _ _ _ _ _ _ _ _ c1 c2 c3 c4 c5 c6 c7 c8 vs s h => tuple8_length_ne c1 c2 c3 c4 c5 c6 c7 c8 vs s h,
   fun _ _ _ _ _ _ _ _ _ _ c1 c2 c3 c4 c5 c6 c7 c8 c9 vs s h => tuple9_length_ne c1 c2 c3 c4 c5 c6 c7 c8 c9 vs s h,
   fun _ _ _ _ _ _ _ _ _ _ _ c1 c2 c3 c4 c5 c6 c7 c8 c9 c10 vs s h => tuple10_length_ne c1 c2 c3 c4 c5 c6 c7 c8 c9 c10 vs s h,
   fun _ _ _ _ _ _ _ _ _ _ _ _ c1 c2 c3 c4 c5 c6 c7 c8 c9 c10 c11 vs s h => tuple11_length_ne c1 c2 c3 c4 c5 c6 c7 c8 c9 c10 c11 vs s h,
   fun _ _ _ _ _ _ _ _ _ _ _ _ _ c1 c2 c3 c4 c5 c6 c7 c8 c9 c10 c11 c12 vs s h => tuple12_length_ne c1 c2 c3 c4 c5 c6 c7 c8 c9 c10 c11 c12 vs s h⟩

/-- Witness for claim C2 at concrete inputs: a two-column row into a
scalar reports expected 1, got 2; a one-column row into a 2-tuple
reports its actual length 1. -/
theorem C2_amended_witness :
    tryFromRowScalar textCap [none, none] [] =
      Except.error (RowConvertError.UnexpectedNumberOfColumns 1 2) ∧
    tryFromRowTuple2 i64Cap i64Cap [none] [] =
      Except.error (RowConvertTupleError.UnexpectedNumberOfColumns 1 "(A, B,)") :=
  ⟨C2_amended.1 String ScalarConvertError textCap [none, none] [] (by decide),
   C2_amended.2.2.1 Int Int ScalarConvertError i64Cap i64Cap [none] [] (by decide)⟩

/-- Claim C3 counterexample: a row of length 65536 converted to a 1-tuple
raises `UnexpectedNumberOfColumns` whose `expected` field holds 0 (the
row length truncated by the `as u16` cast), not the actual row length
65536. -/
theorem C3_counterexample :
    tryFromRowTuple1 i64Cap (List.replicate 65536 none) [] =
      Except.error (RowConvertTupleError.UnexpectedNumberOfColumns 0 "(A,)") ∧
    (List.replicate 65536 (none : Option Value)).length = 65536 ∧ (0 : Nat) ≠ 65536 := by
  refine ⟨?_, by simp only [List.length_replicate], by decide⟩
  rw [tuple1_length_ne i64Cap (List.replicate 65536 none) []
    (by simp only [List.length_replicate]; decide)]
  simp only [List.length_replicate, Nat.mod_self]

/-- Claim C3 (amended): for every tuple arity N in 1..12, if the row
length differs from N then conversion fails with
`RowConvertTupleError::UnexpectedNumberOfColumns` whose `expected` field
carries the actual row length reduced modulo 2^16 (the `as u16` cast of
`values.len()`; equal to the row length whenever it is below 65536), not
the tuple's static arity, and whose `tuple` field is the tuple type's
name string. -/
theorem C3_amended :
    (∀ (α1 ε : Type) (c1 : TryFromValueCap α1 ε) (vs : ValueRow) (s : List ColumnType),
      vs.length ≠ 1 →
      tryFromRowTuple1 c1 vs s =
        Except.error (RowConvertTupleError.UnexpectedNumberOfColumns (vs.length % 65536) "(A,)")) ∧
    (∀ (α1 α2 ε : Type) (c1 : TryFromValueCap α1 ε) (c2 : TryFromValueCap α2 ε) (vs : ValueRow) (s : List ColumnType),
      vs.length ≠ 2 →
      tryFromRowTuple2 c1 c2 vs s =
        Except.error (RowConvertTupleError.UnexpectedNumberOfColumns (vs.length % 65536) "(A, B,)")) ∧
    (∀ (α1 α2 α3 ε : Type) (c1 : TryFromValueCap α1 ε) (c2 : TryFromValueCap α2 ε) (c3 : TryFromValueCap α3 ε) (vs : ValueRow) (s : List ColumnType),
      vs.length ≠ 3 →
      tryFromRowTuple3 c1 c2 c3 vs s =
        Except.error (RowConvertTupleError.UnexpectedNumberOfColumns (vs.length % 65536) "(A, B, C,)")) ∧
    (∀ (α1 α2 α3 α4 ε : Type) (c1 : TryFromValueCap α1 ε) (c2 : TryFromValueCap α2 ε) (c3 : TryFromValueCap α3 ε) (c4 : TryFromValueCap α4 ε) (vs : ValueRow) (s : List ColumnType),
      vs.length ≠ 4 →
      tryFromRowTuple4 c1 c2 c3 c4 vs s =
        Except.error (RowConvertTupleError.UnexpectedNumberOfColumns (vs.length % 65536) "(A, B, C, D,)")) ∧
    (∀ (α1 α2 α3 α4 α5 ε : Type) (c1 : TryFromValueCap α1 ε) (c2 : TryFromValueCap α2 ε) (c3 : TryFromValueCap α3 ε) (c4 : TryFromValueCap α4 ε) (c5 : TryFromValueCap α5 ε) (vs : ValueRow) (s : List ColumnType),
      vs.length ≠ 5 →
      tryFromRowTuple5 c1 c2 c3 c4 c5 vs s =
        Except.error (RowConvertTupleError.UnexpectedNumberOfColumns (vs.length % 65536) "(A, B, C, D, E,)")) ∧
    (∀ (α1 α2 α3 α4 α5 α6 ε : Type) (c1 : TryFromValueCap α1 ε) (c2 : TryFromValueCap α2 ε) (c3 : TryFromValueCap α3 ε) (c4 : TryFromValueCap α4 ε) (c5 : TryFromValueCap α5 ε) (c6 : TryFromValueCap α6 ε) (vs : ValueRow) (s : List ColumnType),
      vs.length ≠ 6 →
      tryFromRowTuple6 c1 c2 c3 c4 c5 c6 vs s =
        Except.error (RowConvertTupleError.UnexpectedNumberOfColumns (vs.length % 65536) "(A, B, C, D, E, F,)")) ∧
    (∀ (α1 α2 α3 α4 α5 α6 α7 ε : Type) (c1 : TryFromValueCap α1 ε) (c2 : TryFromValueCap α2 ε) (c3 : TryFromValueCap α3 ε) (c4 : TryFromValueCap α4 ε) (c5 : TryFromValueCap α5 ε) (c6 : TryFromValueCap α6 ε) (c7 : TryFromValueCap α7 ε) (vs : ValueRow) (s : List ColumnType),
      vs.length ≠ 7 →
      tryFromRowTuple7 c1 c2 c3 c4 c5 c6 c7 vs s =
        Except.error (RowConvertTupleError.UnexpectedNumberOfColumns (vs.length % 65536) "(A, B, C, D, E, F, G,)")) ∧
    (∀ (α1 α2 α3 α4 α5 α6 α7 α8 ε : Type) (c1 : TryFromValueCap α1 ε) (c2 : TryFromValueCap α2 ε) (c3 : TryFromValueCap α3 ε) (c4 : TryFromValueCap α4 ε) (c5 : TryFromValueCap α5 ε) (c6 : TryFromValueCap α6 ε) (c7 : TryFromValueCap α7 ε) (c8 : TryFromValueCap α8 ε) (vs : ValueRow) (s : List ColumnType),
      vs.length ≠ 8 →
      tryFromRowTuple8 c1 c2 c3 c4 c5 c6 c7 c8 vs s =
        Except.error (RowConvertTupleError.UnexpectedNumberOfColumns (vs.length % 65536) "(A, B, C, D, E, F, G, H,)")) ∧
    (∀ (α1 α2 α3 α4 α5 α6 α7 α8 α9 ε : Type) (c1 : TryFromValueCap α1 ε) (c2 : TryFromValueCap α2 ε) (c3 : TryFromValueCap α3 ε) (c4 : TryFromValueCap α4 ε) (c5 : TryFromValueCap α5 ε) (c6 : TryFromValueCap α6 ε) (c7 : TryFromValueCap α7 ε) (c8 : TryFromValueCap α8 ε) (c9 : TryFromValueCap α9 ε) (vs : ValueRow) (s : List ColumnType),
      vs.length ≠ 9 →
      tryFromRowTuple9 c1 c2 c3 c4 c5 c6 c7 c8 c9 vs s =
        Except.error (RowConvertTupleError.UnexpectedNumberOfColumns (vs.length % 65536) "(A, B, C, D, E, F, G, H, I,)")) ∧
    (∀ (α1 α2 α3 α4 α5 α6 α7 α8 α9 α10 ε : Type) (c1 : TryFromValueCap α1 ε) (c2 : TryFromValueCap α2 ε) (c3 : TryFromValueCap α3 ε) (c4 : TryFromValueCap α4 ε) (c5 : TryFromValueCap α5 ε) (c6 : TryFromValueCap α6 ε) (c7 : TryFromValueCap α7 ε) (c8 : TryFromValueCap α8 ε) (c9 : TryFromValueCap α9 ε) (c10 : TryFromValueCap α10 ε) (vs : ValueRow) (s : List ColumnType),
      vs.length ≠ 10 →
      tryFromRowTuple10 c1 c2 c3 c4 c5 c6 c7 c8 c9 c10 vs s =
        Except.error (RowConvertTupleError.UnexpectedNumberOfColumns (vs.length % 65536) "(A, B, C, D, E, F, G, H, I, J,)")) ∧
    (∀ (α1 α2 α3 α4 α5 α6 α7 α8 α9 α10 α11 ε : Type) (c1 : TryFromValueCap α1 ε) (c2 : TryFromValueCap α2 ε) (c3 : TryFromValueCap α3 ε) (c4 : TryFromValueCap α4 ε) (c5 : TryFromValueCap α5 ε) (c6 : TryFromValueCap α6 ε) (c7 : TryFromValueCap α7 ε) (c8 : TryFromValueCap α8 ε) (c9 : TryFromValueCap α9 ε) (c10 : TryFromValueCap α10 ε) (c11 : TryFromValueCap α11 ε) (vs : ValueRow) (s : List ColumnType),
      vs.length ≠ 11 →
      tryFromRowTuple11 c1 c2 c3 c4 c5 c6 c7 c8 c9 c10 c11 vs s =
        Except.error (RowConvertTupleError.UnexpectedNumberOfColumns (vs.length % 65536) "(A, B, C, D, E, F, G, H, I, J, K,)")) ∧
    (∀ (α1 α2 α3 α4 α5 α6 α7 α8 α9 α10 α11 α12 ε : Type) (c1 : TryFromValueCap α1 ε) (c2 : TryFromValueCap α2 ε) (c3 : TryFromValueCap α3 ε) (c4 : TryFromValueCap α4 ε) (c5 : TryFromValueCap α5 ε) (c6 : TryFromValueCap α6 ε) (c7 : TryFromValueCap α7 ε) (c8 : TryFromValueCap α8 ε) (c9 : TryFromValueCap α9 ε) (c10 : TryFromValueCap α10 ε) (c11 : TryFromValueCap α11 ε) (c12 : TryFromValueCap α12 ε) (vs : ValueRow) (s : List ColumnType),
      vs.length ≠ 12 →
      tryFromRowTuple12 c1 c2 c3 c4 c5 c6 c7 c8 c9 c10 c11 c12 vs s =
        Except.error (RowConvertTupleError.UnexpectedNumberOfColumns (vs.length % 65536) "(A, B, C, D, E, F, G, H, I, J, K, L,)")) :=
  ⟨fun _ _ c1 vs s h => tuple1_length_ne c1 vs s h,
   fun _ _ _ c1 c2 vs s h => tuple2_length_ne c1 c2 vs s h,
   fun _ _ _ _ c1 c2 c3 vs s h => tuple3_length_ne c1 c2 c3 vs s h,
   fun _ _ _ _ _ c1 c2 c3 c4 vs s h => tuple4_length_ne c1 c2 c3 c4 vs s h,
   fun _ _ _ _ _ _ c1 c2 c3 c4 c5 vs s h => tuple5_length_ne c1 c2 c3 c4 c5 vs s h,
   fun _ _ _ _ _ _ _ c1 c2 c3 c4 c5 c6 vs s h => tuple6_length_ne c1 c2 c3 c4 c5 c6 vs s h,
   fun _ _ _ _ _ _ _ _ c1 c2 c3 c4 c5 c6 c7 vs s h => tuple7_length_ne c1 c2 c3 c4 c5 c6 c7 vs s h,
   fun _ _ _ _ _ _ _ _ _ c1 c2 c3 c4 c5 c6 c7 c8 vs s h => tuple8_length_ne c1 c2 c3 c4 c5 c6 c7 c8 vs s h,
   fun _ _ _ _ _ _ _ _ _ _ c1 c2 c3 c4 c5 c6 c7 c8 c9 vs s h => tuple9_length_ne c1 c2 c3 c4 c5 c6 c7 c8 c9 vs s h,
   fun _ _ _ _ _ _ _ _ _ _ _ c1 c2 c3 c4 c5 c6 c7 c8 c9 c10 vs s h => tuple10_length_ne c1 c2 c3 c4 c5 c6 c7 c8 c9 c10 vs s h,
   fun _ _ _ _ _ _ _ _ _ _ _ _ c1 c2 c3 c4 c5 c6 c7 c8 c9 c10 c11 vs s h => tuple11_length_ne c1 c2 c3 c4 c5 c6 c7 c8 c9 c10 c11 vs s h,
   fun _ _ _ _ _ _ _ _ _ _ _ _ _ c1 c2 c3 c4 c5 c6 c7 c8 c9 c10 c11 c12 vs s h => tuple12_length_ne c1 c2 c3 c4 c5 c6 c7 c8 c9 c10 c11 c12 vs s h⟩

/-- Witness for claim C3 at a concrete input: a two-column row into a
3-tuple reports its actual length 2 and the 3-tuple's name. -/
theorem C3_amended_witness :
    tryFromRowTuple3 boolCap boolCap boolCap [none, none] [] =
      Except.error (RowConvertTupleError.UnexpectedNumberOfColumns 2 "(A, B, C,)") :=
  C3_amended.2.2.1 Bool Bool Bool ScalarConvertError boolCap boolCap boolCap
    [none, none] [] (by decide)

/-- Claim C4 counterexample: a row with exactly one column whose sole
entry is absent does not convert successfully to a 1-tuple of a bare
integer target, although the row has exactly the tuple's arity; success
additionally requires every position's scalar conversion to succeed. -/
theorem C4_counterexample :
    ([none] : ValueRow).length = 1 ∧
    tryFromRowTuple1 i64Cap [none] [] =
      Except.error (RowConvertTupleError.ValueConvertError (ScalarConvertError.NullValue "i64")) :=
  ⟨rfl, rfl⟩

/-- Claim C4 (amended): for every supported arity N (1..12), conversion
to an N-tuple succeeds iff the row has exactly N columns and every
position's scalar conversion succeeds; whenever it succeeds, the value at
column index i is the one converted into tuple position i, in declared
order, with no reordering and no name-based matching (the schema is not
consulted). Per arity this is three statements: success forces the row
length to be N; if every position converts, the conversion succeeds with
the converted values in positional order; and if the conversion succeeds
with a given tuple, every position's conversion succeeded with exactly
the corresponding component. -/
theorem C4_amended :
    (∀ (α1 ε : Type) (c1 : TryFromValueCap α1 ε) (vs : ValueRow) (s : List ColumnType),
      (∃ t, tryFromRowTuple1 c1 vs s = Except.ok t) → vs.length = 1) ∧
    (∀ (α1 ε : Type) (c1 : TryFromValueCap α1 ε) (v1 : Option Value) (x1 : α1)
      (s : List ColumnType),
      c1.tryFromValue v1 = Except.ok x1 →
      tryFromRowTuple1 c1 [v1] s = Except.ok x1) ∧
    (∀ (α1 ε : Type) (c1 : TryFromValueCap α1 ε) (v1 : Option Value) (x1 : α1)
      (s : List ColumnType),
      tryFromRowTuple1 c1 [v1] s = Except.ok x1 →
      c1.tryFromValue v1 = Except.ok x1) ∧
    (∀ (α1 α2 ε : Type) (c1 : TryFromValueCap α1 ε) (c2 : TryFromValueCap α2 ε) (vs : ValueRow) (s : List ColumnType),
      (∃ t, tryFromRowTuple2 c1 c2 vs s = Except.ok t) → vs.length = 2) ∧
    (∀ (α1 α2 ε : Type) (c1 : TryFromValueCap α1 ε) (c2 : TryFromValueCap α2 ε) (v1 v2 : Option Value) (x1 : α1) (x2 : α2)
      (s : List ColumnType),
      c1.tryFromValue v1 = Except.ok x1 →
      c2.tryFromValue v2 = Except.ok x2 →
      tryFromRowTuple2 c1 c2 [v1, v2] s = Except.ok (x1, x2)) ∧
    (∀ (α1 α2 ε : Type) (c1 : TryFromValueCap α1 ε) (c2 : TryFromValueCap α2 ε) (v1 v2 : Option Value) (x1 : α1) (x2 : α2)
      (s : List ColumnType),
      tryFromRowTuple2 c1 c2 [v1, v2] s = Except.ok (x1, x2) →
      c1.tryFromValue v1 = Except.ok x1 ∧
      c2.tryFromValue v2 = Except.ok x2) ∧
    (∀ (α1 α2 α3 ε : Type) (c1 : TryFromValueCap α1 ε) (c2 : TryFromValueCap α2 ε) (c3 : TryFromValueCap α3 ε) (vs : ValueRow) (s : List ColumnType),
      (∃ t, tryFromRowTuple3 c1 c2 c3 vs s = Except.ok t) → vs.length = 3) ∧
    (∀ (α1 α2 α3 ε : Type) (c1 : TryFromValueCap α1 ε) (c2 : TryFromValueCap α2 ε) (c3 : TryFromValueCap α3 ε) (v1 v2 v3 : Option Value) (x1 : α1) (x2 : α2) (x3 : α3)
      (s : List ColumnType),
      c1.tryFromValue v1 = Except.ok x1 →
      c2.tryFromValue v2 = Except.ok x2 →
      c3.tryFromValue v3 = Except.ok x3 →
      tryFromRowTuple3 c1 c2 c3 [v1, v2, v3] s = Except.ok (x1, x2, x3)) ∧
    (∀ (α1 α2 α3 ε : Type) (c1 : TryFromValueCap α1 ε) (c2 : TryFromValueCap α2 ε) (c3 : TryFromValueCap α3 ε) (v1 v2 v3 : Option Value) (x1 : α1) (x2 : α2) (x3 : α3)
      (s : List ColumnType),
      tryFromRowTuple3 c1 c2 c3 [v1, v2, v3] s = Except.ok (x1, x2, x3) →
      c1.tryFromValue v1 = Except.ok x1 ∧
      c2.tryFromValue v2 = Except.ok x2 ∧
      c3.tryFromValue v3 = Except.ok x3) ∧
    (∀ (α1 α2 α3 α4 ε : Type) (c1 : TryFromValueCap α1 ε) (c2 : TryFromValueCap α2 ε) (c3 : TryFromValueCap α3 ε) (c4 : TryFromValueCap α4 ε) (vs : ValueRow) (s : List ColumnType),
      (∃ t, tryFromRowTuple4 c1 c2 c3 c4 vs s = Except.ok t) → vs.length = 4) ∧
    (∀ (α1 α2 α3 α4 ε : Type) (c1 : TryFromValueCap α1 ε) (c2 : TryFromValueCap α2 ε) (c3 : TryFromValueCap α3 ε) (c4 : TryFromValueCap α4 ε) (v1 v2 v3 v4 : Option Value) (x1 : α1) (x2 : α2) (x3 : α3) (x4 : α4)
      (s : List ColumnType),
      c1.tryFromValue v1 = Except.ok x1 →
      c2.tryFromValue v2 = Except.ok x2 →
      c3.tryFromValue v3 = Except.ok x3 →
      c4.tryFromValue v4 = Except.ok x4 →
      tryFromRowTuple4 c1 c2 c3 c4 [v1, v2, v3, v4] s = Except.ok (x1, x2, x3, x4)) ∧
    (∀ (α1 α2 α3 α4 ε : Type) (c1 : TryFromValueCap α1 ε) (c2 : TryFromValueCap α2 ε) (c3 : TryFromValueCap α3 ε) (c4 : TryFromValueCap α4 ε) (v1 v2 v3 v4 : Option Value) (x1 : α1) (x2 : α2) (x3 : α3) (x4 : α4)
      (s : List ColumnType),
      tryFromRowTuple4 c1 c2 c3 c4 [v1, v2, v3, v4] s = Except.ok (x1, x2, x3, x4) →
      c1.tryFromValue v1 = Except.ok x1 ∧
      c2.tryFromValue v2 = Except.ok x2 ∧
      c3.tryFromValue v3 = Except.ok x3 ∧
      c4.tryFromValue v4 = Except.ok x4) ∧
    (∀ (α1 α2 α3 α4 α5 ε : Type) (c1 : TryFromValueCap α1 ε) (c2 : TryFromValueCap α2 ε) (c3 : TryFromValueCap α3 ε) (c4 : TryFromValueCap α4 ε) (c5 : TryFromValueCap α5 ε) (vs : ValueRow) (s : List ColumnType),
      (∃ t, tryFromRowTuple5 c1 c2 c3 c4 c5 vs s = Except.ok t) → vs.length = 5) ∧
    (∀ (α1 α2 α3 α4 α5 ε : Type) (c1 : TryFromValueCap α1 ε) (c2 : TryFromValueCap α2 ε) (c3 : TryFromValueCap α3 ε) (c4 : TryFromValueCap α4 ε) (c5 : TryFromValueCap α5 ε) (v1 v2 v3 v4 v5 : Option Value) (x1 : α1) (x2 : α2) (x3 : α3) (x4 : α4) (x5 : α5)
      (s : List ColumnType),
      c1.tryFromValue v1 = Except.ok x1 →
      c2.tryFromValue v2 = Except.ok x2 →
      c3.tryFromValue v3 = Except.ok x3 →
      c4.tryFromValue v4 = Except.ok x4 →
      c5.tryFromValue v5 = Except.ok x5 →
      tryFromRowTuple5 c1 c2 c3 c4 c5 [v1, v2, v3, v4, v5] s = Except.ok (x1, x2, x3, x4, x5)) ∧
    (∀ (α1 α2 α3 α4 α5 ε : Type) (c1 : TryFromValueCap α1 ε) (c2 : TryFromValueCap α2 ε) (c3 : TryFromValueCap α3 ε) (c4 : TryFromValueCap α4 ε) (c5 : TryFromValueCap α5 ε) (v1 v2 v3 v4 v5 : Option Value) (x1 : α1) (x2 : α2) (x3 : α3) (x4 : α4) (x5 : α5)
      (s : List ColumnType),
      tryFromRowTuple5 c1 c2 c3 c4 c5 [v1, v2, v3, v4, v5] s = Except.ok (x1, x2, x3, x4, x5) →
      c1.tryFromValue v1 = Except.ok x1 ∧
      c2.tryFromValue v2 = Except.ok x2 ∧
      c3.tryFromValue v3 = Except.ok x3 ∧
      c4.tryFromValue v4 = Except.ok x4 ∧
      c5.tryFromValue v5 = Except.ok x5) ∧
    (∀ (α1 α2 α3 α4 α5 α6 ε : Type) (c1 : TryFromValueCap α1 ε) (c2 : TryFromValueCap α2 ε) (c3 : TryFromValueCap α3 ε) (c4 : TryFromValueCap α4 ε) (c5 : TryFromValueCap α5 ε) (c6 : TryFromValueCap α6 ε) (vs : ValueRow) (s : List ColumnType),
      (∃ t, tryFromRowTuple6 c1 c2 c3 c4 c5 c6 vs s = Except.ok t) → vs.length = 6) ∧
    (∀ (α1 α2 α3 α4 α5 α6 ε : Type) (c1 : TryFromValueCap α1 ε) (c2 : TryFromValueCap α2 ε) (c3 : TryFromValueCap α3 ε) (c4 : TryFromValueCap α4 ε) (c5 : TryFromValueCap α5 ε) (c6 : TryFromValueCap α6 ε) (v1 v2 v3 v4 v5 v6 : Option Value) (x1 : α1) (x2 : α2) (x3 : α3) (x4 : α4) (x5 : α5) (x6 : α6)
      (s : List ColumnType),
      c1.tryFromValue v1 = Except.ok x1 →
      c2.tryFromValue v2 = Except.ok x2 →
      c3.tryFromValue v3 = Except.ok x3 →
      c4.tryFromValue v4 = Except.ok x4 →
      c5.tryFromValue v5 = Except.ok x5 →
      c6.tryFromValue v6 = Except.ok x6 →
      tryFromRowTuple6 c1 c2 c3 c4 c5 c6 [v1, v2, v3, v4, v5, v6] s = Except.ok (x1, x2, x3, x4, x5, x6)) ∧
    (∀ (α1 α2 α3 α4 α5 α6 ε : Type) (c1 : TryFromValueCap α1 ε) (c2 : TryFromValueCap α2 ε) (c3 : TryFromValueCap α3 ε) (c4 : TryFromValueCap α4 ε) (c5 : TryFromValueCap α5 ε) (c6 : TryFromValueCap α6 ε) (v1 v2 v3 v4 v5 v6 : Option Value) (x1 : α1) (x2 : α2) (x3 : α3) (x4 : α4) (x5 : α5) (x6 : α6)
      (s : List ColumnType),
      tryFromRowTuple6 c1 c2 c3 c4 c5 c6 [v1, v2, v3, v4, v5, v6] s = Except.ok (x1, x2, x3, x4, x5, x6) →
      c1.tryFromValue v1 = Except.ok x1 ∧
      c2.tryFromValue v2 = Except.ok x2 ∧
      c3.tryFromValue v3 = Except.ok x3 ∧
      c4.tryFromValue v4 = Except.ok x4 ∧
      c5.tryFromValue v5 = Except.ok x5 ∧
      c6.tryFromValue v6 = Except.ok x6) ∧
    (∀ (α1 α2 α3 α4 α5 α6 α7 ε : Type) (c1 : TryFromValueCap α1 ε) (c2 : TryFromValueCap α2 ε) (c3 : TryFromValueCap α3 ε) (c4 : TryFromValueCap α4 ε) (c5 : TryFromValueCap α5 ε) (c6 : TryFromValueCap α6 ε) (c7 : TryFromValueCap α7 ε) (vs : ValueRow) (s : List ColumnType),
      (∃ t, tryFromRowTuple7 c1 c2 c3 c4 c5 c6 c7 vs s = Except.ok t) → vs.length = 7) ∧
    (∀ (α1 α2 α3 α4 α5 α6 α7 ε : Type) (c1 : TryFromValueCap α1 ε) (c2 : TryFromValueCap α2 ε) (c3 : TryFromValueCap α3 ε) (c4 : TryFromValueCap α4 ε) (c5 : TryFromValueCap α5 ε) (c6 : TryFromValueCap α6 ε) (c7 : TryFromValueCap α7 ε) (v1 v2 v3 v4 v5 v6 v7 : Option Value) (x1 : α1) (x2 : α2) (x3 : α3) (x4 : α4) (x5 : α5) (x6 : α6) (x7 : α7)
      (s : List ColumnType),
      c1.tryFromValue v1 = Except.ok x1 →
      c2.tryFromValue v2 = Except.ok x2 →
      c3.tryFromValue v3 = Except.ok x3 →
      c4.tryFromValue v4 = Except.ok x4 →
      c5.tryFromValue v5 = Except.ok x5 →
      c6.tryFromValue v6 = Except.ok x6 →
      c7.tryFromValue v7 = Except.ok x7 →
      tryFromRowTuple7 c1 c2 c3 c4 c5 c6 c7 [v1, v2, v3, v4, v5, v6, v7] s = Except.ok (x1, x2, x3, x4, x5, x6, x7)) ∧
    (∀ (α1 α2 α3 α4 α5 α6 α7 ε : Type) (c1 : TryFromValueCap α1 ε) (c2 : TryFromValueCap α2 ε) (c3 : TryFromValueCap α3 ε) (c4 : TryFromValueCap α4 ε) (c5 : TryFromValueCap α5 ε) (c6 : TryFromValueCap α6 ε) (c7 : TryFromValueCap α7 ε) (v1 v2 v3 v4 v5 v6 v7 : Option Value) (x1 : α1) (x2 : α2) (x3 : α3) (x4 : α4) (x5 : α5) (x6 : α6) (x7 : α7)
      (s : List ColumnType),
      tryFromRowTuple7 c1 c2 c3 c4 c5 c6 c7 [v1, v2, v3, v4, v5, v6, v7] s = Except.ok (x1, x2, x3, x4, x5, x6, x7) →
      c1.tryFromValue v1 = Except.ok x1 ∧
      c2.tryFromValue v2 = Except.ok x2 ∧
      c3.tryFromValue v3 = Except.ok x3 ∧
      c4.tryFromValue v4 = Except.ok x4 ∧
      c5.tryFromValue v5 = Except.ok x5 ∧
      c6.tryFromValue v6 = Except.ok x6 ∧
      c7.tryFromValue v7 = Except.ok x7) ∧
    (∀ (α1 α2 α3 α4 α5 α6 α7 α8 ε : Type) (c1 : TryFromValueCap α1 ε) (c2 : TryFromValueCap α2 ε) (c3 : TryFromValueCap α3 ε) (c4 : TryFromValueCap α4 ε) (c5 : TryFromValueCap α5 ε) (c6 : TryFromValueCap α6 ε) (c7 : TryFromValueCap α7 ε) (c8 : TryFromValueCap α8 ε) (vs : ValueRow) (s : List ColumnType),
      (∃ t, tryFromRowTuple8 c1 c2 c3 c4 c5 c6 c7 c8 vs s = Except.ok t) → vs.length = 8) ∧
    (∀ (α1 α2 α3 α4 α5 α6 α7 α8 ε : Type) (c1 : TryFromValueCap α1 ε) (c2 : TryFromValueCap α2 ε) (c3 : TryFromValueCap α3 ε) (c4 : TryFromValueCap α4 ε) (c5 : TryFromValueCap α5 ε) (c6 : TryFromValueCap α6 ε) (c7 : TryFromValueCap α7 ε) (c8 : TryFromValueCap α8 ε) (v1 v2 v3 v4 v5 v6 v7 v8 : Option Value) (x1 : α1) (x2 : α2) (x3 : α3) (x4 : α4) (x5 : α5) (x6 : α6) (x7 : α7) (x8 : α8)
      (s : List ColumnType),
      c1.tryFromValue v1 = Except.ok x1 →
      c2.tryFromValue v2 = Except.ok x2 →
      c3.tryFromValue v3 = Except.ok x3 →
      c4.tryFromValue v4 = Except.ok x4 →
      c5.tryFromValue v5 = Except.ok x5 →
      c6.tryFromValue v6 = Except.ok x6 →
      c7.tryFromValue v7 = Except.ok x7 →
      c8.tryFromValue v8 = Except.ok x8 →
      tryFromRowTuple8 c1 c2 c3 c4 c5 c6 c7 c8 [v1, v2, v3, v4, v5, v6, v7, v8] s = Except.ok (x1, x2, x3, x4, x5, x6, x7, x8)) ∧
    (∀ (α1 α2 α3 α4 α5 α6 α7 α8 ε : Type) (c1 : TryFromValueCap α1 ε) (c2 : TryFromValueCap α2 ε) (c3 : TryFromValueCap α3 ε) (c4 : TryFromValueCap α4 ε) (c5 : TryFromValueCap α5 ε) (c6 : TryFromValueCap α6 ε) (c7 : TryFromValueCap α7 ε) (c8 : TryFromValueCap α8 ε) (v1 v2 v3 v4 v5 v6 v7 v8 : Option Value) (x1 : α1) (x2 : α2) (x3 : α3) (x4 : α4) (x5 : α5) (x6 : α6) (x7 : α7) (x8 : α8)
      (s : List ColumnType),
      tryFromRowTuple8 c1 c2 c3 c4 c5 c6 c7 c8 [v1, v2, v3, v4, v5, v6, v7, v8] s = Except.ok (x1, x2, x3, x4, x5, x6, x7, x8) →
      c1.tryFromValue v1 = Except.ok x1 ∧
      c2.tryFromValue v2 = Except.ok x2 ∧
      c3.tryFromValue v3 = Except.ok x3 ∧
      c4.tryFromValue v4 = Except.ok x4 ∧
      c5.tryFromValue v5 = Except.ok x5 ∧
      c6.tryFromValue v6 = Except.ok x6 ∧
      c7.tryFromValue v7 = Except.ok x7 ∧
      c8.tryFromValue v8 = Except.ok x8) ∧
    (∀ (α1 α2 α3 α4 α5 α6 α7 α8 α9 ε : Type) (c1 : TryFromValueCap α1 ε) (c2 : TryFromValueCap α2 ε) (c3 : TryFromValueCap α3 ε) (c4 : TryFromValueCap α4 ε) (c5 : TryFromValueCap α5 ε) (c6 : TryFromValueCap α6 ε) (c7 : TryFromValueCap α7 ε) (c8 : TryFromValueCap α8 ε) (c9 : TryFromValueCap α9 ε) (vs : ValueRow) (s : List ColumnType),
      (∃ t, tryFromRowTuple9 c1 c2 c3 c4 c5 c6 c7 c8 c9 vs s = Except.ok t) → vs.length = 9) ∧
    (∀ (α1 α2 α3 α4 α5 α6 α7 α8 α9 ε : Type) (c1 : TryFromValueCap α1 ε) (c2 : TryFromValueCap α2 ε) (c3 : TryFromValueCap α3 ε) (c4 : TryFromValueCap α4 ε) (c5 : TryFromValueCap α5 ε) (c6 : TryFromValueCap α6 ε) (c7 : TryFromValueCap α7 ε) (c8 : TryFromValueCap α8 ε) (c9 : TryFromValueCap α9 ε) (v1 v2 v3 v4 v5 v6 v7 v8 v9 : Option Value) (x1 : α1) (x2 : α2) (x3 : α3) (x4 : α4) (x5 : α5) (x6 : α6) (x7 : α7) (x8 : α8) (x9 : α9)
      (s : List ColumnType),
      c1.tryFromValue v1 = Except.ok x1 →
      c2.tryFromValue v2 = Except.ok x2 →
      c3.tryFromValue v3 = Except.ok x3 →
      c4.tryFromValue v4 = Except.ok x4 →
      c5.tryFromValue v5 = Except.ok x5 →
      c6.tryFromValue v6 = Except.ok x6 →
      c7.tryFromValue v7 = Except.ok x7 →
      c8.tryFromValue v8 = Except.ok x8 →
      c9.tryFromValue v9 = Except.ok x9 →
      tryFromRowTuple9 c1 c2 c3 c4 c5 c6 c7 c8 c9 [v1, v2, v3, v4, v5, v6, v7, v8, v9] s = Except.ok (x1, x2, x3, x4, x5, x6, x7, x8, x9)) ∧
    (∀ (α1 α2 α3 α4 α5 α6 α7 α8 α9 ε : Type) (c1 : TryFromValueCap α1 ε) (c2 : TryFromValueCap α2 ε) (c3 : TryFromValueCap α3 ε) (c4 : TryFromValueCap α4 ε) (c5 : TryFromValueCap α5 ε) (c6 : TryFromValueCap α6 ε) (c7 : TryFromValueCap α7 ε) (c8 : TryFromValueCap α8 ε) (c9 : TryFromValueCap α9 ε) (v1 v2 v3 v4 v5 v6 v7 v8 v9 : Option Value) (x1 : α1) (x2 : α2) (x3 : α3) (x4 : α4) (x5 : α5) (x6 : α6) (x7 : α7) (x8 : α8) (x9 : α9)
      (s : List ColumnType),
      tryFromRowTuple9 c1 c2 c3 c4 c5 c6 c7 c8 c9 [v1, v2, v3, v4, v5, v6, v7, v8, v9] s = Except.ok (x1, x2, x3, x4, x5, x6, x7, x8, x9) →
      c1.tryFromValue v1 = Except.ok x1 ∧
      c2.tryFromValue v2 = Except.ok x2 ∧
      c3.tryFromValue v3 = Except.ok x3 ∧
      c4.tryFromValue v4 = Except.ok x4 ∧
      c5.tryFromValue v5 = Except.ok x5 ∧
      c6.tryFromValue v6 = Except.ok x6 ∧
      c7.tryFromValue v7 = Except.ok x7 ∧
      c8.tryFromValue v8 = Except.ok x8 ∧
      c9.tryFromValue v9 = Except.ok x9) ∧
    (∀ (α1 α2 α3 α4 α5 α6 α7 α8 α9 α10 ε : Type) (c1 : TryFromValueCap α1 ε) (c2 : TryFromValueCap α2 ε) (c3 : TryFromValueCap α3 ε) (c4 : TryFromValueCap α4 ε) (c5 : TryFromValueCap α5 ε) (c6 : TryFromValueCap α6 ε) (c7 : TryFromValueCap α7 ε) (c8 : TryFromValueCap α8 ε) (c9 : TryFromValueCap α9 ε) (c10 : TryFromValueCap α10 ε) (vs : ValueRow) (s : List ColumnType),
      (∃ t, tryFromRowTuple10 c1 c2 c3 c4 c5 c6 c7 c8 c9 c10 vs s = Except.ok t) → vs.length = 10) ∧
    (∀ (α1 α2 α3 α4 α5 α6 α7 α8 α9 α10 ε : Type) (c1 : TryFromValueCap α1 ε) (c2 : TryFromValueCap α2 ε) (c3 : TryFromValueCap α3 ε) (c4 : TryFromValueCap α4 ε) (c5 : TryFromValueCap α5 ε) (c6 : TryFromValueCap α6 ε) (c7 : TryFromValueCap α7 ε) (c8 : TryFromValueCap α8 ε) (c9 : TryFromValueCap α9 ε) (c10 : TryFromValueCap α10 ε) (v1 v2 v3 v4 v5 v6 v7 v8 v9 v10 : Option Value) (x1 : α1) (x2 : α2) (x3 : α3) (x4 : α4) (x5 : α5) (x6 : α6) (x7 : α7) (x8 : α8) (x9 : α9) (x10 : α10)
      (s : List ColumnType),
      c1.tryFromValue v1 = Except.ok x1 →
      c2.tryFromValue v2 = Except.ok x2 →
      c3.tryFromValue v3 = Except.ok x3 →
      c4.tryFromValue v4 = Except.ok x4 →
      c5.tryFromValue v5 = Except.ok x5 →
      c6.tryFromValue v6 = Except.ok x6 →
      c7.tryFromValue v7 = Except.ok x7 →
      c8.tryFromValue v8 = Except.ok x8 →
      c9.tryFromValue v9 = Except.ok x9 →
      c10.tryFromValue v10 = Except.ok x10 →
      tryFromRowTuple10 c1 c2 c3 c4 c5 c6 c7 c8 c9 c10 [v1, v2, v3, v4, v5, v6, v7, v8, v9, v10] s = Except.ok (x1, x2, x3, x4, x5, x6, x7, x8, x9, x10)) ∧
    (∀ (α1 α2 α3 α4 α5 α6 α7 α8 α9 α10 ε : Type) (c1 : TryFromValueCap α1 ε) (c2 : TryFromValueCap α2 ε) (c3 : TryFromValueCap α3 ε) (c4 : TryFromValueCap α4 ε) (c5 : TryFromValueCap α5 ε) (c6 : TryFromValueCap α6 ε) (c7 : TryFromValueCap α7 ε) (c8 : TryFromValueCap α8 ε) (c9 : TryFromValueCap α9 ε) (c10 : TryFromValueCap α10 ε) (v1 v2 v3 v4 v5 v6 v7 v8 v9 v10 : Option Value) (x1 : α1) (x2 : α2) (x3 : α3) (x4 : α4) (x5 : α5) (x6 : α6) (x7 : α7) (x8 : α8) (x9 : α9) (x10 : α10)
      (s : List ColumnType),
      tryFromRowTuple10 c1 c2 c3 c4 c5 c6 c7 c8 c9 c10 [v1, v2, v3, v4, v5, v6, v7, v8, v9, v10] s = Except.ok (x1, x2, x3, x4, x5, x6, x7, x8, x9, x10) →
      c1.tryFromValue v1 = Except.ok x1 ∧
      c2.tryFromValue v2 = Except.ok x2 ∧
      c3.tryFromValue v3 = Except.ok x3 ∧
      c4.tryFromValue v4 = Except.ok x4 ∧
      c5.tryFromValue v5 = Except.ok x5 ∧
      c6.tryFromValue v6 = Except.ok x6 ∧
      c7.tryFromValue v7 = Except.ok x7 ∧
      c8.tryFromValue v8 = Except.ok x8 ∧
      c9.tryFromValue v9 = Except.ok x9 ∧
      c10.tryFromValue v10 = Except.ok x10) ∧
    (∀ (α1 α2 α3 α4 α5 α6 α7 α8 α9 α10 α11 ε : Type) (c1 : TryFromValueCap α1 ε) (c2 : TryFromValueCap α2 ε) (c3 : TryFromValueCap α3 ε) (c4 : TryFromValueCap α4 ε) (c5 : TryFromValueCap α5 ε) (c6 : TryFromValueCap α6 ε) (c7 : TryFromValueCap α7 ε) (c8 : TryFromValueCap α8 ε) (c9 : TryFromValueCap α9 ε) (c10 : TryFromValueCap α10 ε) (c11 : TryFromValueCap α11 ε) (vs : ValueRow) (s : List ColumnType),
      (∃ t, tryFromRowTuple11 c1 c2 c3 c4 c5 c6 c7 c8 c9 c10 c11 vs s = Except.ok t) → vs.length = 11) ∧
    (∀ (α1 α2 α3 α4 α5 α6 α7 α8 α9 α10 α11 ε : Type) (c1 : TryFromValueCap α1 ε) (c2 : TryFromValueCap α2 ε) (c3 : TryFromValueCap α3 ε) (c4 : TryFromValueCap α4 ε) (c5 : TryFromValueCap α5 ε) (c6 : TryFromValueCap α6 ε) (c7 : TryFromValueCap α7 ε) (c8 : TryFromValueCap α8 ε) (c9 : TryFromValueCap α9 ε) (c10 : TryFromValueCap α10 ε) (c11 : TryFromValueCap α11 ε) (v1 v2 v3 v4 v5 v6 v7 v8 v9 v10 v11 : Option Value) (x1 : α1) (x2 : α2) (x3 : α3) (x4 : α4) (x5 : α5) (x6 : α6) (x7 : α7) (x8 : α8) (x9 : α9) (x10 : α10) (x11 : α11)
      (s : List ColumnType),
      c1.tryFromValue v1 = Except.ok x1 →
      c2.tryFromValue v2 = Except.ok x2 →
      c3.tryFromValue v3 = Except.ok x3 →
      c4.tryFromValue v4 = Except.ok x4 →
      c5.tryFromValue v5 = Except.ok x5 →
      c6.tryFromValue v6 = Except.ok x6 →
      c7.tryFromValue v7 = Except.ok x7 →
      c8.tryFromValue v8 = Except.ok x8 →
      c9.tryFromValue v9 = Except.ok x9 →
      c10.tryFromValue v10 = Except.ok x10 →
      c11.tryFromValue v11 = Except.ok x11 →
      tryFromRowTuple11 c1 c2 c3 c4 c5 c6 c7 c8 c9 c10 c11 [v1, v2, v3, v4, v5, v6, v7, v8, v9, v10, v11] s = Except.ok (x1, x2, x3, x4, x5, x6, x7, x8, x9, x10, x11)) ∧
    (∀ (α1 α2 α3 α4 α5 α6 α7 α8 α9 α10 α11 ε : Type) (c1 : TryFromValueCap α1 ε) (c2 : TryFromValueCap α2 ε) (c3 : TryFromValueCap α3 ε) (c4 : TryFromValueCap α4 ε) (c5 : TryFromValueCap α5 ε) (c6 : TryFromValueCap α6 ε) (c7 : TryFromValueCap α7 ε) (c8 : TryFromValueCap α8 ε) (c9 : TryFromValueCap α9 ε) (c10 : TryFromValueCap α10 ε) (c11 : TryFromValueCap α11 ε) (v1 v2 v3 v4 v5 v6 v7 v8 v9 v10 v11 : Option Value) (x1 : α1) (x2 : α2) (x3 : α3) (x4 : α4) (x5 : α5) (x6 : α6) (x7 : α7) (x8 : α8) (x9 : α9) (x10 : α10) (x11 : α11)
      (s : List ColumnType),
      tryFromRowTuple11 c1 c2 c3 c4 c5 c6 c7 c8 c9 c10 c11 [v1, v2, v3, v4, v5, v6, v7, v8, v9, v10, v11] s = Except.ok (x1, x2, x3, x4, x5, x6, x7, x8, x9, x10, x11) →
      c1.tryFromValue v1 = Except.ok x1 ∧
      c2.tryFromValue v2 = Except.ok x2 ∧
      c3.tryFromValue v3 = Except.ok x3 ∧
      c4.tryFromValue v4 = Except.ok x4 ∧
      c5.tryFromValue v5 = Except.ok x5 ∧
      c6.tryFromValue v6 = Except.ok x6 ∧
      c7.tryFromValue v7 = Except.ok x7 ∧
      c8.tryFromValue v8 = Except.ok x8 ∧
      c9.tryFromValue v9 = Except.ok x9 ∧
      c10.tryFromValue v10 = Except.ok x10 ∧
      c11.tryFromValue v11 = Except.ok x11) ∧
    (∀ (α1 α2 α3 α4 α5 α6 α7 α8 α9 α10 α11 α12 ε : Type) (c1 : TryFromValueCap α1 ε) (c2 : TryFromValueCap α2 ε) (c3 : TryFromValueCap α3 ε) (c4 : TryFromValueCap α4 ε) (c5 : TryFromValueCap α5 ε) (c6 : TryFromValueCap α6 ε) (c7 : TryFromValueCap α7 ε) (c8 : TryFromValueCap α8 ε) (c9 : TryFromValueCap α9 ε) (c10 : TryFromValueCap α10 ε) (c11 : TryFromValueCap α11 ε) (c12 : TryFromValueCap α12 ε) (vs : ValueRow) (s : List ColumnType),
      (∃ t, tryFromRowTuple12 c1 c2 c3 c4 c5 c6 c7 c8 c9 c10 c11 c12 vs s = Except.ok t) → vs.length = 12) ∧
    (∀ (α1 α2 α3 α4 α5 α6 α7 α8 α9 α10 α11 α12 ε : Type) (c1 : TryFromValueCap α1 ε) (c2 : TryFromValueCap α2 ε) (c3 : TryFromValueCap α3 ε) (c4 : TryFromValueCap α4 ε) (c5 : TryFromValueCap α5 ε) (c6 : TryFromValueCap α6 ε) (c7 : TryFromValueCap α7 ε) (c8 : TryFromValueCap α8 ε) (c9 : TryFromValueCap α9 ε) (c10 : TryFromValueCap α10 ε) (c11 : TryFromValueCap α11 ε) (c12 : TryFromValueCap α12 ε) (v1 v2 v3 v4 v5 v6 v7 v8 v9 v10 v11 v12 : Option Value) (x1 : α1) (x2 : α2) (x3 : α3) (x4 : α4) (x5 : α5) (x6 : α6) (x7 : α7) (x8 : α8) (x9 : α9) (x10 : α10) (x11 : α11) (x12 : α12)
      (s : List ColumnType),
      c1.tryFromValue v1 = Except.ok x1 →
      c2.tryFromValue v2 = Except.ok x2 →
      c3.tryFromValue v3 = Except.ok x3 →
      c4.tryFromValue v4 = Except.ok x4 →
      c5.tryFromValue v5 = Except.ok x5 →
      c6.tryFromValue v6 = Except.ok x6 →
      c7.tryFromValue v7 = Except.ok x7 →
      c8.tryFromValue v8 = Except.ok x8 →
      c9.tryFromValue v9 = Except.ok x9 →
      c10.tryFromValue v10 = Except.ok x10 →
      c11.tryFromValue v11 = Except.ok x11 →
      c12.tryFromValue v12 = Except.ok x12 →
      tryFromRowTuple12 c1 c2 c3 c4 c5 c6 c7 c8 c9 c10 c11 c12 [v1, v2, v3, v4, v5, v6, v7, v8, v9, v10, v11, v12] s = Except.ok (x1, x2, x3, x4, x5, x6, x7, x8, x9, x10, x11, x12)) ∧
    (∀ (α1 α2 α3 α4 α5 α6 α7 α8 α9 α10 α11 α12 ε : Type) (c1 : TryFromValueCap α1 ε) (c2 : TryFromValueCap α2 ε) (c3 : TryFromValueCap α3 ε) (c4 : TryFromValueCap α4 ε) (c5 : TryFromValueCap α5 ε) (c6 : TryFromValueCap α6 ε) (c7 : TryFromValueCap α7 ε) (c8 : TryFromValueCap α8 ε) (c9 : TryFromValueCap α9 ε) (c10 : TryFromValueCap α10 ε) (c11 : TryFromValueCap α11 ε) (c12 : TryFromValueCap α12 ε) (v1 v2 v3 v4 v5 v6 v7 v8 v9 v10 v11 v12 : Option Value) (x1 : α1) (x2 : α2) (x3 : α3) (x4 : α4) (x5 : α5) (x6 : α6) (x7 : α7) (x8 : α8) (x9 : α9) (x10 : α10) (x11 : α11) (x12 : α12)
      (s : List ColumnType),
      tryFromRowTuple12 c1 c2 c3 c4 c5 c6 c7 c8 c9 c10 c11 c12 [v1, v2, v3, v4, v5, v6, v7, v8, v9, v10, v11, v12] s = Except.ok (x1, x2, x3, x4, x5, x6, x7, x8, x9, x10, x11, x12) →
      c1.tryFromValue v1 = Except.ok x1 ∧
      c2.tryFromValue v2 = Except.ok x2 ∧
      c3.tryFromValue v3 = Except.ok x3 ∧
      c4.tryFromValue v4 = Except.ok x4 ∧
      c5.tryFromValue v5 = Except.ok x5 ∧
      c6.tryFromValue v6 = Except.ok x6 ∧
      c7.tryFromValue v7 = Except.ok x7 ∧
      c8.tryFromValue v8 = Except.ok x8 ∧
      c9.tryFromValue v9 = Except.ok x9 ∧
      c10.tryFromValue v10 = Except.ok x10 ∧
      c11.tryFromValue v11 = Except.ok x11 ∧
      c12.tryFromValue v12 = Except.ok x12) := by
  refine ⟨?_, ?_, ?_, ?_, ?_, ?_, ?_, ?_, ?_, ?_, ?_, ?_, ?_, ?_, ?_, ?_, ?_, ?_, ?_, ?_, ?_, ?_, ?_, ?_, ?_, ?_, ?_, ?_, ?_, ?_, ?_, ?_, ?_, ?_, ?_, ?_⟩
  · intro α1 ε c1 vs s h
    obtain ⟨t, ht⟩ := h
    by_contra hne
    rw [tuple1_length_ne c1 vs s hne] at ht
    simp at ht
  · intro α1 ε c1 v1 x1 s h1
    exact tuple1_ok c1 v1 x1 s h1
  · intro α1 ε c1 v1 x1 s h
    exact tuple1_ok_inv c1 v1 x1 s h
  · intro α1 α2 ε c1 c2 vs s h
    obtain ⟨t, ht⟩ := h
    by_contra hne
    rw [tuple2_length_ne c1 c2 vs s hne] at ht
    simp at ht
  · intro α1 α2 ε c1 c2 v1 v2 x1 x2 s h1 h2
    exact tuple2_ok c1 c2 v1 v2 x1 x2 s h1 h2
  · intro α1 α2 ε c1 c2 v1 v2 x1 x2 s h
    exact tuple2_ok_inv c1 c2 v1 v2 x1 x2 s h
  · intro α1 α2 α3 ε c1 c2 c3 vs s h
    obtain ⟨t, ht⟩ := h
    by_contra hne
    rw [tuple3_length_ne c1 c2 c3 vs s hne] at ht
    simp at ht
  · intro α1 α2 α3 ε c1 c2 c3 v1 v2 v3 x1 x2 x3 s h1 h2 h3
    exact tuple3_ok c1 c2 c3 v1 v2 v3 x1 x2 x3 s h1 h2 h3
  · intro α1 α2 α3 ε c1 c2 c3 v1 v2 v3 x1 x2 x3 s h
    exact tuple3_ok_inv c1 c2 c3 v1 v2 v3 x1 x2 x3 s h
  · intro α1 α2 α3 α4 ε c1 c2 c3 c4 vs s h
    obtain ⟨t, ht⟩ := h
    by_contra hne
    rw [tuple4_length_ne c1 c2 c3 c4 vs s hne] at ht
    simp at ht
  · intro α1 α2 α3 α4 ε c1 c2 c3 c4 v1 v2 v3 v4 x1 x2 x3 x4 s h1 h2 h3 h4
    exact tuple4_ok c1 c2 c3 c4 v1 v2 v3 v4 x1 x2 x3 x4 s h1 h2 h3 h4
  · intro α1 α2 α3 α4 ε c1 c2 c3 c4 v1 v2 v3 v4 x1 x2 x3 x4 s h
    exact tuple4_ok_inv c1 c2 c3 c4 v1 v2 v3 v4 x1 x2 x3 x4 s h
  · intro α1 α2 α3 α4 α5 ε c1 c2 c3 c4 c5 vs s h
    obtain ⟨t, ht⟩ := h
    by_contra hne
    rw [tuple5_length_ne c1 c2 c3 c4 c5 vs s hne] at ht
    simp at ht
  · intro α1 α2 α3 α4 α5 ε c1 c2 c3 c4 c5 v1 v2 v3 v4 v5 x1 x2 x3 x4 x5 s h1 h2 h3 h4 h5
    exact tuple5_ok c1 c2 c3 c4 c5 v1 v2 v3 v4 v5 x1 x2 x3 x4 x5 s h1 h2 h3 h4 h5
  · intro α1 α2 α3 α4 α5 ε c1 c2 c3 c4 c5 v1 v2 v3 v4 v5 x1 x2 x3 x4 x5 s h
    exact tuple5_ok_inv c1 c2 c3 c4 c5 v1 v2 v3 v4 v5 x1 x2 x3 x4 x5 s h
  · intro α1 α2 α3 α4 α5 α6 ε c1 c2 c3 c4 c5 c6 vs s h
    obtain ⟨t, ht⟩ := h
    by_contra hne
    rw [tuple6_length_ne c1 c2 c3 c4 c5 c6 vs s hne] at ht
    simp at ht
  · intro α1 α2 α3 α4 α5 α6 ε c1 c2 c3 c4 c5 c6 v1 v2 v3 v4 v5 v6 x1 x2 x3 x4 x5 x6 s h1 h2 h3 h4 h5 h6
    exact tuple6_ok c1 c2 c3 c4 c5 c6 v1 v2 v3 v4 v5 v6 x1 x2 x3 x4 x5 x6 s h1 h2 h3 h4 h5 h6
  · intro α1 α2 α3 α4 α5 α6 ε c1 c2 c3 c4 c5 c6 v1 v2 v3 v4 v5 v6 x1 x2 x3 x4 x5 x6 s h
    exact tuple6_ok_inv c1 c2 c3 c4 c5 c6 v1 v2 v3 v4 v5 v6 x1 x2 x3 x4 x5 x6 s h
  · intro α1 α2 α3 α4 α5 α6 α7 ε c1 c2 c3 c4 c5 c6 c7 vs s h
    obtain ⟨t, ht⟩ := h
    by_contra hne
    rw [tuple7_length_ne c1 c2 c3 c4 c5 c6 c7 vs s hne] at ht
    simp at ht
  · intro α1 α2 α3 α4 α5 α6 α7 ε c1 c2 c3 c4 c5 c6 c7 v1 v2 v3 v4 v5 v6 v7 x1 x2 x3 x4 x5 x6 x7 s h1 h2 h3 h4 h5 h6 h7
    exact tuple7_ok c1 c2 c3 c4 c5 c6 c7 v1 v2 v3 v4 v5 v6 v7 x1 x2 x3 x4 x5 x6 x7 s h1 h2 h3 h4 h5 h6 h7
  · intro α1 α2 α3 α4 α5 α6 α7 ε c1 c2 c3 c4 c5 c6 c7 v1 v2 v3 v4 v5 v6 v7 x1 x2 x3 x4 x5 x6 x7 s h
    exact tuple7_ok_inv c1 c2 c3 c4 c5 c6 c7 v1 v2 v3 v4 v5 v6 v7 x1 x2 x3 x4 x5 x6 x7 s h
  · intro α1 α2 α3 α4 α5 α6 α7 α8 ε c1 c2 c3 c4 c5 c6 c7 c8 vs s h
    obtain ⟨t, ht⟩ := h
    by_contra hne
    rw [tuple8_length_ne c1 c2 c3 c4 c5 c6 c7 c8 vs s hne] at ht
    simp at ht
  · intro α1 α2 α3 α4 α5 α6 α7 α8 ε c1 c2 c3 c4 c5 c6 c7 c8 v1 v2 v3 v4 v5 v6 v7 v8 x1 x2 x3 x4 x5 x6 x7 x8 s h1 h2 h3 h4 h5 h6 h7 h8
    exact tuple8_ok c1 c2 c3 c4 c5 c6 c7 c8 v1 v2 v3 v4 v5 v6 v7 v8 x1 x2 x3 x4 x5 x6 x7 x8 s h1 h2 h3 h4 h5 h6 h7 h8
  · intro α1 α2 α3 α4 α5 α6 α7 α8 ε c1 c2 c3 c4 c5 c6 c7 c8 v1 v2 v3 v4 v5 v6 v7 v8 x1 x2 x3 x4 x5 x6 x7 x8 s h
    exact tuple8_ok_inv c1 c2 c3 c4 c5 c6 c7 c8 v1 v2 v3 v4 v5 v6 v7 v8 x1 x2 x3 x4 x5 x6 x7 x8 s h
  · intro α1 α2 α3 α4 α5 α6 α7 α8 α9 ε c1 c2 c3 c4 c5 c6 c7 c8 c9 vs s h
    obtain ⟨t, ht⟩ := h
    by_contra hne
    rw [tuple9_length_ne c1 c2 c3 c4 c5 c6 c7 c8 c9 vs s hne] at ht
    simp at ht
  · intro α1 α2 α3 α4 α5 α6 α7 α8 α9 ε c1 c2 c3 c4 c5 c6 c7 c8 c9 v1 v2 v3 v4 v5 v6 v7 v8 v9 x1 x2 x3 x4 x5 x6 x7 x8 x9 s h1 h2 h3 h4 h5 h6 h7 h8 h9
    exact tuple9_ok c1 c2 c3 c4 c5 c6 c7 c8 c9 v1 v2 v3 v4 v5 v6 v7 v8 v9 x1 x2 x3 x4 x5 x6 x7 x8 x9 s h1 h2 h3 h4 h5 h6 h7 h8 h9
  · intro α1 α2 α3 α4 α5 α6 α7 α8 α9 ε c1 c2 c3 c4 c5 c6 c7 c8 c9 v1 v2 v3 v4 v5 v6 v7 v8 v9 x1 x2 x3 x4 x5 x6 x7 x8 x9 s h
    exact tuple9_ok_inv c1 c2 c3 c4 c5 c6 c7 c8 c9 v1 v2 v3 v4 v5 v6 v7 v8 v9 x1 x2 x3 x4 x5 x6 x7 x8 x9 s h
  · intro α1 α2 α3 α4 α5 α6 α7 α8 α9 α10 ε c1 c2 c3 c4 c5 c6 c7 c8 c9 c10 vs s h
    obtain ⟨t, ht⟩ := h
    by_contra hne
    rw [tuple10_length_ne c1 c2 c3 c4 c5 c6 c7 c8 c9 c10 vs s hne] at ht
    simp at ht
  · intro α1 α2 α3 α4 α5 α6 α7 α8 α9 α10 ε c1 c2 c3 c4 c5 c6 c7 c8 c9 c10 v1 v2 v3 v4 v5 v6 v7 v8 v9 v10 x1 x2 x3 x4 x5 x6 x7 x8 x9 x10 s h1 h2 h3 h4 h5 h6 h7 h8 h9 h10
    exact tuple10_ok c1 c2 c3 c4 c5 c6 c7 c8 c9 c10 v1 v2 v3 v4 v5 v6 v7 v8 v9 v10 x1 x2 x3 x4 x5 x6 x7 x8 x9 x10 s h1 h2 h3 h4 h5 h6 h7 h8 h9 h10
  · intro α1 α2 α3 α4 α5 α6 α7 α8 α9 α10 ε c1 c2 c3 c4 c5 c6 c7 c8 c9 c10 v1 v2 v3 v4 v5 v6 v7 v8 v9 v10 x1 x2 x3 x4 x5 x6 x7 x8 x9 x10 s h
    exact tuple10_ok_inv c1 c2 c3 c4 c5 c6 c7 c8 c9 c10 v1 v2 v3 v4 v5 v6 v7 v8 v9 v10 x1 x2 x3 x4 x5 x6 x7 x8 x9 x10 s h
  · intro α1 α2 α3 α4 α5 α6 α7 α8 α9 α10 α11 ε c1 c2 c3 c4 c5 c6 c7 c8 c9 c10 c11 vs s h
    obtain ⟨t, ht⟩ := h
    by_contra hne
    rw [tuple11_length_ne c1 c2 c3 c4 c5 c6 c7 c8 c9 c10 c11 vs s hne] at ht
    simp at ht
  · intro α1 α2 α3 α4 α5 α6 α7 α8 α9 α10 α11 ε c1 c2 c3 c4 c5 c6 c7 c8 c9 c10 c11 v1 v2 v3 v4 v5 v6 v7 v8 v9 v10 v11 x1 x2 x3 x4 x5 x6 x7 x8 x9 x10 x11 s h1 h2 h3 h4 h5 h6 h7 h8 h9 h10 h11
    exact tuple11_ok c1 c2 c3 c4 c5 c6 c7 c8 c9 c10 c11 v1 v2 v3 v4 v5 v6 v7 v8 v9 v10 v11 x1 x2 x3 x4 x5 x6 x7 x8 x9 x10 x11 s h1 h2 h3 h4 h5 h6 h7 h8 h9 h10 h11
  · intro α1 α2 α3 α4 α5 α6 α7 α8 α9 α10 α11 ε c1 c2 c3 c4 c5 c6 c7 c8 c9 c10 c11 v1 v2 v3 v4 v5 v6 v7 v8 v9 v10 v11 x1 x2 x3 x4 x5 x6 x7 x8 x9 x10 x11 s h
    exact tuple11_ok_inv c1 c2 c3 c4 c5 c6 c7 c8 c9 c10 c11 v1 v2 v3 v4 v5 v6 v7 v8 v9 v10 v11 x1 x2 x3 x4 x5 x6 x7 x8 x9 x10 x11 s h
  · intro α1 α2 α3 α4 α5 α6 α7 α8 α9 α10 α11 α12 ε c1 c2 c3 c4 c5 c6 c7 c8 c9 c10 c11 c12 vs s h
    obtain ⟨t, ht⟩ := h
    by_contra hne
    rw [tuple12_length_ne c1 c2 c3 c4 c5 c6 c7 c8 c9 c10 c11 c12 vs s hne] at ht
    simp at ht
  · intro α1 α2 α3 α4 α5 α6 α7 α8 α9 α10 α11 α12 ε c1 c2 c3 c4 c5 c6 c7 c8 c9 c10 c11 c12 v1 v2 v3 v4 v5 v6 v7 v8 v9 v10 v11 v12 x1 x2 x3 x4 x5 x6 x7 x8 x9 x10 x11 x12 s h1 h2 h3 h4 h5 h6 h7 h8 h9 h10 h11 h12
    exact tuple12_ok c1 c2 c3 c4 c5 c6 c7 c8 c9 c10 c11 c12 v1 v2 v3 v4 v5 v6 v7 v8 v9 v10 v11 v12 x1 x2 x3 x4 x5 x6 x7 x8 x9 x10 x11 x12 s h1 h2 h3 h4 h5 h6 h7 h8 h9 h10 h11 h12
  · intro α1 α2 α3 α4 α5 α6 α7 α8 α9 α10 α11 α12 ε c1 c2 c3 c4 c5 c6 c7 c8 c9 c10 c11 c12 v1 v2 v3 v4 v5 v6 v7 v8 v9 v10 v11 v12 x1 x2 x3 x4 x5 x6 x7 x8 x9 x10 x11 x12 s h
    exact tuple12_ok_inv c1 c2 c3 c4 c5 c6 c7 c8 c9 c10 c11 c12 v1 v2 v3 v4 v5 v6 v7 v8 v9 v10 v11 v12 x1 x2 x3 x4 x5 x6 x7 x8 x9 x10 x11 x12 s h

/-- Witness for claim C4 at the spec's concrete scenario 4: the row
`[Bit true, Integer 42, NULL]` converts positionally to
`(some true, some 42, none)` for a 3-tuple of optional targets. -/
theorem C4_amended_witness :
    tryFromRowTuple3 (optCap boolCap) (optCap u32Cap) (optCap textCap)
      [some (Value.Bit true), some (Value.Integer 42), none] [] =
      Except.ok (some true, some 42, none) :=
  C4_amended.2.2.2.2.2.2.2.1 (Option Bool) (Option Nat) (Option String) ScalarConvertError
    (optCap boolCap) (optCap u32Cap) (optCap textCap)
    (some (Value.Bit true)) (some (Value.Integer 42)) none
    (some true) (some 42) none [] rfl rfl rfl

/-- Claim C5: for every tuple arity 1..12, on a row of matching length,
if some position's scalar conversion fails then the whole conversion
returns `ValueConvertError` wrapping the cause of the first failing
position (the first error in left-to-right position order); the
capabilities of all later positions are universally quantified and do
not influence the result, so no later position is converted, no partial
result is returned, and multiple failures are never aggregated. -/
theorem C5_fail_fast :
    (∀ (α1 ε : Type) (c1 : TryFromValueCap α1 ε) (v1 : Option Value)
      (s : List ColumnType) (e : ε),
      firstErr [statusOf (c1.tryFromValue v1)] = some e →
      tryFromRowTuple1 c1 [v1] s =
        Except.error (RowConvertTupleError.ValueConvertError e)) ∧
    (∀ (α1 α2 ε : Type) (c1 : TryFromValueCap α1 ε) (c2 : TryFromValueCap α2 ε) (v1 v2 : Option Value)
      (s : List ColumnType) (e : ε),
      firstErr [statusOf (c1.tryFromValue v1), statusOf (c2.tryFromValue v2)] = some e →
      tryFromRowTuple2 c1 c2 [v1, v2] s =
        Except.error (RowConvertTupleError.ValueConvertError e)) ∧
    (∀ (α1 α2 α3 ε : Type) (c1 : TryFromValueCap α1 ε) (c2 : TryFromValueCap α2 ε) (c3 : TryFromValueCap α3 ε) (v1 v2 v3 : Option Value)
      (s : List ColumnType) (e : ε),
      firstErr [statusOf (c1.tryFromValue v1), statusOf (c2.tryFromValue v2), statusOf (c3.tryFromValue v3)] = some e →
      tryFromRowTuple3 c1 c2 c3 [v1, v2, v3] s =
        Except.error (RowConvertTupleError.ValueConvertError e)) ∧
    (∀ (α1 α2 α3 α4 ε : Type) (c1 : TryFromValueCap α1 ε) (c2 : TryFromValueCap α2 ε) (c3 : TryFromValueCap α3 ε) (c4 : TryFromValueCap α4 ε) (v1 v2 v3 v4 : Option Value)
      (s : List ColumnType) (e : ε),
      firstErr [statusOf (c1.tryFromValue v1), statusOf (c2.tryFromValue v2), statusOf (c3.tryFromValue v3), statusOf (c4.tryFromValue v4)] = some e →
      tryFromRowTuple4 c1 c2 c3 c4 [v1, v2, v3, v4] s =
        Except.error (RowConvertTupleError.ValueConvertError e)) ∧
    (∀ (α1 α2 α3 α4 α5 ε : Type) (c1 : TryFromValueCap α1 ε) (c2 : TryFromValueCap α2 ε) (c3 : TryFromValueCap α3 ε) (c4 : TryFromValueCap α4 ε) (c5 : TryFromValueCap α5 ε) (v1 v2 v3 v4 v5 : Option Value)
      (s : List ColumnType) (e : ε),
      firstErr [statusOf (c1.tryFromValue v1), statusOf (c2.tryFromValue v2), statusOf (c3.tryFromValue v3), statusOf (c4.tryFromValue v4), statusOf (c5.tryFromValue v5)] = some e →
      tryFromRowTuple5 c1 c2 c3 c4 c5 [v1, v2, v3, v4, v5] s =
        Except.error (RowConvertTupleError.ValueConvertError e)) ∧
    (∀ (α1 α2 α3 α4 α5 α6 ε : Type) (c1 : TryFromValueCap α1 ε) (c2 : TryFromValueCap α2 ε) (c3 : TryFromValueCap α3 ε) (c4 : TryFromValueCap α4 ε) (c5 : TryFromValueCap α5 ε) (c6 : TryFromValueCap α6 ε) (v1 v2 v3 v4 v5 v6 : Option Value)
      (s : List ColumnType) (e : ε),
      firstErr [statusOf (c1.tryFromValue v1), statusOf (c2.tryFromValue v2), statusOf (c3.tryFromValue v3), statusOf (c4.tryFromValue v4), statusOf (c5.tryFromValue v5), statusOf (c6.tryFromValue v6)] = some e →
      tryFromRowTuple6 c1 c2 c3 c4 c5 c6 [v1, v2, v3, v4, v5, v6] s =
        Except.error (RowConvertTupleError.ValueConvertError e)) ∧
    (∀ (α1 α2 α3 α4 α5 α6 α7 ε : Type) (c1 : TryFromValueCap α1 ε) (c2 : TryFromValueCap α2 ε) (c3 : TryFromValueCap α3 ε) (c4 : TryFromValueCap α4 ε) (c5 : TryFromValueCap α5 ε) (c6 : TryFromValueCap α6 ε) (c7 : TryFromValueCap α7 ε) (v1 v2 v3 v4 v5 v6 v7 : Option Value)
      (s : List ColumnType) (e : ε),
      firstErr [statusOf (c1.tryFromValue v1), statusOf (c2.tryFromValue v2), statusOf (c3.tryFromValue v3), statusOf (c4.tryFromValue v4), statusOf (c5.tryFromValue v5), statusOf (c6.tryFromValue v6), statusOf (c7.tryFromValue v7)] = some e →
      tryFromRowTuple7 c1 c2 c3 c4 c5 c6 c7 [v1, v2, v3, v4, v5, v6, v7] s =
        Except.error (RowConvertTupleError.ValueConvertError e)) ∧
    (∀ (α1 α2 α3 α4 α5 α6 α7 α8 ε : Type) (c1 : TryFromValueCap α1 ε) (c2 : TryFromValueCap α2 ε) (c3 : TryFromValueCap α3 ε) (c4 : TryFromValueCap α4 ε) (c5 : TryFromValueCap α5 ε) (c6 : TryFromValueCap α6 ε) (c7 : TryFromValueCap α7 ε) (c8 : TryFromValueCap α8 ε) (v1 v2 v3 v4 v5 v6 v7 v8 : Option Value)
      (s : List ColumnType) (e : ε),
      firstErr [statusOf (c1.tryFromValue v1), statusOf (c2.tryFromValue v2), statusOf (c3.tryFromValue v3), statusOf (c4.tryFromValue v4), statusOf (c5.tryFromValue v5), statusOf (c6.tryFromValue v6), statusOf (c7.tryFromValue v7), statusOf (c8.tryFromValue v8)] = some e →
      tryFromRowTuple8 c1 c2 c3 c4 c5 c6 c7 c8 [v1, v2, v3, v4, v5, v6, v7, v8] s =
        Except.error (RowConvertTupleError.ValueConvertError e)) ∧
    (∀ (α1 α2 α3 α4 α5 α6 α7 α8 α9 ε : Type) (c1 : TryFromValueCap α1 ε) (c2 : TryFromValueCap α2 ε) (c3 : TryFromValueCap α3 ε) (c4 : TryFromValueCap α4 ε) (c5 : TryFromValueCap α5 ε) (c6 : TryFromValueCap α6 ε) (c7 : TryFromValueCap α7 ε) (c8 : TryFromValueCap α8 ε) (c9 : TryFromValueCap α9 ε) (v1 v2 v3 v4 v5 v6 v7 v8 v9 : Option Value)
      (s : List ColumnType) (e : ε),
      firstErr [statusOf (c1.tryFromValue v1), statusOf (c2.tryFromValue v2), statusOf (c3.tryFromValue v3), statusOf (c4.tryFromValue v4), statusOf (c5.tryFromValue v5), statusOf (c6.tryFromValue v6), statusOf (c7.tryFromValue v7), statusOf (c8.tryFromValue v8), statusOf (c9.tryFromValue v9)] = some e →
      tryFromRowTuple9 c1 c2 c3 c4 c5 c6 c7 c8 c9 [v1, v2, v3, v4, v5, v6, v7, v8, v9] s =
        Except.error (RowConvertTupleError.ValueConvertError e)) ∧
    (∀ (α1 α2 α3 α4 α5 α6 α7 α8 α9 α10 ε : Type) (c1 : TryFromValueCap α1 ε) (c2 : TryFromValueCap α2 ε) (c3 : TryFromValueCap α3 ε) (c4 : TryFromValueCap α4 ε) (c5 : TryFromValueCap α5 ε) (c6 : TryFromValueCap α6 ε) (c7 : TryFromValueCap α7 ε) (c8 : TryFromValueCap α8 ε) (c9 : TryFromValueCap α9 ε) (c10 : TryFromValueCap α10 ε) (v1 v2 v3 v4 v5 v6 v7 v8 v9 v10 : Option Value)
      (s : List ColumnType) (e : ε),
      firstErr [statusOf (c1.tryFromValue v1), statusOf (c2.tryFromValue v2), statusOf (c3.tryFromValue v3), statusOf (c4.tryFromValue v4), statusOf (c5.tryFromValue v5), statusOf (c6.tryFromValue v6), statusOf (c7.tryFromValue v7), statusOf (c8.tryFromValue v8), statusOf (c9.tryFromValue v9), statusOf (c10.tryFromValue v10)] = some e →
      tryFromRowTuple10 c1 c2 c3 c4 c5 c6 c7 c8 c9 c10 [v1, v2, v3, v4, v5, v6, v7, v8, v9, v10] s =
        Except.error (RowConvertTupleError.ValueConvertError e)) ∧
    (∀ (α1 α2 α3 α4 α5 α6 α7 α8 α9 α10 α11 ε : Type) (c1 : TryFromValueCap α1 ε) (c2 : TryFromValueCap α2 ε) (c3 : TryFromValueCap α3 ε) (c4 : TryFromValueCap α4 ε) (c5 : TryFromValueCap α5 ε) (c6 : TryFromValueCap α6 ε) (c7 : TryFromValueCap α7 ε) (c8 : TryFromValueCap α8 ε) (c9 : TryFromValueCap α9 ε) (c10 : TryFromValueCap α10 ε) (c11 : TryFromValueCap α11 ε) (v1 v2 v3 v4 v5 v6 v7 v8 v9 v10 v11 : Option Value)
      (s : List ColumnType) (e : ε),
      firstErr [statusOf (c1.tryFromValue v1), statusOf (c2.tryFromValue v2), statusOf (c3.tryFromValue v3), statusOf (c4.tryFromValue v4), statusOf (c5.tryFromValue v5), statusOf (c6.tryFromValue v6), statusOf (c7.tryFromValue v7), statusOf (c8.tryFromValue v8), statusOf (c9.tryFromValue v9), statusOf (c10.tryFromValue v10), statusOf (c11.tryFromValue v11)] = some e →
      tryFromRowTuple11 c1 c2 c3 c4 c5 c6 c7 c8 c9 c10 c11 [v1, v2, v3, v4, v5, v6, v7, v8, v9, v10, v11] s =
        Except.error (RowConvertTupleError.ValueConvertError e)) ∧
    (∀ (α1 α2 α3 α4 α5 α6 α7 α8 α9 α10 α11 α12 ε : Type) (c1 : TryFromValueCap α1 ε) (c2 : TryFromValueCap α2 ε) (c3 : TryFromValueCap α3 ε) (c4 : TryFromValueCap α4 ε) (c5 : TryFromValueCap α5 ε) (c6 : TryFromValueCap α6 ε) (c7 : TryFromValueCap α7 ε) (c8 : TryFromValueCap α8 ε) (c9 : TryFromValueCap α9 ε) (c10 : TryFromValueCap α10 ε) (c11 : TryFromValueCap α11 ε) (c12 : TryFromValueCap α12 ε) (v1 v2 v3 v4 v5 v6 v7 v8 v9 v10 v11 v12 : Option Value)
      (s : List ColumnType) (e : ε),
      firstErr [statusOf (c1.tryFromValue v1), statusOf (c2.tryFromValue v2), statusOf (c3.tryFromValue v3), statusOf (c4.tryFromValue v4), statusOf (c5.tryFromValue v5), statusOf (c6.tryFromValue v6), statusOf (c7.tryFromValue v7), statusOf (c8.tryFromValue v8), statusOf (c9.tryFromValue v9), statusOf (c10.tryFromValue v10), statusOf (c11.tryFromValue v11), statusOf (c12.tryFromValue v12)] = some e →
      tryFromRowTuple12 c1 c2 c3 c4 c5 c6 c7 c8 c9 c10 c11 c12 [v1, v2, v3, v4, v5, v6, v7, v8, v9, v10, v11, v12] s =
        Except.error (RowConvertTupleError.ValueConvertError e)) :=
  ⟨fun _ _ c1 v1 s e h => tuple1_firstErr c1 v1 s e h,
   fun _ _ _ c1 c2 v1 v2 s e h => tuple2_firstErr c1 c2 v1 v2 s e h,
   fun _ _ _ _ c1 c2 c3 v1 v2 v3 s e h => tuple3_firstErr c1 c2 c3 v1 v2 v3 s e h,
   fun _ _ _ _ _ c1 c2 c3 c4 v1 v2 v3 v4 s e h => tuple4_firstErr c1 c2 c3 c4 v1 v2 v3 v4 s e h,
   fun _ _ _ _ _ _ c1 c2 c3 c4 c5 v1 v2 v3 v4 v5 s e h => tuple5_firstErr c1 c2 c3 c4 c5 v1 v2 v3 v4 v5 s e h,
   fun _ _ _ _ _ _ _ c1 c2 c3 c4 c5 c6 v1 v2 v3 v4 v5 v6 s e h => tuple6_firstErr c1 c2 c3 c4 c5 c6 v1 v2 v3 v4 v5 v6 s e h,
   fun _ _ _ _ _ _ _ _ c1 c2 c3 c4 c5 c6 c7 v1 v2 v3 v4 v5 v6 v7 s e h => tuple7_firstErr c1 c2 c3 c4 c5 c6 c7 v1 v2 v3 v4 v5 v6 v7 s e h,
   fun _ _ _ _ _ _ _ _ _ c1 c2 c3 c4 c5 c6 c7 c8 v1 v2 v3 v4 v5 v6 v7 v8 s e h => tuple8_firstErr c1 c2 c3 c4 c5 c6 c7 c8 v1 v2 v3 v4 v5 v6 v7 v8 s e h,
   fun _ _ _ _ _ _ _ _ _ _ c1 c2 c3 c4 c5 c6 c7 c8 c9 v1 v2 v3 v4 v5 v6 v7 v8 v9 s e h => tuple9_firstErr c1 c2 c3 c4 c5 c6 c7 c8 c9 v1 v2 v3 v4 v5 v6 v7 v8 v9 s e h,
   fun _ _ _ _ _ _ _ _ _ _ _ c1 c2 c3 c4 c5 c6 c7 c8 c9 c10 v1 v2 v3 v4 v5 v6 v7 v8 v9 v10 s e h => tuple10_firstErr c1 c2 c3 c4 c5 c6 c7 c8 c9 c10 v1 v2 v3 v4 v5 v6 v7 v8 v9 v10 s e h,
   fun _ _ _ _ _ _ _ _ _ _ _ _ c1 c2 c3 c4 c5 c6 c7 c8 c9 c10 c11 v1 v2 v3 v4 v5 v6 v7 v8 v9 v10 v11 s e h => tuple11_firstErr c1 c2 c3 c4 c5 c6 c7 c8 c9 c10 c11 v1 v2 v3 v4 v5 v6 v7 v8 v9 v10 v11 s e h,
   fun _ _ _ _ _ _ _ _ _ _ _ _ _ c1 c2 c3 c4 c5 c6 c7 c8 c9 c10 c11 c12 v1 v2 v3 v4 v5 v6 v7 v8 v9 v10 v11 v12 s e h => tuple12_firstErr c1 c2 c3 c4 c5 c6 c7 c8 c9 c10 c11 c12 v1 v2 v3 v4 v5 v6 v7 v8 v9 v10 v11 v12 s e h⟩

/-- Witness for claim C5 at a concrete input: in a 2-tuple whose first
position fails with a type-kind mismatch, the conversion returns exactly
that cause wrapped in `ValueConvertError`, whatever the second position
would have produced. -/
theorem C5_fail_fast_witness :
    tryFromRowTuple2 i64Cap textCap [some (Value.Text "x"), some (Value.Text "y")] [] =
      Except.error (RowConvertTupleError.ValueConvertError (ScalarConvertError.UnexpectedType "i64")) :=
  C5_fail_fast.2.1 Int String ScalarConvertError i64Cap textCap
    (some (Value.Text "x")) (some (Value.Text "y")) []
    (ScalarConvertError.UnexpectedType "i64") rfl

/-- Claim C9: for every built-in target (raw `ValueRow`, unit, single
scalar, and every tuple arity 1..12), the result of `try_from_row` is
independent of the schema argument: two invocations with the same row
and any two schemas return equal results, because the built-in
strategies never read the schema. -/
theorem C9_schema_blindness :
    (∀ (vs : ValueRow) (s1 s2 : List ColumnType),
      tryFromRowRaw vs s1 = tryFromRowRaw vs s2) ∧
    (∀ (ε : Type) (vs : ValueRow) (s1 s2 : List ColumnType),
      @tryFromRowUnit ε vs s1 = @tryFromRowUnit ε vs s2) ∧
    (∀ (α ε : Type) (cap : TryFromValueCap α ε) (vs : ValueRow) (s1 s2 : List ColumnType),
      tryFromRowScalar cap vs s1 = tryFromRowScalar cap vs s2) ∧
    (∀ (α1 ε : Type) (c1 : TryFromValueCap α1 ε) (vs : ValueRow) (s1 s2 : List ColumnType),
      tryFromRowTuple1 c1 vs s1 = tryFromRowTuple1 c1 vs s2) ∧
    (∀ (α1 α2 ε : Type) (c1 : TryFromValueCap α1 ε) (c2 : TryFromValueCap α2 ε) (vs : ValueRow) (s1 s2 : List ColumnType),
      tryFromRowTuple2 c1 c2 vs s1 = tryFromRowTuple2 c1 c2 vs s2) ∧
    (∀ (α1 α2 α3 ε : Type) (c1 : TryFromValueCap α1 ε) (c2 : TryFromValueCap α2 ε) (c3 : TryFromValueCap α3 ε) (vs : ValueRow) (s1 s2 : List ColumnType),
      tryFromRowTuple3 c1 c2 c3 vs s1 = tryFromRowTuple3 c1 c2 c3 vs s2) ∧
    (∀ (α1 α2 α3 α4 ε : Type) (c1 : TryFromValueCap α1 ε) (c2 : TryFromValueCap α2 ε) (c3 : TryFromValueCap α3 ε) (c4 : TryFromValueCap α4 ε) (vs : ValueRow) (s1 s2 : List ColumnType),
      tryFromRowTuple4 c1 c2 c3 c4 vs s1 = tryFromRowTuple4 c1 c2 c3 c4 vs s2) ∧
    (∀ (α1 α2 α3 α4 α5 ε : Type) (c1 : TryFromValueCap α1 ε) (c2 : TryFromValueCap α2 ε) (c3 : TryFromValueCap α3 ε) (c4 : TryFromValueCap α4 ε) (c5 : TryFromValueCap α5 ε) (vs : ValueRow) (s1 s2 : List ColumnType),
      tryFromRowTuple5 c1 c2 c3 c4 c5 vs s1 = tryFromRowTuple5 c1 c2 c3 c4 c5 vs s2) ∧
    (∀ (α1 α2 α3 α4 α5 α6 ε : Type) (c1 : TryFromValueCap α1 ε) (c2 : TryFromValueCap α2 ε) (c3 : TryFromValueCap α3 ε) (c4 : TryFromValueCap α4 ε) (c5 : TryFromValueCap α5 ε) (c6 : TryFromValueCap α6 ε) (vs : ValueRow) (s1 s2 : List ColumnType),
      tryFromRowTuple6 c1 c2 c3 c4 c5 c6 vs s1 = tryFromRowTuple6 c1 c2 c3 c4 c5 c6 vs s2) ∧
    (∀ (α1 α2 α3 α4 α5 α6 α7 ε : Type) (c1 : TryFromValueCap α1 ε) (c2 : TryFromValueCap α2 ε) (c3 : TryFromValueCap α3 ε) (c4 : TryFromValueCap α4 ε) (c5 : TryFromValueCap α5 ε) (c6 : TryFromValueCap α6 ε) (c7 : TryFromValueCap α7 ε) (vs : ValueRow) (s1 s2 : List ColumnType),
      tryFromRowTuple7 c1 c2 c3 c4 c5 c6 c7 vs s1 = tryFromRowTuple7 c1 c2 c3 c4 c5 c6 c7 vs s2) ∧
    (∀ (α1 α2 α3 α4 α5 α6 α7 α8 ε : Type) (c1 : TryFromValueCap α1 ε) (c2 : TryFromValueCap α2 ε) (c3 : TryFromValueCap α3 ε) (c4 : TryFromValueCap α4 ε) (c5 : TryFromValueCap α5 ε) (c6 : TryFromValueCap α6 ε) (c7 : TryFromValueCap α7 ε) (c8 : TryFromValueCap α8 ε) (vs : ValueRow) (s1 s2 : List ColumnType),
      tryFromRowTuple8 c1 c2 c3 c4 c5 c6 c7 c8 vs s1 = tryFromRowTuple8 c1 c2 c3 c4 c5 c6 c7 c8 vs s2) ∧
    (∀ (α1 α2 α3 α4 α5 α6 α7 α8 α9 ε : Type) (c1 : TryFromValueCap α1 ε) (c2 : TryFromValueCap α2 ε) (c3 : TryFromValueCap α3 ε) (c4 : TryFromValueCap α4 ε) (c5 : TryFromValueCap α5 ε) (c6 : TryFromValueCap α6 ε) (c7 : TryFromValueCap α7 ε) (c8 : TryFromValueCap α8 ε) (c9 : TryFromValueCap α9 ε) (vs : ValueRow) (s1 s2 : List ColumnType),
      tryFromRowTuple9 c1 c2 c3 c4 c5 c6 c7 c8 c9 vs s1 = tryFromRowTuple9 c1 c2 c3 c4 c5 c6 c7 c8 c9 vs s2) ∧
    (∀ (α1 α2 α3 α4 α5 α6 α7 α8 α9 α10 ε : Type) (c1 : TryFromValueCap α1 ε) (c2 : TryFromValueCap α2 ε) (c3 : TryFromValueCap α3 ε) (c4 : TryFromValueCap α4 ε) (c5 : TryFromValueCap α5 ε) (c6 : TryFromValueCap α6 ε) (c7 : TryFromValueCap α7 ε) (c8 : TryFromValueCap α8 ε) (c9 : TryFromValueCap α9 ε) (c10 : TryFromValueCap α10 ε) (vs : ValueRow) (s1 s2 : List ColumnType),
      tryFromRowTuple10 c1 c2 c3 c4 c5 c6 c7 c8 c9 c10 vs s1 = tryFromRowTuple10 c1 c2 c3 c4 c5 c6 c7 c8 c9 c10 vs s2) ∧
    (∀ (α1 α2 α3 α4 α5 α6 α7 α8 α9 α10 α11 ε : Type) (c1 : TryFromValueCap α1 ε) (c2 : TryFromValueCap α2 ε) (c3 : TryFromValueCap α3 ε) (c4 : TryFromValueCap α4 ε) (c5 : TryFromValueCap α5 ε) (c6 : TryFromValueCap α6 ε) (c7 : TryFromValueCap α7 ε) (c8 : TryFromValueCap α8 ε) (c9 : TryFromValueCap α9 ε) (c10 : TryFromValueCap α10 ε) (c11 : TryFromValueCap α11 ε) (vs : ValueRow) (s1 s2 : List ColumnType),
      tryFromRowTuple11 c1 c2 c3 c4 c5 c6 c7 c8 c9 c10 c11 vs s1 = tryFromRowTuple11 c1 c2 c3 c4 c5 c6 c7 c8 c9 c10 c11 vs s2) ∧
    (∀ (α1 α2 α3 α4 α5 α6 α7 α8 α9 α10 α11 α12 ε : Type) (c1 : TryFromValueCap α1 ε) (c2 : TryFromValueCap α2 ε) (c3 : TryFromValueCap α3 ε) (c4 : TryFromValueCap α4 ε) (c5 : TryFromValueCap α5 ε) (c6 : TryFromValueCap α6 ε) (c7 : TryFromValueCap α7 ε) (c8 : TryFromValueCap α8 ε) (c9 : TryFromValueCap α9 ε) (c10 : TryFromValueCap α10 ε) (c11 : TryFromValueCap α11 ε) (c12 : TryFromValueCap α12 ε) (vs : ValueRow) (s1 s2 : List ColumnType),
      tryFromRowTuple12 c1 c2 c3 c4 c5 c6 c7 c8 c9 c10 c11 c12 vs s1 = tryFromRowTuple12 c1 c2 c3 c4 c5 c6 c7 c8 c9 c10 c11 c12 vs s2) :=
  ⟨fun _ _ _ => rfl,
   fun _ _ _ _ => rfl,
   fun _ _ _ _ _ _ => rfl,
   fun _ _ _ _ _ _ => rfl,
   fun _ _ _ _ _ _ _ _ => rfl,
   fun _ _ _ _ _ _ _ _ _ _ => rfl,
   fun _ _ _ _ _ _ _ _ _ _ _ _ => rfl,
   fun _ _ _ _ _ _ _ _ _ _ _ _ _ _ => rfl,
   fun _ _ _ _ _ _ _ _ _ _ _ _ _ _ _ _ => rfl,
   fun _ _ _ _ _ _ _ _ _ _ _ _ _ _ _ _ _ _ => rfl,
   fun _ _ _ _ _ _ _ _ _ _ _ _ _ _ _ _ _ _ _ _ => rfl,
   fun _ _ _ _ _ _ _ _ _ _ _ _ _ _ _ _ _ _ _ _ _ _ => rfl,
   fun _ _ _ _ _ _ _ _ _ _ _ _ _ _ _ _ _ _ _ _ _ _ _ _ => rfl,
   fun _ _ _ _ _ _ _ _ _ _ _ _ _ _ _ _ _ _ _ _ _ _ _ _ _ _ => rfl,
   fun _ _ _ _ _ _ _ _ _ _ _ _ _ _ _ _ _ _ _ _ _ _ _ _ _ _ _ _ => rfl⟩
